import Mathlib

/-!
# JoyCon driver: codec, report framing, subcommand engine, calibration, publisher loop

A shallow embedding of `src/src/joycon.cpp` / `src/src/joycon.h`, and of the two address
functions `addrBLE` and `parseBleAddress` of `src/src/bluetooth.cpp`.

* Bytes (`uint8_t`) are natural numbers; `std::vector<uint8_t>` is `List Nat`
  and `std::array<uint8_t, n>` is a list carrying its length (`StdArray n`).
* A member function of `JoyCon` that touches the object becomes a function
  `JoyCon → Outcome α × JoyCon`: the object after the call is part of the
  result also when the call throws, because a C++ exception does not undo
  the assignments made before it.
* The HID transport (`hid_write`, `hid_read` of hidapi) is an explicit
  environment: the log of reports accepted so far, the results of the
  coming `hid_write` calls and the data the coming `hid_read` calls store.
* Calls are issued one after the other by a single thread, as the driver
  assumes for commands; `send_subcmd_get_response` runs only inside the
  constructor, before the reader thread is started.
* A `float` is a value of `F32`: IEEE-754 binary32 with round to nearest, ties to
  even, for the conversion of an integer and for `/`, `*` and `-`.
* The body of the reader thread, `update_input_report`, is run alone on the object for a
  given number of iterations of its outer loop; what it stores and which callbacks it
  calls is recorded as a list of events. A registered callback is a label; what the
  `std::function` behind a label does when called is a `Callback`, a function on the
  object that may return, throw or not return.
* The constructor is `construct`, run on what `hid_open` returns; starting the thread is
  its last step and sets `update_input_report_thread_`.
* A string is the list of its characters; `uint64_t` and `unsigned` arithmetic is
  reduced modulo `2^64` and `2^32`.
-/

/-- Fixed-size array `std::array<uint8_t, n>`: a list of bytes of length `n`. -/
abbrev StdArray (n : Nat) := { l : List Nat // l.length = n }

/-- Element access `a[i]` with an index known to be in range. -/
def StdArray.get {n : Nat} (a : StdArray n) (i : Fin n) : Nat :=
  a.val.get (i.cast a.property.symm)

/-- The exceptions thrown by the driver, with their message. -/
inductive Exception where
  | invalid_argument (what : String)
  | runtime_error (what : String)
  | out_of_range (what : String)
  deriving DecidableEq, Repr

/-- How a call ends: it returns a value, it throws, or it never returns
(a blocking `hid_read` on a stream that delivers nothing more). -/
inductive Outcome (α : Type) where
  | returns (value : α)
  | throws (e : Exception)
  | blocks
  deriving DecidableEq, Repr

/-- Forgets the value a call returns. -/
def Outcome.void {α : Type} : Outcome α → Outcome Unit
  | Outcome.returns _ => Outcome.returns ()
  | Outcome.throws e => Outcome.throws e
  | Outcome.blocks => Outcome.blocks

/-- Sequencing of two calls: the second runs on the value the first returns. -/
def Outcome.bind {α β : Type} (o : Outcome α) (f : α → Outcome β) : Outcome β :=
  match o with
  | Outcome.returns value => f value
  | Outcome.throws e => Outcome.throws e
  | Outcome.blocks => Outcome.blocks

/-- What one coming call of `hid_read` finds: a report of some bytes, or an
error (negative return value). -/
inductive HidInput where
  | report (bytes : List Nat)
  | failure
  deriving DecidableEq, Repr

/-- The transport behind `hid_device*`.
`written`: the reports `hid_write` has accepted, oldest first.
`write_faults`: for the coming `hid_write` calls, whether the call returns a
negative value (`true`); once the list is used up every write is accepted.
`incoming`: what the coming `hid_read` calls find; when it is used up the
next `hid_read` never returns. -/
structure hid_device where
  written : List (List Nat) := []
  write_faults : List Bool := []
  incoming : List HidInput := []
  deriving DecidableEq, Repr

/-- The hidapi call `hid_write(dev, data, length)`: returns the number of bytes written or
`-1`; an accepted report is appended to the log. -/
def hid_write (dev : hid_device) (data : List Nat) : Int × hid_device :=
  match dev.write_faults with
  | true :: rest => (-1, { dev with write_faults := rest })
  | false :: rest =>
    (data.length, { dev with written := dev.written ++ [data], write_faults := rest })
  | [] => (data.length, { dev with written := dev.written ++ [data] })

/-- The hidapi call `hid_read(dev, buf, length)` in blocking mode: `none` when the call
never returns, otherwise the return value (`-1` on error, else the number of bytes
stored) and the bytes stored at the start of `buf` (at most `length`). -/
def hid_read (dev : hid_device) (length : Nat) : Option (Int × List Nat × hid_device) :=
  match dev.incoming with
  | [] => none
  | HidInput.failure :: rest => some (-1, [], { dev with incoming := rest })
  | HidInput.report bytes :: rest =>
    some (((bytes.take length).length : Int), bytes.take length, { dev with incoming := rest })

/-- A zero-initialised `std::array<uint8_t, n> buf{}` whose first bytes have been
overwritten with `bytes` (at most `n` of them). -/
def StdArray.filled (n : Nat) (bytes : List Nat) : StdArray n :=
  ⟨bytes.take n ++ List.replicate (n - (bytes.take n).length) 0, by
    simp only [List.length_append, List.length_take, List.length_replicate]; omega⟩

/-- A value of the C++ type `float` (IEEE-754 binary32): a finite number, an infinity or a
NaN. The sign of a zero is not distinguished: the only divisors of this program are
conversions of integers, whose zero is `+0.0`. -/
inductive F32 where
  | finite (q : Rat)
  | inf (negative : Bool)
  | nan
  deriving DecidableEq, Repr

/-- Rounding of a rational to the nearest integer, ties to the even one. -/
def round_half_even (q : Rat) : Int :=
  if q - ⌊q⌋ < 1 / 2 then ⌊q⌋
  else if 1 / 2 < q - ⌊q⌋ then ⌊q⌋ + 1
  else if ⌊q⌋ % 2 = 0 then ⌊q⌋ else ⌊q⌋ + 1

/-- The binary32 value of an exact result `q`: round to nearest, ties to even, with 24
significant bits, exponents from `-126` (below that the spacing stays `2^-149`), and
infinity from `2^128` on. -/
def F32.round (q : Rat) : F32 :=
  if q = 0 then F32.finite 0
  else
    let e : Int := max (Int.log 2 |q|) (-126)
    let ulp : Rat := 2 ^ (e - 23)
    let r : Rat := round_half_even (q / ulp) * ulp
    if 2 ^ 128 ≤ |r| then F32.inf (decide (q < 0)) else F32.finite r

/-- Conversion `static_cast<float>(i)` of an integer, also the implicit conversion of an
`int` operand of a `float` operation. -/
def F32.of_int (i : Int) : F32 := F32.round i

/-- The `float` division `a / b`. -/
def F32.div : F32 → F32 → F32
  | F32.finite x, F32.finite y =>
    if y = 0 then (if x = 0 then F32.nan else F32.inf (decide (x < 0))) else F32.round (x / y)
  | F32.finite _, F32.inf _ => F32.finite 0
  | F32.inf s, F32.finite y => F32.inf (s != decide (y < 0))
  | F32.inf _, F32.inf _ => F32.nan
  | F32.nan, _ => F32.nan
  | _, F32.nan => F32.nan

/-- The `float` multiplication `a * b`. -/
def F32.mul : F32 → F32 → F32
  | F32.finite x, F32.finite y => F32.round (x * y)
  | F32.finite x, F32.inf s => if x = 0 then F32.nan else F32.inf (s != decide (x < 0))
  | F32.inf s, F32.finite y => if y = 0 then F32.nan else F32.inf (s != decide (y < 0))
  | F32.inf s, F32.inf t => F32.inf (s != t)
  | F32.nan, _ => F32.nan
  | _, F32.nan => F32.nan

/-- The `float` subtraction `a - b`. -/
def F32.sub : F32 → F32 → F32
  | F32.finite x, F32.finite y => F32.round (x - y)
  | F32.finite _, F32.inf s => F32.inf (!s)
  | F32.inf s, F32.finite _ => F32.inf s
  | F32.inf s, F32.inf t => if s = t then F32.nan else F32.inf s
  | F32.nan, _ => F32.nan
  | _, F32.nan => F32.nan

/-- An array `std::array<int16_t, 3>`. -/
structure Int16x3 where
  e0 : Int
  e1 : Int
  e2 : Int
  deriving DecidableEq, Repr

/-- Element access `a[j]` for `j` in `0..2`. -/
def Int16x3.get (a : Int16x3) : Nat → Int
  | 0 => a.e0
  | 1 => a.e1
  | _ => a.e2

/-- The struct `JoyCon::Offset`, with its default member initialisers. -/
structure JoyCon.Offset where
  stick_left_horizontal : Int := 0
  stick_left_vertical : Int := 0
  stick_right_horizontal : Int := 0
  stick_right_vertical : Int := 0
  gyro_x : F32 := F32.finite 0
  gyro_y : F32 := F32.finite 0
  gyro_z : F32 := F32.finite 0
  deriving DecidableEq, Repr

/-- The state of a `JoyCon` object: the fields the report-writing paths use
(`packet_number_`, `rumble_data_`, the device handle `joycon_device_`) and those of the
decoders (colours, calibration constants, the latest report `input_report_`, the public
baseline `status_offset_`, the registered callbacks). A callback is known by a number
only: what it does with the object is outside the model. The fields a C++ object leaves
uninitialised until they are assigned have an arbitrary default here.
`update_input_report_thread_` tells whether the thread object holds a started thread. -/
structure JoyCon where
  packet_number_ : Nat
  rumble_data_ : StdArray 8
  joycon_device_ : hid_device
  color_body_ : StdArray 3 := ⟨[0, 0, 0], rfl⟩
  color_btn_ : StdArray 3 := ⟨[0, 0, 0], rfl⟩
  input_hooks_ : List Nat := []
  input_report_ : StdArray 49 := StdArray.filled 49 []
  GYRO_OFFSET_X_ : Int := 0
  GYRO_OFFSET_Y_ : Int := 0
  GYRO_OFFSET_Z_ : Int := 0
  GYRO_COEFF_X_ : F32 := F32.finite 1
  GYRO_COEFF_Y_ : F32 := F32.finite 1
  GYRO_COEFF_Z_ : F32 := F32.finite 1
  ACCEL_OFFSET_X_ : Int := 0
  ACCEL_OFFSET_Y_ : Int := 0
  ACCEL_OFFSET_Z_ : Int := 0
  ACCEL_COEFF_X_ : F32 := F32.finite 1
  ACCEL_COEFF_Y_ : F32 := F32.finite 1
  ACCEL_COEFF_Z_ : F32 := F32.finite 1
  status_offset_ : JoyCon.Offset := {}
  vendor_id_ : Nat := 0
  product_id_ : Nat := 0
  serial_ : String := ""
  simple_mode_ : Bool := false
  update_input_report_thread_ : Bool := false
  deriving DecidableEq, Repr

namespace JoyCon

/-- Constant `INPUT_REPORT_SIZE` of `joycon.h`. -/
def INPUT_REPORT_SIZE : Nat := 49

/-- Constant `DEFAULT_RUMBLE_DATA` of `joycon.h`. -/
def DEFAULT_RUMBLE_DATA : StdArray 8 :=
  ⟨[0x00, 0x01, 0x40, 0x40, 0x00, 0x01, 0x40, 0x40], rfl⟩

/-- Member `JoyCon::read_input_report`: one blocking `hid_read` into a zeroed
49-byte buffer; throws when `hid_read` reports an error. -/
def read_input_report (d : JoyCon) : Outcome (StdArray 49) × JoyCon :=
  match hid_read d.joycon_device_ 49 with
  | none => (Outcome.blocks, d)
  | some (res, bytes, dev) =>
    if res < 0 then
      (Outcome.throws (Exception.runtime_error "Failed to read input report"),
        { d with joycon_device_ := dev })
    else
      (Outcome.returns (StdArray.filled 49 bytes), { d with joycon_device_ := dev })

/-- Member `JoyCon::write_output_report`: one `hid_write`; throws when it reports
an error. -/
def write_output_report (d : JoyCon) (command : List Nat) : Outcome Unit × JoyCon :=
  match hid_write d.joycon_device_ command with
  | (res, dev) =>
    if res < 0 then
      (Outcome.throws (Exception.runtime_error "Failed to write output report"),
        { d with joycon_device_ := dev })
    else
      (Outcome.returns (), { d with joycon_device_ := dev })

/-- The reply wait of `send_subcmd_get_response`,
`while (report[0] != 0x21) report = read_input_report();`,
run on the inputs still to come: the result is the report the loop ends with
and the inputs left over. The loop is total here because every iteration
consumes one coming input; with no input left the read never returns.
`reply_loop_step` below shows that an iteration is one `read_input_report`. -/
def reply_loop (report : StdArray 49) (pending : List HidInput) :
    Outcome (StdArray 49) × List HidInput :=
  if report.get 0 ≠ 0x21 then
    match pending with
    | [] => (Outcome.blocks, [])
    | HidInput.failure :: rest =>
      (Outcome.throws (Exception.runtime_error "Failed to read input report"), rest)
    | HidInput.report bytes :: rest => reply_loop (StdArray.filled 49 (bytes.take 49)) rest
  else (Outcome.returns report, pending)

/-- Member `JoyCon::send_subcmd_get_response` (`joycon.cpp` lines 81-99). -/
def send_subcmd_get_response (d : JoyCon) (subcommand : Nat) (argument : List Nat) :
    Outcome (Bool × List Nat) × JoyCon :=
  let cmd := [0x01, d.packet_number_] ++ d.rumble_data_.val ++ [subcommand] ++ argument
  match write_output_report d cmd with
  | (Outcome.throws e, d1) => (Outcome.throws e, d1)
  | (Outcome.blocks, d1) => (Outcome.blocks, d1)
  | (Outcome.returns _, d1) =>
    let d2 := { d1 with packet_number_ := (d1.packet_number_ + 1) &&& 0xF }
    match read_input_report d2 with
    | (Outcome.throws e, d3) => (Outcome.throws e, d3)
    | (Outcome.blocks, d3) => (Outcome.blocks, d3)
    | (Outcome.returns first, d3) =>
      match reply_loop first d3.joycon_device_.incoming with
      | (Outcome.throws e, rest) =>
        (Outcome.throws e, { d3 with joycon_device_ := { d3.joycon_device_ with incoming := rest } })
      | (Outcome.blocks, rest) =>
        (Outcome.blocks, { d3 with joycon_device_ := { d3.joycon_device_ with incoming := rest } })
      | (Outcome.returns report, rest) =>
        let d4 := { d3 with joycon_device_ := { d3.joycon_device_ with incoming := rest } }
        if report.get 1 = subcommand then
          (Outcome.throws (Exception.runtime_error "THREAD carefully"), d4)
        else
          let ack := (report.get 13 &&& 0x80) != 0
          let data := report.val.drop 13
          (Outcome.returns (ack, data), d4)

/-- Member `JoyCon::spi_flash_read` (`joycon.cpp` lines 101-111). `report` is the 36-byte
vector returned by `send_subcmd_get_response`. -/
def spi_flash_read (d : JoyCon) (address size : Nat) : Outcome (List Nat) × JoyCon :=
  if size > 0x1d then
    (Outcome.throws (Exception.invalid_argument "size too large for SPI read"), d)
  else
    let argument := (List.range 4).map (fun i => (address >>> (8 * i)) &&& 0xFF) ++ [size]
    match send_subcmd_get_response d 0x10 argument with
    | (Outcome.throws e, d1) => (Outcome.throws e, d1)
    | (Outcome.blocks, d1) => (Outcome.blocks, d1)
    | (Outcome.returns (ack, report), d1) =>
      if !ack then
        (Outcome.throws (Exception.runtime_error "After SPI read: got NACK"), d1)
      else if !(report[0]? == some 0x90 && report[1]? == some 0x10) then
        (Outcome.throws (Exception.runtime_error "Unexpected ACK in SPI read"), d1)
      else if !(argument == (report.drop 2).take argument.length) then
        (Outcome.throws (Exception.runtime_error "SPI argument mismatch"), d1)
      else
        (Outcome.returns ((report.drop 7).take size), d1)

/-- Member `JoyCon::get_nbit_from_input_report` (`joycon.cpp` lines 175-178). The bit offset
and the bit count are taken as naturals. The result is `none` where the C++
expression has no defined value: an index outside the array, a shift of the
promoted byte by 32 or more, or `1 << nbit` leaving the range of `int`. -/
def get_nbit_from_input_report (report : StdArray 49) (offset_byte offset_bit nbit : Nat) :
    Option Nat :=
  match report.val[offset_byte]? with
  | none => none
  | some byte =>
    if offset_bit < 32 ∧ nbit < 31 then
      some ((byte >>> offset_bit) &&& ((1 <<< nbit) - 1))
    else none

/-- The `switch (player_number)` of `set_player_lamp` and `set_player_lamp_flashing`:
the value of `binaryPattern`, or `none` for the `default:` branch, which throws. -/
def binaryPattern (player_number : Int) : Option Nat :=
  match player_number with
  | 1 => some 1
  | 2 => some 3
  | 3 => some 7
  | 4 => some 15
  | 5 => some 9
  | 6 => some 10
  | 7 => some 11
  | 8 => some 6
  | _ => none

/-- The bit pattern of a 32-bit `int` as an unsigned number (two's complement). -/
def int_bits (x : Int) : Nat := (x % 2 ^ 32).toNat

/-- Member `JoyCon::set_player_lamp_on` (`joycon.cpp` lines 351-358). -/
def set_player_lamp_on (d : JoyCon) (on_pattern : Int) : Outcome Unit × JoyCon :=
  let cmd := [0x01, d.packet_number_] ++ d.rumble_data_.val ++ [0x30]
    ++ [int_bits on_pattern &&& 0xF]
  match write_output_report d cmd with
  | (Outcome.returns _, d1) =>
    (Outcome.returns (), { d1 with packet_number_ := (d1.packet_number_ + 1) &&& 0xF })
  | (Outcome.throws e, d1) => (Outcome.throws e, d1)
  | (Outcome.blocks, d1) => (Outcome.blocks, d1)

/-- Member `JoyCon::set_player_lamp_flashing` (`joycon.cpp` lines 360-379). -/
def set_player_lamp_flashing (d : JoyCon) (player_number : Int) : Outcome Unit × JoyCon :=
  match binaryPattern player_number with
  | none => (Outcome.throws (Exception.invalid_argument "Invalid player number"), d)
  | some pattern =>
    let cmd := [0x01, d.packet_number_] ++ d.rumble_data_.val ++ [0x30]
      ++ [(pattern &&& 0xF) <<< 4]
    match write_output_report d cmd with
    | (Outcome.returns _, d1) =>
      (Outcome.returns (), { d1 with packet_number_ := (d1.packet_number_ + 1) &&& 0xF })
    | (Outcome.throws e, d1) => (Outcome.throws e, d1)
    | (Outcome.blocks, d1) => (Outcome.blocks, d1)

/-- Member `JoyCon::set_player_lamp` (`joycon.cpp` lines 381-400). -/
def set_player_lamp (d : JoyCon) (player_number : Int) : Outcome Unit × JoyCon :=
  match binaryPattern player_number with
  | none => (Outcome.throws (Exception.invalid_argument "Invalid player number"), d)
  | some pattern =>
    let cmd := [0x01, d.packet_number_] ++ d.rumble_data_.val ++ [0x30]
      ++ [pattern &&& 0xF]
    match write_output_report d cmd with
    | (Outcome.returns _, d1) =>
      (Outcome.returns (), { d1 with packet_number_ := (d1.packet_number_ + 1) &&& 0xF })
    | (Outcome.throws e, d1) => (Outcome.throws e, d1)
    | (Outcome.blocks, d1) => (Outcome.blocks, d1)

/-- Member `JoyCon::send_rumble` (`joycon.cpp` lines 402-408): the pattern is stored
before the report is written. -/
def send_rumble (d : JoyCon) (data : StdArray 8) : Outcome Unit × JoyCon :=
  let d0 := { d with rumble_data_ := data }
  let cmd := [0x10, d0.packet_number_] ++ d0.rumble_data_.val
  match write_output_report d0 cmd with
  | (Outcome.returns _, d1) =>
    (Outcome.returns (), { d1 with packet_number_ := (d1.packet_number_ + 1) &&& 0xF })
  | (Outcome.throws e, d1) => (Outcome.throws e, d1)
  | (Outcome.blocks, d1) => (Outcome.blocks, d1)

/-- Member `JoyCon::enable_vibration` (`joycon.cpp` lines 410-417). -/
def enable_vibration (d : JoyCon) (enable : Bool) : Outcome Unit × JoyCon :=
  let cmd := [0x01, d.packet_number_] ++ d.rumble_data_.val ++ [0x48]
    ++ [if enable then 0x01 else 0x00]
  match write_output_report d cmd with
  | (Outcome.returns _, d1) =>
    (Outcome.returns (), { d1 with packet_number_ := (d1.packet_number_ + 1) &&& 0xF })
  | (Outcome.throws e, d1) => (Outcome.throws e, d1)
  | (Outcome.blocks, d1) => (Outcome.blocks, d1)

/-- The array literal passed to `send_rumble` in `JoyCon::rumble_simple`. -/
def RUMBLE_SIMPLE_DATA : StdArray 8 :=
  ⟨[0x98, 0x2e, 0xc6, 0x48, 0x98, 0x1e, 0xc6, 0x47], rfl⟩

/-- The array literal passed to `send_rumble` in `JoyCon::rumble_bump`. -/
def RUMBLE_BUMP_DATA : StdArray 8 :=
  ⟨[0x98, 0x1e, 0xc1, 0x51, 0x98, 0x1e, 0xc1, 0x12], rfl⟩

/-- Member `JoyCon::rumble_simple`. -/
def rumble_simple (d : JoyCon) : Outcome Unit × JoyCon :=
  send_rumble d RUMBLE_SIMPLE_DATA

/-- Member `JoyCon::rumble_bump`. -/
def rumble_bump (d : JoyCon) : Outcome Unit × JoyCon :=
  send_rumble d RUMBLE_BUMP_DATA

/-- Member `JoyCon::rumble_stop`. -/
def rumble_stop (d : JoyCon) : Outcome Unit × JoyCon :=
  send_rumble d DEFAULT_RUMBLE_DATA

/-- Member `JoyCon::disconnect_device` (`joycon.cpp` lines 431-438). -/
def disconnect_device (d : JoyCon) : Outcome Unit × JoyCon :=
  let cmd := [0x01, d.packet_number_] ++ d.rumble_data_.val ++ [0x06] ++ [0x00]
  match write_output_report d cmd with
  | (Outcome.returns _, d1) =>
    (Outcome.returns (), { d1 with packet_number_ := (d1.packet_number_ + 1) &&& 0xF })
  | (Outcome.throws e, d1) => (Outcome.throws e, d1)
  | (Outcome.blocks, d1) => (Outcome.blocks, d1)

/-- Member `JoyCon::setup_sensors` (`joycon.cpp` lines 162-168); the 20 ms sleep between
the two writes has no effect on the state. -/
def setup_sensors (d : JoyCon) : Outcome Unit × JoyCon :=
  match write_output_report d ([0x01, d.packet_number_] ++ d.rumble_data_.val ++ [0x40, 0x01]) with
  | (Outcome.throws e, d1) => (Outcome.throws e, d1)
  | (Outcome.blocks, d1) => (Outcome.blocks, d1)
  | (Outcome.returns _, d1) =>
    let d2 := { d1 with packet_number_ := (d1.packet_number_ + 1) &&& 0xF }
    match write_output_report d2
        ([0x01, d2.packet_number_] ++ d2.rumble_data_.val ++ [0x03, 0x30]) with
    | (Outcome.throws e, d3) => (Outcome.throws e, d3)
    | (Outcome.blocks, d3) => (Outcome.blocks, d3)
    | (Outcome.returns _, d3) =>
      (Outcome.returns (), { d3 with packet_number_ := (d3.packet_number_ + 1) &&& 0xF })

/-- Member `JoyCon::to_int16le_from_2bytes` (`joycon.cpp` lines 170-173). The first
parameter is the byte read first. `uint16le` is a `uint16_t`, hence the reduction modulo
`2^16`; the value returned lies in the range of `int16_t`. -/
def to_int16le_from_2bytes (hbytebe lbytebe : Nat) : Int :=
  let uint16le := ((lbytebe <<< 8) ||| hbytebe) % 65536
  if uint16le < 32768 then (uint16le : Int) else (uint16le : Int) - 65536

/-- The macro `BUTTON_GETTER(NAME, BYTE, BIT, NBIT)` of `joycon.cpp`: the getter `get_NAME`
returns `get_nbit_from_input_report(report, BYTE, BIT, NBIT)`. Every use has
`BYTE < 49` and `BIT + NBIT ≤ 8`, where the call has a value
(`get_nbit_from_input_report_value`), so the fallback `0` is never taken. -/
def BUTTON_GETTER (BYTE BIT NBIT : Nat) (report : StdArray 49) : Nat :=
  (get_nbit_from_input_report report BYTE BIT NBIT).getD 0

/-- Member `JoyCon::get_stick_left_horizontal` (`joycon.cpp` lines 244-246). -/
def get_stick_left_horizontal (report : StdArray 49) : Nat :=
  (get_nbit_from_input_report report 6 0 8).getD 0
    ||| ((get_nbit_from_input_report report 7 0 4).getD 0 <<< 8)

/-- Member `JoyCon::get_stick_left_vertical` (`joycon.cpp` lines 247-249). -/
def get_stick_left_vertical (report : StdArray 49) : Nat :=
  (get_nbit_from_input_report report 7 4 4).getD 0
    ||| ((get_nbit_from_input_report report 8 0 8).getD 0 <<< 4)

/-- Member `JoyCon::get_stick_right_horizontal` (`joycon.cpp` lines 250-252). -/
def get_stick_right_horizontal (report : StdArray 49) : Nat :=
  (get_nbit_from_input_report report 9 0 8).getD 0
    ||| ((get_nbit_from_input_report report 10 0 4).getD 0 <<< 8)

/-- Member `JoyCon::get_stick_right_vertical` (`joycon.cpp` lines 253-255). -/
def get_stick_right_vertical (report : StdArray 49) : Nat :=
  (get_nbit_from_input_report report 10 4 4).getD 0
    ||| ((get_nbit_from_input_report report 11 0 8).getD 0 <<< 4)

/-- Getter `get_battery_charging`: `BUTTON_GETTER(battery_charging, 2, 4, 1)`. -/
def get_battery_charging (report : StdArray 49) : Nat := BUTTON_GETTER 2 4 1 report

/-- Getter `get_battery_level`: `BUTTON_GETTER(battery_level, 2, 5, 3)`. -/
def get_battery_level (report : StdArray 49) : Nat := BUTTON_GETTER 2 5 3 report

/-- Getter `get_button_y`: `BUTTON_GETTER(button_y, 3, 0, 1)`. -/
def get_button_y (report : StdArray 49) : Nat := BUTTON_GETTER 3 0 1 report

/-- Getter `get_button_x`: `BUTTON_GETTER(button_x, 3, 1, 1)`. -/
def get_button_x (report : StdArray 49) : Nat := BUTTON_GETTER 3 1 1 report

/-- Getter `get_button_b`: `BUTTON_GETTER(button_b, 3, 2, 1)`. -/
def get_button_b (report : StdArray 49) : Nat := BUTTON_GETTER 3 2 1 report

/-- Getter `get_button_a`: `BUTTON_GETTER(button_a, 3, 3, 1)`. -/
def get_button_a (report : StdArray 49) : Nat := BUTTON_GETTER 3 3 1 report

/-- Getter `get_button_right_sr`: `BUTTON_GETTER(button_right_sr, 3, 4, 1)`. -/
def get_button_right_sr (report : StdArray 49) : Nat := BUTTON_GETTER 3 4 1 report

/-- Getter `get_button_right_sl`: `BUTTON_GETTER(button_right_sl, 3, 5, 1)`. -/
def get_button_right_sl (report : StdArray 49) : Nat := BUTTON_GETTER 3 5 1 report

/-- Getter `get_button_r`: `BUTTON_GETTER(button_r, 3, 6, 1)`. -/
def get_button_r (report : StdArray 49) : Nat := BUTTON_GETTER 3 6 1 report

/-- Getter `get_button_zr`: `BUTTON_GETTER(button_zr, 3, 7, 1)`. -/
def get_button_zr (report : StdArray 49) : Nat := BUTTON_GETTER 3 7 1 report

/-- Getter `get_button_minus`: `BUTTON_GETTER(button_minus, 4, 0, 1)`. -/
def get_button_minus (report : StdArray 49) : Nat := BUTTON_GETTER 4 0 1 report

/-- Getter `get_button_plus`: `BUTTON_GETTER(button_plus, 4, 1, 1)`. -/
def get_button_plus (report : StdArray 49) : Nat := BUTTON_GETTER 4 1 1 report

/-- Getter `get_button_r_stick`: `BUTTON_GETTER(button_r_stick, 4, 2, 1)`. -/
def get_button_r_stick (report : StdArray 49) : Nat := BUTTON_GETTER 4 2 1 report

/-- Getter `get_button_l_stick`: `BUTTON_GETTER(button_l_stick, 4, 3, 1)`. -/
def get_button_l_stick (report : StdArray 49) : Nat := BUTTON_GETTER 4 3 1 report

/-- Getter `get_button_home`: `BUTTON_GETTER(button_home, 4, 4, 1)`. -/
def get_button_home (report : StdArray 49) : Nat := BUTTON_GETTER 4 4 1 report

/-- Getter `get_button_capture`: `BUTTON_GETTER(button_capture, 4, 5, 1)`. -/
def get_button_capture (report : StdArray 49) : Nat := BUTTON_GETTER 4 5 1 report

/-- Getter `get_button_charging_grip`: `BUTTON_GETTER(button_charging_grip, 4, 7, 1)`. -/
def get_button_charging_grip (report : StdArray 49) : Nat := BUTTON_GETTER 4 7 1 report

/-- Getter `get_button_down`: `BUTTON_GETTER(button_down, 5, 0, 1)`. -/
def get_button_down (report : StdArray 49) : Nat := BUTTON_GETTER 5 0 1 report

/-- Getter `get_button_up`: `BUTTON_GETTER(button_up, 5, 1, 1)`. -/
def get_button_up (report : StdArray 49) : Nat := BUTTON_GETTER 5 1 1 report

/-- Getter `get_button_right`: `BUTTON_GETTER(button_right, 5, 2, 1)`. -/
def get_button_right (report : StdArray 49) : Nat := BUTTON_GETTER 5 2 1 report

/-- Getter `get_button_left`: `BUTTON_GETTER(button_left, 5, 3, 1)`. -/
def get_button_left (report : StdArray 49) : Nat := BUTTON_GETTER 5 3 1 report

/-- Getter `get_button_left_sr`: `BUTTON_GETTER(button_left_sr, 5, 4, 1)`. -/
def get_button_left_sr (report : StdArray 49) : Nat := BUTTON_GETTER 5 4 1 report

/-- Getter `get_button_left_sl`: `BUTTON_GETTER(button_left_sl, 5, 5, 1)`. -/
def get_button_left_sl (report : StdArray 49) : Nat := BUTTON_GETTER 5 5 1 report

/-- Getter `get_button_l`: `BUTTON_GETTER(button_l, 5, 6, 1)`. -/
def get_button_l (report : StdArray 49) : Nat := BUTTON_GETTER 5 6 1 report

/-- Getter `get_button_zl`: `BUTTON_GETTER(button_zl, 5, 7, 1)`. -/
def get_button_zl (report : StdArray 49) : Nat := BUTTON_GETTER 5 7 1 report

/-- Member `JoyCon::set_gyro_calibration` (`joycon.cpp` lines 181-188). The elements of the
two arrays are `int16_t` values; the constant `0x343b` is converted to `float` for the
division. -/
def set_gyro_calibration (d : JoyCon) (offset_xyz coeff_xyz : Int16x3) : JoyCon :=
  { d with
    GYRO_OFFSET_X_ := offset_xyz.e0
    GYRO_OFFSET_Y_ := offset_xyz.e1
    GYRO_OFFSET_Z_ := offset_xyz.e2
    GYRO_COEFF_X_ :=
      if coeff_xyz.e0 ≠ 0x343b then F32.div (F32.of_int 0x343b) (F32.of_int coeff_xyz.e0)
      else F32.finite 1
    GYRO_COEFF_Y_ :=
      if coeff_xyz.e1 ≠ 0x343b then F32.div (F32.of_int 0x343b) (F32.of_int coeff_xyz.e1)
      else F32.finite 1
    GYRO_COEFF_Z_ :=
      if coeff_xyz.e2 ≠ 0x343b then F32.div (F32.of_int 0x343b) (F32.of_int coeff_xyz.e2)
      else F32.finite 1 }

/-- Member `JoyCon::set_accel_calibration` (`joycon.cpp` lines 190-197). -/
def set_accel_calibration (d : JoyCon) (offset_xyz coeff_xyz : Int16x3) : JoyCon :=
  { d with
    ACCEL_OFFSET_X_ := offset_xyz.e0
    ACCEL_OFFSET_Y_ := offset_xyz.e1
    ACCEL_OFFSET_Z_ := offset_xyz.e2
    ACCEL_COEFF_X_ :=
      if coeff_xyz.e0 ≠ 0x4000 then F32.div (F32.of_int 0x4000) (F32.of_int coeff_xyz.e0)
      else F32.finite 1
    ACCEL_COEFF_Y_ :=
      if coeff_xyz.e1 ≠ 0x4000 then F32.div (F32.of_int 0x4000) (F32.of_int coeff_xyz.e1)
      else F32.finite 1
    ACCEL_COEFF_Z_ :=
      if coeff_xyz.e2 ≠ 0x4000 then F32.div (F32.of_int 0x4000) (F32.of_int coeff_xyz.e2)
      else F32.finite 1 }

/-- Member `JoyCon::register_update_hook` (`joycon.cpp` lines 199-201). -/
def register_update_hook (d : JoyCon) (callback : Nat) : JoyCon :=
  { d with input_hooks_ := d.input_hooks_ ++ [callback] }

/-- Member `JoyCon::get_accel_x` (`joycon.cpp` lines 258-262). The index expressions are
evaluated in `int`; the fallback `0` of the two element reads is never taken, because
the indices are at most 38 after the range check. `data - ACCEL_OFFSET_X_` is an `int`
subtraction, converted to `float` for the multiplication. -/
def get_accel_x (d : JoyCon) (report : StdArray 49) (sample_idx : Int) : Outcome F32 :=
  if sample_idx < 0 ∨ sample_idx > 2 then Outcome.throws (Exception.out_of_range "sample_idx")
  else
    let data := to_int16le_from_2bytes (report.val.getD (13 + sample_idx * 12).toNat 0)
      (report.val.getD (14 + sample_idx * 12).toNat 0)
    Outcome.returns (F32.mul (F32.of_int (data - d.ACCEL_OFFSET_X_)) d.ACCEL_COEFF_X_)

/-- Member `JoyCon::get_accel_y` (`joycon.cpp` lines 263-267). -/
def get_accel_y (d : JoyCon) (report : StdArray 49) (sample_idx : Int) : Outcome F32 :=
  if sample_idx < 0 ∨ sample_idx > 2 then Outcome.throws (Exception.out_of_range "sample_idx")
  else
    let data := to_int16le_from_2bytes (report.val.getD (15 + sample_idx * 12).toNat 0)
      (report.val.getD (16 + sample_idx * 12).toNat 0)
    Outcome.returns (F32.mul (F32.of_int (data - d.ACCEL_OFFSET_Y_)) d.ACCEL_COEFF_Y_)

/-- Member `JoyCon::get_accel_z` (`joycon.cpp` lines 268-272). -/
def get_accel_z (d : JoyCon) (report : StdArray 49) (sample_idx : Int) : Outcome F32 :=
  if sample_idx < 0 ∨ sample_idx > 2 then Outcome.throws (Exception.out_of_range "sample_idx")
  else
    let data := to_int16le_from_2bytes (report.val.getD (17 + sample_idx * 12).toNat 0)
      (report.val.getD (18 + sample_idx * 12).toNat 0)
    Outcome.returns (F32.mul (F32.of_int (data - d.ACCEL_OFFSET_Z_)) d.ACCEL_COEFF_Z_)

/-- Member `JoyCon::get_gyro_x` (`joycon.cpp` lines 273-277). -/
def get_gyro_x (d : JoyCon) (report : StdArray 49) (sample_idx : Int) : Outcome F32 :=
  if sample_idx < 0 ∨ sample_idx > 2 then Outcome.throws (Exception.out_of_range "sample_idx")
  else
    let data := to_int16le_from_2bytes (report.val.getD (19 + sample_idx * 12).toNat 0)
      (report.val.getD (20 + sample_idx * 12).toNat 0)
    Outcome.returns (F32.mul (F32.of_int (data - d.GYRO_OFFSET_X_)) d.GYRO_COEFF_X_)

/-- Member `JoyCon::get_gyro_y` (`joycon.cpp` lines 278-282). -/
def get_gyro_y (d : JoyCon) (report : StdArray 49) (sample_idx : Int) : Outcome F32 :=
  if sample_idx < 0 ∨ sample_idx > 2 then Outcome.throws (Exception.out_of_range "sample_idx")
  else
    let data := to_int16le_from_2bytes (report.val.getD (21 + sample_idx * 12).toNat 0)
      (report.val.getD (22 + sample_idx * 12).toNat 0)
    Outcome.returns (F32.mul (F32.of_int (data - d.GYRO_OFFSET_Y_)) d.GYRO_COEFF_Y_)

/-- Member `JoyCon::get_gyro_z` (`joycon.cpp` lines 283-287). -/
def get_gyro_z (d : JoyCon) (report : StdArray 49) (sample_idx : Int) : Outcome F32 :=
  if sample_idx < 0 ∨ sample_idx > 2 then Outcome.throws (Exception.out_of_range "sample_idx")
  else
    let data := to_int16le_from_2bytes (report.val.getD (23 + sample_idx * 12).toNat 0)
      (report.val.getD (24 + sample_idx * 12).toNat 0)
    Outcome.returns (F32.mul (F32.of_int (data - d.GYRO_OFFSET_Z_)) d.GYRO_COEFF_Z_)

/-- The struct `JoyCon::Status::Battery`. -/
structure Status.Battery where
  charging : Int
  level : Int

/-- The struct `JoyCon::Status::Buttons::Side`, with its default member initialisers. -/
structure Status.Buttons.Side where
  y : Int := 0
  x : Int := 0
  b : Int := 0
  a : Int := 0
  sr : Int := 0
  sl : Int := 0
  r : Int := 0
  zr : Int := 0
  plus : Int := 0
  home : Int := 0
  down : Int := 0
  up : Int := 0
  right : Int := 0
  left : Int := 0
  l : Int := 0
  zl : Int := 0
  minus : Int := 0
  capture : Int := 0

/-- The struct `JoyCon::Status::Buttons`. -/
structure Status.Buttons where
  right : Status.Buttons.Side := {}
  left : Status.Buttons.Side := {}

/-- The struct `JoyCon::Status::AnalogSticks::Stick`. -/
structure Status.AnalogSticks.Stick where
  horizontal : Int := 0
  vertical : Int := 0
  pressed : Int := 0

/-- The struct `JoyCon::Status::AnalogSticks`. -/
structure Status.AnalogSticks where
  left : Status.AnalogSticks.Stick := {}
  right : Status.AnalogSticks.Stick := {}

/-- The struct `JoyCon::Status::Accel`. -/
structure Status.Accel where
  x : F32 := F32.finite 0
  y : F32 := F32.finite 0
  z : F32 := F32.finite 0

/-- The struct `JoyCon::Status::Gyro`. -/
structure Status.Gyro where
  x : F32 := F32.finite 0
  y : F32 := F32.finite 0
  z : F32 := F32.finite 0

/-- The struct `JoyCon::Status`. -/
structure Status where
  battery : Status.Battery
  buttons : Status.Buttons := {}
  analog_sticks : Status.AnalogSticks := {}
  accel : Status.Accel := {}
  gyro : Status.Gyro := {}

/-- Member `JoyCon::get_status` (`joycon.cpp` lines 290-332): every field is decoded from
one copy of `input_report_`. The six sensor getters are the only calls that can throw;
they are called in the order of the source, after the assignments that cannot. -/
def get_status (d : JoyCon) : Outcome Status :=
  let report := d.input_report_
  (d.get_accel_x report 0).bind fun accel_x =>
  (d.get_accel_y report 0).bind fun accel_y =>
  (d.get_accel_z report 0).bind fun accel_z =>
  (d.get_gyro_x report 0).bind fun gyro_x =>
  (d.get_gyro_y report 0).bind fun gyro_y =>
  (d.get_gyro_z report 0).bind fun gyro_z =>
  Outcome.returns
    { battery :=
        { charging := get_battery_charging report
          level := get_battery_level report }
      buttons :=
        { right :=
            { y := get_button_y report
              x := get_button_x report
              b := get_button_b report
              a := get_button_a report
              sr := get_button_right_sr report
              sl := get_button_right_sl report
              r := get_button_r report
              zr := get_button_zr report
              plus := get_button_plus report
              home := get_button_home report }
          left :=
            { down := get_button_down report
              up := get_button_up report
              right := get_button_right report
              left := get_button_left report
              sr := get_button_left_sr report
              sl := get_button_left_sl report
              l := get_button_l report
              zl := get_button_zl report
              minus := get_button_minus report
              capture := get_button_capture report } }
      analog_sticks :=
        { left :=
            { horizontal :=
                (get_stick_left_horizontal report : Int) - d.status_offset_.stick_left_horizontal
              vertical :=
                (get_stick_left_vertical report : Int) - d.status_offset_.stick_left_vertical
              pressed := get_button_l_stick report }
          right :=
            { horizontal :=
                (get_stick_right_horizontal report : Int)
                  - d.status_offset_.stick_right_horizontal
              vertical :=
                (get_stick_right_vertical report : Int) - d.status_offset_.stick_right_vertical
              pressed := get_button_r_stick report } }
      accel :=
        { x := accel_x
          y := accel_y
          z := accel_z }
      gyro :=
        { x := F32.sub gyro_x d.status_offset_.gyro_x
          y := F32.sub gyro_y d.status_offset_.gyro_y
          z := F32.sub gyro_z d.status_offset_.gyro_z } }

/-- Member `JoyCon::status_offset` (`joycon.cpp` lines 334-347): the baseline is taken from
one copy of `input_report_`; the assignments made before a throwing getter stay. -/
def status_offset (d : JoyCon) : Outcome Unit × JoyCon :=
  let report := d.input_report_
  let d1 := { d with status_offset_ := { d.status_offset_ with
    stick_left_horizontal := get_stick_left_horizontal report
    stick_left_vertical := get_stick_left_vertical report
    stick_right_horizontal := get_stick_right_horizontal report
    stick_right_vertical := get_stick_right_vertical report } }
  match d1.get_gyro_x report 0 with
  | Outcome.throws e => (Outcome.throws e, d1)
  | Outcome.blocks => (Outcome.blocks, d1)
  | Outcome.returns gyro_x =>
    let d2 := { d1 with status_offset_ := { d1.status_offset_ with gyro_x := gyro_x } }
    match d2.get_gyro_y report 0 with
    | Outcome.throws e => (Outcome.throws e, d2)
    | Outcome.blocks => (Outcome.blocks, d2)
    | Outcome.returns gyro_y =>
      let d3 := { d2 with status_offset_ := { d2.status_offset_ with gyro_y := gyro_y } }
      match d3.get_gyro_z report 0 with
      | Outcome.throws e => (Outcome.throws e, d3)
      | Outcome.blocks => (Outcome.blocks, d3)
      | Outcome.returns gyro_z =>
        (Outcome.returns (),
          { d3 with status_offset_ := { d3.status_offset_ with gyro_z := gyro_z } })

/-- Member `JoyCon::read_joycon_data` (`joycon.cpp` lines 131-160). A vector returned by
`spi_flash_read(address, size)` has `size` elements (`spi_flash_read_length`), so the
fallback `0` of the element reads is never taken. -/
def read_joycon_data (d : JoyCon) : Outcome Unit × JoyCon :=
  match d.spi_flash_read 0x6050 6 with
  | (Outcome.throws e, d1) => (Outcome.throws e, d1)
  | (Outcome.blocks, d1) => (Outcome.blocks, d1)
  | (Outcome.returns color_data, d1) =>
    match d1.spi_flash_read 0x8026 2 with
    | (Outcome.throws e, d2) => (Outcome.throws e, d2)
    | (Outcome.blocks, d2) => (Outcome.blocks, d2)
    | (Outcome.returns marker, d2) =>
      match (if marker = [0xB2, 0xA1] then d2.spi_flash_read 0x8028 24
        else d2.spi_flash_read 0x6020 24) with
      | (Outcome.throws e, d3) => (Outcome.throws e, d3)
      | (Outcome.blocks, d3) => (Outcome.blocks, d3)
      | (Outcome.returns imu_cal, d3) =>
        let d4 := { d3 with
          color_body_ := ⟨[color_data.getD 0 0, color_data.getD 1 0, color_data.getD 2 0], rfl⟩
          color_btn_ := ⟨[color_data.getD 3 0, color_data.getD 4 0, color_data.getD 5 0], rfl⟩ }
        let d5 := d4.set_accel_calibration
          ⟨to_int16le_from_2bytes (imu_cal.getD 0 0) (imu_cal.getD 1 0),
            to_int16le_from_2bytes (imu_cal.getD 2 0) (imu_cal.getD 3 0),
            to_int16le_from_2bytes (imu_cal.getD 4 0) (imu_cal.getD 5 0)⟩
          ⟨to_int16le_from_2bytes (imu_cal.getD 6 0) (imu_cal.getD 7 0),
            to_int16le_from_2bytes (imu_cal.getD 8 0) (imu_cal.getD 9 0),
            to_int16le_from_2bytes (imu_cal.getD 10 0) (imu_cal.getD 11 0)⟩
        (Outcome.returns (), d5.set_gyro_calibration
          ⟨to_int16le_from_2bytes (imu_cal.getD 12 0) (imu_cal.getD 13 0),
            to_int16le_from_2bytes (imu_cal.getD 14 0) (imu_cal.getD 15 0),
            to_int16le_from_2bytes (imu_cal.getD 16 0) (imu_cal.getD 17 0)⟩
          ⟨to_int16le_from_2bytes (imu_cal.getD 18 0) (imu_cal.getD 19 0),
            to_int16le_from_2bytes (imu_cal.getD 20 0) (imu_cal.getD 21 0),
            to_int16le_from_2bytes (imu_cal.getD 22 0) (imu_cal.getD 23 0)⟩)

/-- The wait of `update_input_report`,
`while (report[0] != 0x30) report = read_input_report();`, run on the inputs still to
come: the report the loop ends with and the inputs left over. As in `reply_loop`, an
iteration consumes one coming input. -/
def state_loop (report : StdArray 49) (pending : List HidInput) :
    Outcome (StdArray 49) × List HidInput :=
  if report.get 0 ≠ 0x30 then
    match pending with
    | [] => (Outcome.blocks, [])
    | HidInput.failure :: rest =>
      (Outcome.throws (Exception.runtime_error "Failed to read input report"), rest)
    | HidInput.report bytes :: rest => state_loop (StdArray.filled 49 (bytes.take 49)) rest
  else (Outcome.returns report, pending)

/-- What the publisher thread does that others can see: it assigns `input_report_`, and it
calls a registered callback. -/
inductive PublisherEvent where
  | stored (report : StdArray 49)
  | called (callback : Nat)
  deriving DecidableEq, Repr

/-- One iteration of the outer loop of `JoyCon::update_input_report` (`joycon.cpp` lines
115-125), with the events it produces, oldest first. The calls `cb(*this)` are recorded
here and not run: this is the loop with callbacks that return and leave the object as it
is. `update_input_report_iteration_calling` runs them. -/
def update_input_report_iteration (d : JoyCon) : Outcome Unit × JoyCon × List PublisherEvent :=
  match read_input_report d with
  | (Outcome.throws e, d1) => (Outcome.throws e, d1, [])
  | (Outcome.blocks, d1) => (Outcome.blocks, d1, [])
  | (Outcome.returns first, d1) =>
    match state_loop first d1.joycon_device_.incoming with
    | (Outcome.throws e, rest) =>
      (Outcome.throws e,
        { d1 with joycon_device_ := { d1.joycon_device_ with incoming := rest } }, [])
    | (Outcome.blocks, rest) =>
      (Outcome.blocks,
        { d1 with joycon_device_ := { d1.joycon_device_ with incoming := rest } }, [])
    | (Outcome.returns report, rest) =>
      let d2 := { d1 with
        joycon_device_ := { d1.joycon_device_ with incoming := rest }
        input_report_ := report }
      (Outcome.returns (), d2,
        PublisherEvent.stored report :: d2.input_hooks_.map PublisherEvent.called)

/-- Member `JoyCon::update_input_report` (`joycon.cpp` lines 113-129), run alone on the
object: `iterations` is the number of times the loop finds `running_` true before it
finds it false. -/
def update_input_report : Nat → JoyCon → Outcome Unit × JoyCon × List PublisherEvent
  | 0, d => (Outcome.returns (), d, [])
  | iterations + 1, d =>
    match update_input_report_iteration d with
    | (Outcome.throws e, d1, events) => (Outcome.throws e, d1, events)
    | (Outcome.blocks, d1, events) => (Outcome.blocks, d1, events)
    | (Outcome.returns _, d1, events) =>
      match update_input_report iterations d1 with
      | (o, d2, later) => (o, d2, events ++ later)

/-- A call of a member function that can assign the modelled fields or use the channel:
the eight public commands, the three private report-writing members, and the
remaining public members that are not `const`. -/
inductive Op where
  | set_player_lamp_on (on_pattern : Int)
  | set_player_lamp_flashing (player_number : Int)
  | set_player_lamp (player_number : Int)
  | enable_vibration (enable : Bool)
  | rumble_simple
  | rumble_bump
  | rumble_stop
  | disconnect_device
  | send_subcmd_get_response (subcommand : Nat) (argument : List Nat)
  | spi_flash_read (address size : Nat)
  | setup_sensors
  | set_gyro_calibration (offset_xyz coeff_xyz : Int16x3)
  | set_accel_calibration (offset_xyz coeff_xyz : Int16x3)
  | register_update_hook (callback : Nat)
  | status_offset
  deriving DecidableEq, Repr

/-- Runs one call. `set_gyro_calibration`, `set_accel_calibration`,
`register_update_hook` and `status_offset` assign only the calibration
constants, the hook list and `status_offset_`; they use neither the channel nor
`packet_number_` / `rumble_data_`. -/
def Op.exec (op : Op) (d : JoyCon) : Outcome Unit × JoyCon :=
  match op with
  | Op.set_player_lamp_on on_pattern => d.set_player_lamp_on on_pattern
  | Op.set_player_lamp_flashing player_number => d.set_player_lamp_flashing player_number
  | Op.set_player_lamp player_number => d.set_player_lamp player_number
  | Op.enable_vibration enable => d.enable_vibration enable
  | Op.rumble_simple => d.rumble_simple
  | Op.rumble_bump => d.rumble_bump
  | Op.rumble_stop => d.rumble_stop
  | Op.disconnect_device => d.disconnect_device
  | Op.send_subcmd_get_response subcommand argument =>
    ((d.send_subcmd_get_response subcommand argument).1.void,
      (d.send_subcmd_get_response subcommand argument).2)
  | Op.spi_flash_read address size =>
    ((d.spi_flash_read address size).1.void, (d.spi_flash_read address size).2)
  | Op.setup_sensors => d.setup_sensors
  | Op.set_gyro_calibration offset_xyz coeff_xyz =>
    (Outcome.returns (), d.set_gyro_calibration offset_xyz coeff_xyz)
  | Op.set_accel_calibration offset_xyz coeff_xyz =>
    (Outcome.returns (), d.set_accel_calibration offset_xyz coeff_xyz)
  | Op.register_update_hook callback => (Outcome.returns (), d.register_update_hook callback)
  | Op.status_offset => d.status_offset

/-- Runs the calls of a sequence one after the other on the same object. A call
that throws is caught by the caller and the sequence goes on; there is no
state after a call that never returns (`none`). -/
def run : List Op → JoyCon → Option JoyCon
  | [], d => some d
  | op :: ops, d =>
    match op.exec d with
    | (Outcome.blocks, _) => none
    | (_, d1) => run ops d1

/-- Whether every call of the sequence returns normally. -/
def all_return : List Op → JoyCon → Bool
  | [], _ => true
  | op :: ops, d =>
    match op.exec d with
    | (Outcome.returns _, d1) => all_return ops d1
    | _ => false

/-- The operations named in the packet-counter contract: each writes one report
when it returns. -/
def Op.single_send : Op → Bool
  | Op.set_player_lamp_on _ => true
  | Op.set_player_lamp_flashing _ => true
  | Op.set_player_lamp _ => true
  | Op.enable_vibration _ => true
  | Op.rumble_simple => true
  | Op.rumble_bump => true
  | Op.rumble_stop => true
  | Op.disconnect_device => true
  | Op.send_subcmd_get_response _ _ => true
  | _ => false

/-- The pattern a rumble command asks for; `none` for every other call. -/
def Op.rumble_request : Op → Option (StdArray 8)
  | Op.rumble_simple => some RUMBLE_SIMPLE_DATA
  | Op.rumble_bump => some RUMBLE_BUMP_DATA
  | Op.rumble_stop => some DEFAULT_RUMBLE_DATA
  | _ => none

/-- Specification side of the rumble invariant: the pattern of the most recent rumble
command of a sequence of calls, or the compile-time default when the sequence
has none. -/
def most_recent_rumble (ops : List Op) : StdArray 8 :=
  ops.foldl (fun pattern op => (op.rumble_request).getD pattern) DEFAULT_RUMBLE_DATA

/-- Bytes 2..9 of an output report. -/
def rumble_bytes (report : List Nat) : List Nat := (report.drop 2).take 8

/-- The bytes pushed by the loop of `spi_flash_read` followed by `size`: the argument
of subcommand `0x10`. -/
def spi_argument (address size : Nat) : List Nat :=
  (List.range 4).map (fun i => (address >>> (8 * i)) &&& 0xFF) ++ [size]

/-- The stream a reply wait starts from: reports whose id is not `0x21`, then `R`. -/
def reply_stream (skipped : List (List Nat)) (R : List Nat) (rest : List HidInput) :
    List HidInput :=
  skipped.map HidInput.report ++ HidInput.report R :: rest

/-- The step every report-writing member performs: write
`[id, packet_number_] ++ rumble_data_ ++ tail`, then `packet_number_ = (packet_number_ + 1) & 0xF`
when the write did not throw. The members are shown below to be instances of it. -/
def write_frame (d : JoyCon) (id : Nat) (tail : List Nat) : Outcome Unit × JoyCon :=
  match write_output_report d ([id, d.packet_number_] ++ d.rumble_data_.val ++ tail) with
  | (Outcome.returns _, d1) =>
    (Outcome.returns (), { d1 with packet_number_ := (d1.packet_number_ + 1) &&& 0xF })
  | (Outcome.throws e, d1) => (Outcome.throws e, d1)
  | (Outcome.blocks, d1) => (Outcome.blocks, d1)

/-- The reports `new` were appended to the log `d.written` and carry consecutive
packet counters starting from that of `d`; `d1` holds the next counter. -/
structure Counted (d d1 : JoyCon) (new : List (List Nat)) : Prop where
  written : d1.joycon_device_.written = d.joycon_device_.written ++ new
  counter : d1.packet_number_ = (d.packet_number_ + new.length) % 16
  byte1 : ∀ k r, new[k]? = some r → r[1]? = some ((d.packet_number_ + k) % 16)

/-- Every report of `new` is a `0x01` report carrying the rumble pattern stored in `d`
or a `0x10` report carrying the pattern stored in `d1`. -/
def Framed (d d1 : JoyCon) (new : List (List Nat)) : Prop :=
  ∀ r ∈ new, (r[0]? = some 0x01 ∧ rumble_bytes r = d.rumble_data_.val) ∨
    (r[0]? = some 0x10 ∧ rumble_bytes r = d1.rumble_data_.val)

/-- Summary of a call that took the object from `d` to `d1`: the reports `new` were
appended, with consecutive counters when the counter of `d` is a 4-bit value, and each
carries a stored rumble pattern. -/
def Effect (d d1 : JoyCon) (new : List (List Nat)) : Prop :=
  d1.joycon_device_.written = d.joycon_device_.written ++ new ∧
  (d.packet_number_ < 16 → Counted d d1 new) ∧ Framed d d1 new

/-- A freshly initialised object (`packet_number_(0)`, `rumble_data_(DEFAULT_RUMBLE_DATA)`)
on a channel that will deliver a `0x30` report and then a `0x21` report. -/
def fresh_device : JoyCon :=
  { packet_number_ := 0
    rumble_data_ := DEFAULT_RUMBLE_DATA
    joycon_device_ :=
      { incoming := [HidInput.report [0x30, 0x01], HidInput.report [0x21, 0x05]] } }

/-- Seventeen single-report calls of mixed kinds. -/
def seventeen_calls : List Op :=
  [Op.send_subcmd_get_response 0x10 [0x50, 0x60, 0, 0, 6], Op.enable_vibration true,
    Op.set_player_lamp 4, Op.rumble_simple, Op.set_player_lamp_flashing 4,
    Op.set_player_lamp_on (-1), Op.rumble_bump, Op.disconnect_device, Op.rumble_stop]
    ++ List.replicate 8 (Op.enable_vibration false)

/-- The object `fresh_device` after `seventeen_calls`. -/
def device_after_seventeen : JoyCon :=
  { packet_number_ := 1
    rumble_data_ := DEFAULT_RUMBLE_DATA
    joycon_device_ :=
      { written :=
          [[1, 0, 0, 1, 64, 64, 0, 1, 64, 64, 16, 80, 96, 0, 0, 6],
            [1, 1, 0, 1, 64, 64, 0, 1, 64, 64, 72, 1],
            [1, 2, 0, 1, 64, 64, 0, 1, 64, 64, 48, 15],
            [16, 3, 152, 46, 198, 72, 152, 30, 198, 71],
            [1, 4, 152, 46, 198, 72, 152, 30, 198, 71, 48, 240],
            [1, 5, 152, 46, 198, 72, 152, 30, 198, 71, 48, 15],
            [16, 6, 152, 30, 193, 81, 152, 30, 193, 18],
            [1, 7, 152, 30, 193, 81, 152, 30, 193, 18, 6, 0],
            [16, 8, 0, 1, 64, 64, 0, 1, 64, 64],
            [1, 9, 0, 1, 64, 64, 0, 1, 64, 64, 72, 0],
            [1, 10, 0, 1, 64, 64, 0, 1, 64, 64, 72, 0],
            [1, 11, 0, 1, 64, 64, 0, 1, 64, 64, 72, 0],
            [1, 12, 0, 1, 64, 64, 0, 1, 64, 64, 72, 0],
            [1, 13, 0, 1, 64, 64, 0, 1, 64, 64, 72, 0],
            [1, 14, 0, 1, 64, 64, 0, 1, 64, 64, 72, 0],
            [1, 15, 0, 1, 64, 64, 0, 1, 64, 64, 72, 0],
            [1, 0, 0, 1, 64, 64, 0, 1, 64, 64, 72, 0]]
        incoming := [] } }

/-- The object `fresh_device` after one `rumble_bump()`. -/
def device_after_bump : JoyCon :=
  { packet_number_ := 1
    rumble_data_ := RUMBLE_BUMP_DATA
    joycon_device_ :=
      { written := [[16, 0, 152, 30, 193, 81, 152, 30, 193, 18]]
        incoming := [HidInput.report [0x30, 0x01], HidInput.report [0x21, 0x05]] } }

/-- A 26-byte `0x21` report answering the read of 6 bytes at address `0x6050`, with
byte 13 = `ack_byte` and byte 14 = `sub_id`; its byte 1 is 5 and its payload (bytes 20..25)
is `82 82 82 0F 0F 0F`. -/
def spi_reply (ack_byte sub_id : Nat) : List Nat :=
  [0x21, 0x05, 0x8E] ++ List.replicate 10 0
    ++ [ack_byte, sub_id, 0x50, 0x60, 0, 0, 6, 0x82, 0x82, 0x82, 0x0F, 0x0F, 0x0F]

/-- A freshly initialised object on a channel that delivers a `0x30` report and then
`reply`. -/
def spi_device (reply : List Nat) : JoyCon :=
  { packet_number_ := 0
    rumble_data_ := DEFAULT_RUMBLE_DATA
    joycon_device_ := { incoming := [HidInput.report [0x30, 0x01], HidInput.report reply] } }

/-- The object `spi_device reply` after its request was written and both reports read. -/
def spi_device_after : JoyCon :=
  { packet_number_ := 1
    rumble_data_ := DEFAULT_RUMBLE_DATA
    joycon_device_ :=
      { written := [[1, 0, 0, 1, 64, 64, 0, 1, 64, 64, 16, 0x50, 0x60, 0, 0, 6]]
        incoming := [] } }

/-- Specification side of the player-number encoding: the lookup table
`{1,3,7,15,9,10,11,6}` of the codes for players 1..8. -/
def player_code_table : List Nat := [1, 3, 7, 15, 9, 10, 11, 6]

/-- Specification side: `code(n)`, the table entry of player `n` (for `n` in 1..8). -/
def player_code (n : Int) : Option Nat := player_code_table[(n - 1).toNat]?

/-- The Command Encoder operations: rumble, LED on-pattern, LED flashing / player-number
pattern, vibration enable and disconnect. -/
def Op.is_command : Op → Bool
  | Op.set_player_lamp_on _ => true
  | Op.set_player_lamp_flashing _ => true
  | Op.set_player_lamp _ => true
  | Op.enable_vibration _ => true
  | Op.rumble_simple => true
  | Op.rumble_bump => true
  | Op.rumble_stop => true
  | Op.disconnect_device => true
  | _ => false

/-- Specification side of the stick packing: the three bytes that hold the pair `(h, v)` of
12-bit values. -/
def pack_stick (h v : Nat) : List Nat :=
  [h &&& 0xFF, (h >>> 8) ||| ((v &&& 0xF) <<< 4), v >>> 4]

/-- A report that is all zero except for the three bytes `bytes` at offset `base`. -/
def report_with (base : Nat) (bytes : List Nat) : StdArray 49 :=
  StdArray.filled 49 (List.replicate base 0 ++ bytes)

/-- The offset constant of axis slot `k`: accelerometer x, y, z (slots 0..2), then
gyroscope x, y, z (slots 3..5). -/
def axis_offset (d : JoyCon) : Nat → Int
  | 0 => d.ACCEL_OFFSET_X_
  | 1 => d.ACCEL_OFFSET_Y_
  | 2 => d.ACCEL_OFFSET_Z_
  | 3 => d.GYRO_OFFSET_X_
  | 4 => d.GYRO_OFFSET_Y_
  | _ => d.GYRO_OFFSET_Z_

/-- The coefficient constant of axis slot `k`, in the order of `axis_offset`. -/
def axis_coeff (d : JoyCon) : Nat → F32
  | 0 => d.ACCEL_COEFF_X_
  | 1 => d.ACCEL_COEFF_Y_
  | 2 => d.ACCEL_COEFF_Z_
  | 3 => d.GYRO_COEFF_X_
  | 4 => d.GYRO_COEFF_Y_
  | _ => d.GYRO_COEFF_Z_

/-- The sensor getter of axis slot `k`, in the order of `axis_offset`. -/
def axis_getter (d : JoyCon) (k : Nat) (report : StdArray 49) (sample_idx : Int) :
    Outcome F32 :=
  match k with
  | 0 => d.get_accel_x report sample_idx
  | 1 => d.get_accel_y report sample_idx
  | 2 => d.get_accel_z report sample_idx
  | 3 => d.get_gyro_x report sample_idx
  | 4 => d.get_gyro_y report sample_idx
  | _ => d.get_gyro_z report sample_idx


/-- Specification side of the calibration layout: the `k`-th 16-bit value of the calibration
bytes `b`, `v_k = to_int16le_from_2bytes(b[2k], b[2k+1])`. -/
def calibration_value (b : List Nat) (k : Nat) : Int :=
  to_int16le_from_2bytes (b.getD (2 * k) 0) (b.getD (2 * k + 1) 0)

/-- A 49-byte-or-shorter `0x21` report that answers the flash read of `payload` at the
16-bit `address`: positive acknowledgement `0x90`, subcommand id `0x10`, the echo of
address and size, then the payload. -/
def flash_reply (address : Nat) (payload : List Nat) : List Nat :=
  [0x21, 0x05, 0x8E] ++ List.replicate 10 0
    ++ [0x90, 0x10, address % 256, address / 256, 0, 0, payload.length] ++ payload

/-- Calibration bytes with the values `1, 2, -1` (accelerometer offsets),
`0x4000, 0x2000, 0x4000` (accelerometer raw coefficients), `10, -10, 0` (gyroscope
offsets) and `0x343B` three times (gyroscope raw coefficients). -/
def calibration_bytes : List Nat :=
  [0x01, 0x00, 0x02, 0x00, 0xFF, 0xFF, 0x00, 0x40, 0x00, 0x20, 0x00, 0x40,
    0x0A, 0x00, 0xF6, 0xFF, 0x00, 0x00, 0x3B, 0x34, 0x3B, 0x34, 0x3B, 0x34]

/-- A freshly initialised object on a channel that answers the three flash reads of
`read_joycon_data`: the colours, the marker of user calibration, the user calibration. -/
def calibration_device : JoyCon :=
  { packet_number_ := 0
    rumble_data_ := DEFAULT_RUMBLE_DATA
    joycon_device_ :=
      { incoming :=
          [HidInput.report (flash_reply 0x6050 [0x82, 0x82, 0x82, 0x0F, 0x0F, 0x0F]),
            HidInput.report (flash_reply 0x8026 [0xB2, 0xA1]),
            HidInput.report (flash_reply 0x8028 calibration_bytes)] } }


/-- Specification side of the publisher: the `0x30` reports among the inputs received, in
order of arrival, each as the 49-byte buffer it is read into. -/
def full_state_reports (inputs : List HidInput) : List (StdArray 49) :=
  inputs.filterMap fun input =>
    match input with
    | HidInput.report bytes =>
      if (StdArray.filled 49 bytes).get 0 = 0x30 then some (StdArray.filled 49 bytes) else none
    | HidInput.failure => none

/-- The values assigned to `input_report_`, oldest first, among the events of the
publisher. -/
def stored_reports (events : List PublisherEvent) : List (StdArray 49) :=
  events.filterMap fun event =>
    match event with
    | PublisherEvent.stored report => some report
    | PublisherEvent.called _ => none


/-- A snapshot with both sticks centred at raw `(2048, 2048)`. -/
def centred_report : StdArray 49 :=
  report_with 6 (pack_stick 2048 2048 ++ pack_stick 2048 2048)

/-- An object with two registered callbacks on a channel that delivers a `0x21` reply, a
`0x30` report, a `0x3F` report, a second `0x30` report and a second `0x21` reply. -/
def publisher_device : JoyCon :=
  { packet_number_ := 0
    rumble_data_ := DEFAULT_RUMBLE_DATA
    input_hooks_ := [7, 9]
    joycon_device_ :=
      { incoming :=
          [HidInput.report [0x21, 0x05], HidInput.report [0x30, 0x01], HidInput.report [0x3F],
            HidInput.report [0x30, 0x02], HidInput.report [0x21, 0x07]] } }


/-- Constant `JOYCON_VENDOR_ID` of `constants.h`. -/
def JOYCON_VENDOR_ID : Nat := 0x057E

/-- Constant `JOYCON_L_PRODUCT_ID` of `constants.h`. -/
def JOYCON_L_PRODUCT_ID : Nat := 0x2006

/-- Constant `JOYCON_R_PRODUCT_ID` of `constants.h`. -/
def JOYCON_R_PRODUCT_ID : Nat := 0x2007

/-- The set `JOYCON_PRODUCT_IDS` of `constants.h`. -/
def JOYCON_PRODUCT_IDS : List Nat := [JOYCON_L_PRODUCT_ID, JOYCON_R_PRODUCT_ID]

/-- Member `JoyCon::open` (`joycon.cpp` lines 45-56). `channel` is what `hid_open` returns
for the ids and the serial number: a device, or nothing for a null pointer. -/
def open_device (channel : Option hid_device) : Outcome hid_device :=
  match channel with
  | some dev => Outcome.returns dev
  | none => Outcome.throws (Exception.runtime_error "joycon connect failed")

/-- The constructor `JoyCon::JoyCon` (`joycon.cpp` lines 10-35), on the channel that
`hid_open` returns. The result is how the constructor ends and the members at that point.
The member initialisers come first; `joycon_device_(nullptr)` is an empty channel here,
never used before `open` replaces it. The thread is started by the last statement. -/
def construct (vendor_id product_id : Nat) (serial : String) (simple_mode : Bool)
    (channel : Option hid_device) : Outcome Unit × JoyCon :=
  let d0 : JoyCon :=
    { vendor_id_ := vendor_id
      product_id_ := product_id
      serial_ := serial
      simple_mode_ := simple_mode
      packet_number_ := 0
      rumble_data_ := DEFAULT_RUMBLE_DATA
      joycon_device_ := {} }
  if vendor_id ≠ JOYCON_VENDOR_ID then
    (Outcome.throws (Exception.invalid_argument "vendor_id is invalid"), d0)
  else if product_id ∉ JOYCON_PRODUCT_IDS then
    (Outcome.throws (Exception.invalid_argument "product_id is invalid"), d0)
  else
    let d1 := d0.set_accel_calibration ⟨0, 0, 0⟩ ⟨1, 1, 1⟩
    let d2 := d1.set_gyro_calibration ⟨0, 0, 0⟩ ⟨1, 1, 1⟩
    match open_device channel with
    | Outcome.throws e => (Outcome.throws e, d2)
    | Outcome.blocks => (Outcome.blocks, d2)
    | Outcome.returns dev =>
      let d3 := { d2 with joycon_device_ := dev }
      match d3.read_joycon_data with
      | (Outcome.throws e, d4) => (Outcome.throws e, d4)
      | (Outcome.blocks, d4) => (Outcome.blocks, d4)
      | (Outcome.returns _, d4) =>
        match d4.setup_sensors with
        | (Outcome.throws e, d5) => (Outcome.throws e, d5)
        | (Outcome.blocks, d5) => (Outcome.blocks, d5)
        | (Outcome.returns _, d5) =>
          (Outcome.returns (), { d5 with update_input_report_thread_ := true })

/-- The subcommand id of an output report: its byte 10, after the report id, the packet
counter and the eight rumble bytes. -/
def subcommand_ids (reports : List (List Nat)) : List (Option Nat) :=
  reports.map fun r => r[10]?

/-- The packet counters of a list of output reports: their byte 1. -/
def packet_counters (reports : List (List Nat)) : List (Option Nat) :=
  reports.map fun r => r[1]?

/-- The request report of `spi_flash_read(address, size)` on an object with packet counter
`counter` and stored pattern `rumble`. -/
def flash_read_request (counter : Nat) (rumble : StdArray 8) (address size : Nat) : List Nat :=
  [0x01, counter] ++ rumble.val ++ [0x10, address &&& 0xFF, (address >>> 8) &&& 0xFF,
    (address >>> 16) &&& 0xFF, (address >>> 24) &&& 0xFF, size]


/-- The members when `open` has returned `dev` in the constructor: the member initialisers,
the two default calibrations and the channel. -/
def opened_object (vendor_id product_id : Nat) (serial : String) (simple_mode : Bool)
    (dev : hid_device) : JoyCon :=
  { (({ vendor_id_ := vendor_id
        product_id_ := product_id
        serial_ := serial
        simple_mode_ := simple_mode
        packet_number_ := 0
        rumble_data_ := DEFAULT_RUMBLE_DATA
        joycon_device_ := {} } : JoyCon).set_accel_calibration ⟨0, 0, 0⟩
          ⟨1, 1, 1⟩).set_gyro_calibration ⟨0, 0, 0⟩ ⟨1, 1, 1⟩ with
    joycon_device_ := dev }

/-- The log of the channel that `hid_open` returns; empty when it returns no device. -/
def channel_log (channel : Option hid_device) : List (List Nat) :=
  match channel with
  | some dev => dev.written
  | none => []

/-- Specification side of the callbacks: for the `0x30` reports `reports` and the callbacks
`hooks` in registration order, each report is stored and then every callback is called,
in that order. -/
def publisher_events (hooks : List Nat) : List (StdArray 49) → List PublisherEvent
  | [] => []
  | report :: rest =>
    (PublisherEvent.stored report :: hooks.map PublisherEvent.called)
      ++ publisher_events hooks rest

/-- Specification side of the sample index check of a sensor getter: the getter throws
exactly when `sample_idx < 0 ∨ sample_idx > 2`, what it throws is
`out_of_range("sample_idx")`, it never blocks, and when it throws its outcome is the same
for every report and every object, so no byte of the report has been read. -/
def range_checked (getter : JoyCon → StdArray 49 → Int → Outcome F32) : Prop :=
  ∀ (d : JoyCon) (report : StdArray 49) (sample_idx : Int),
    ((∃ e, getter d report sample_idx = Outcome.throws e) ↔ (sample_idx < 0 ∨ sample_idx > 2)) ∧
    (getter d report sample_idx = Outcome.throws (Exception.out_of_range "sample_idx") ↔
      (sample_idx < 0 ∨ sample_idx > 2)) ∧
    getter d report sample_idx ≠ Outcome.blocks ∧
    ((sample_idx < 0 ∨ sample_idx > 2) →
      ∀ (d2 : JoyCon) (report2 : StdArray 49),
        getter d2 report2 sample_idx = getter d report sample_idx)

/-- The bit `(BYTE, BIT)` behind each button field of `get_status`, in the order of
`button_fields`: the arguments of the `BUTTON_GETTER` lines of the getters it calls. -/
def button_bits : List (Nat × Nat) :=
  [(3, 0), (3, 1), (3, 2), (3, 3), (3, 4), (3, 5), (3, 6), (3, 7), (4, 1), (4, 4),
    (5, 0), (5, 1), (5, 2), (5, 3), (5, 4), (5, 5), (5, 6), (5, 7), (4, 0), (4, 5),
    (4, 3), (4, 2)]

/-- The button fields of a status: the ten of the right side (`y x b a sr sl r zr plus
home`), the ten of the left side (`down up right left sr sl l zl minus capture`) and the
two stick-pressed flags (left, right). -/
def button_fields (s : Status) : List Int :=
  [s.buttons.right.y, s.buttons.right.x, s.buttons.right.b, s.buttons.right.a,
    s.buttons.right.sr, s.buttons.right.sl, s.buttons.right.r, s.buttons.right.zr,
    s.buttons.right.plus, s.buttons.right.home,
    s.buttons.left.down, s.buttons.left.up, s.buttons.left.right, s.buttons.left.left,
    s.buttons.left.sr, s.buttons.left.sl, s.buttons.left.l, s.buttons.left.zl,
    s.buttons.left.minus, s.buttons.left.capture,
    s.analog_sticks.left.pressed, s.analog_sticks.right.pressed]

/-- The button fields that `get_status` decodes from the snapshot `report`. -/
def decoded_buttons (d : JoyCon) (report : StdArray 49) : List Int :=
  match get_status { d with input_report_ := report } with
  | Outcome.returns s => button_fields s
  | _ => []

/-- The report `report` with bit `BIT` of byte `BYTE` flipped. -/
def flip_bit (report : StdArray 49) (BYTE BIT : Nat) : StdArray 49 :=
  ⟨report.val.set BYTE (report.val.getD BYTE 0 ^^^ 2 ^ BIT), by
    rw [List.length_set]; exact report.property⟩

/-- A report whose bytes 3..5 hold the button states `bits`, given in the order of
`button_fields`, each 0 or 1. -/
def report_of_buttons (bits : List Nat) : StdArray 49 :=
  report_with 3
    [bits.getD 0 0 + 2 * bits.getD 1 0 + 4 * bits.getD 2 0 + 8 * bits.getD 3 0
        + 16 * bits.getD 4 0 + 32 * bits.getD 5 0 + 64 * bits.getD 6 0 + 128 * bits.getD 7 0,
      bits.getD 18 0 + 2 * bits.getD 8 0 + 4 * bits.getD 21 0 + 8 * bits.getD 20 0
        + 16 * bits.getD 9 0 + 32 * bits.getD 19 0,
      bits.getD 10 0 + 2 * bits.getD 11 0 + 4 * bits.getD 12 0 + 8 * bits.getD 13 0
        + 16 * bits.getD 14 0 + 32 * bits.getD 15 0 + 64 * bits.getD 16 0
        + 128 * bits.getD 17 0]


/-- Bit `p.2` of byte `p.1` of a report, as 0 or 1. -/
def bit_of (report : StdArray 49) (p : Nat × Nat) : Nat :=
  report.val.getD p.1 0 / 2 ^ p.2 % 2


/-- A freshly initialised object on a channel whose flash has no marker of user
calibration and a factory calibration block of 24 zero bytes. -/
def zero_calibration_device : JoyCon :=
  { packet_number_ := 0
    rumble_data_ := DEFAULT_RUMBLE_DATA
    joycon_device_ :=
      { incoming :=
          [HidInput.report (flash_reply 0x6050 [0x82, 0x82, 0x82, 0x0F, 0x0F, 0x0F]),
            HidInput.report (flash_reply 0x8026 [0xFF, 0xFF]),
            HidInput.report (flash_reply 0x6020 (List.replicate 24 0))] } }

/-- A freshly initialised object on a channel that refuses the coming writes as `faults`
tells. -/
def faulty_device (faults : List Bool) : JoyCon :=
  { packet_number_ := 0
    rumble_data_ := DEFAULT_RUMBLE_DATA
    joycon_device_ := { write_faults := faults } }


/-- How a member ends when `write_output_report` throws. -/
def write_failure {α : Type} : Outcome α :=
  Outcome.throws (Exception.runtime_error "Failed to write output report")

/-- The packet counter, the stored rumble pattern and the log of `d1` are those of `d`. -/
def counter_and_pattern_kept (d d1 : JoyCon) : Prop :=
  d1.packet_number_ = d.packet_number_ ∧ d1.rumble_data_ = d.rumble_data_ ∧
    d1.joycon_device_.written = d.joycon_device_.written

/-- What a registered `std::function<void(JoyCon&)>` does when the publisher calls it as
`cb(*this)`: how the call ends and the object it leaves. A callback is code of the caller
of `register_update_hook`: it may return, throw or never return, and it may change the
object through the reference it is given. -/
abbrev Callback := JoyCon → Outcome Unit × JoyCon

/-- The loop `for (auto& cb : input_hooks_) { cb(*this); }` of `update_input_report`
(`joycon.cpp` lines 123-125) on the callbacks still to call, where `code` gives what the
callback registered under a label does. The call is not inside a `try`: a callback that
throws or never returns ends the loop, and the callbacks after it are not called. The
loop runs over the callbacks registered when it starts; a callback that changes
`input_hooks_` during the loop is outside of what C++ defines. -/
def call_input_hooks (code : Nat → Callback) :
    List Nat → JoyCon → Outcome Unit × JoyCon × List PublisherEvent
  | [], d => (Outcome.returns (), d, [])
  | cb :: rest, d =>
    match code cb d with
    | (Outcome.throws e, d1) => (Outcome.throws e, d1, [PublisherEvent.called cb])
    | (Outcome.blocks, d1) => (Outcome.blocks, d1, [PublisherEvent.called cb])
    | (Outcome.returns _, d1) =>
      match call_input_hooks code rest d1 with
      | (o, d2, events) => (o, d2, PublisherEvent.called cb :: events)

/-- One iteration of the outer loop of `JoyCon::update_input_report` (`joycon.cpp` lines
115-125) with the callbacks run: as `update_input_report_iteration`, but each call
`cb(*this)` does what `code` says, on the object as the calls before it left it. -/
def update_input_report_iteration_calling (code : Nat → Callback) (d : JoyCon) :
    Outcome Unit × JoyCon × List PublisherEvent :=
  match read_input_report d with
  | (Outcome.throws e, d1) => (Outcome.throws e, d1, [])
  | (Outcome.blocks, d1) => (Outcome.blocks, d1, [])
  | (Outcome.returns first, d1) =>
    match state_loop first d1.joycon_device_.incoming with
    | (Outcome.throws e, rest) =>
      (Outcome.throws e,
        { d1 with joycon_device_ := { d1.joycon_device_ with incoming := rest } }, [])
    | (Outcome.blocks, rest) =>
      (Outcome.blocks,
        { d1 with joycon_device_ := { d1.joycon_device_ with incoming := rest } }, [])
    | (Outcome.returns report, rest) =>
      let d2 := { d1 with
        joycon_device_ := { d1.joycon_device_ with incoming := rest }
        input_report_ := report }
      match call_input_hooks code d2.input_hooks_ d2 with
      | (o, d3, events) => (o, d3, PublisherEvent.stored report :: events)

/-- Member `JoyCon::update_input_report` (`joycon.cpp` lines 113-129) with the callbacks
run, alone on the object: `iterations` is the number of times the loop finds `running_`
true before it finds it false. An exception that leaves a callback leaves the member. -/
def update_input_report_calling (code : Nat → Callback) :
    Nat → JoyCon → Outcome Unit × JoyCon × List PublisherEvent
  | 0, d => (Outcome.returns (), d, [])
  | iterations + 1, d =>
    match update_input_report_iteration_calling code d with
    | (Outcome.throws e, d1, events) => (Outcome.throws e, d1, events)
    | (Outcome.blocks, d1, events) => (Outcome.blocks, d1, events)
    | (Outcome.returns _, d1, events) =>
      match update_input_report_calling code iterations d1 with
      | (o, d2, later) => (o, d2, events ++ later)

/-- Callbacks that return and leave the object as it is. -/
def idle_callbacks : Nat → Callback := fun _ d => (Outcome.returns (), d)

end JoyCon

/-! ## Bluetooth addresses (`src/src/bluetooth.cpp`)

A `std::string` is the list of its characters; a `uint64_t` is a natural number, reduced
modulo `2^64` where the code can overflow. -/

/-- What `ss << std::setw(width) << value` appends to a stream in `std::hex` mode with fill
character `'0'`: the lower-case hexadecimal digits of `value`, padded on the left to
`width` characters. -/
def hex_field (width value : Nat) : List Char :=
  let digits := Nat.toDigits 16 value
  List.replicate (width - digits.length) '0' ++ digits

/-- Function `addrBLE` (`bluetooth.cpp` lines 66-74): the loop over `i = 5, ..., 0`,
written out; a `':'` follows every byte but the last. -/
def addrBLE (raw : Nat) : List Char :=
  hex_field 2 ((raw >>> (5 * 8)) &&& 0xFF) ++ [':'] ++
  hex_field 2 ((raw >>> (4 * 8)) &&& 0xFF) ++ [':'] ++
  hex_field 2 ((raw >>> (3 * 8)) &&& 0xFF) ++ [':'] ++
  hex_field 2 ((raw >>> (2 * 8)) &&& 0xFF) ++ [':'] ++
  hex_field 2 ((raw >>> (1 * 8)) &&& 0xFF) ++ [':'] ++
  hex_field 2 ((raw >>> (0 * 8)) &&& 0xFF)

/-- The lambda `hexVal` of `parseBleAddress`:
`std::isdigit(c) ? (c - '0') : (std::tolower(c) - 'a' + 10)`, an `int`. -/
def hexVal (c : Char) : Int :=
  if c.isDigit then (c.toNat : Int) - ('0'.toNat : Int)
  else ((c.toLower.toNat : Int) - ('a'.toNat : Int)) + 10

/-- Conversion of an `int` to `unsigned`. -/
def to_unsigned (x : Int) : Nat := (x % 2 ^ 32).toNat

/-- The loop of `parseBleAddress` on the characters from `p` on, with the value `v` so
far. The C string ends at the first NUL character or at the end of the list. The result
is `none` where the loop would step over the terminator: a byte of one digit only. -/
def parseBleAddress_loop (v : Nat) : List Char → Option Nat
  | [] => some v
  | hi :: tail =>
    if hi = '\x00' then some v
    else
      match tail with
      | [] => none
      | lo :: rest =>
        if lo = '\x00' then none
        else
          let byte := ((to_unsigned (hexVal hi) <<< 4) % 2 ^ 32) ||| to_unsigned (hexVal lo)
          let v1 := ((v <<< 8) % 2 ^ 64) ||| byte
          match rest with
          | [] => some v1
          | sep :: rest1 =>
            if sep = ':' ∨ sep = '-' then parseBleAddress_loop v1 rest1
            else parseBleAddress_loop v1 (sep :: rest1)

/-- Function `parseBleAddress` (`bluetooth.cpp` lines 207-219). -/
def parseBleAddress (s : List Char) : Option Nat := parseBleAddress_loop 0 s

/-- The byte `(hi << 4) | lo` that `parseBleAddress` reads from two characters. -/
def parsed_byte (hi lo : Char) : Nat :=
  ((to_unsigned (hexVal hi) <<< 4) % 2 ^ 32) ||| to_unsigned (hexVal lo)

/-! ## Bit-field codec -/

/-- The mask-and-shift expression of the codec is division and remainder by powers of two. -/
theorem shift_mask_eq_div_mod (b offset_bit nbit : Nat) :
    (b >>> offset_bit) &&& ((1 <<< nbit) - 1) = b / 2 ^ offset_bit % 2 ^ nbit := by
  rw [Nat.one_shiftLeft, Nat.and_pow_two_sub_one_eq_mod, Nat.shiftRight_eq_div_pow]

/-- C3: for a 49-byte report, a byte offset below 49 and a bit field inside one byte
(`bit_offset + n_bits ≤ 8`), `get_nbit_from_input_report` has a value (it does not fail),
the value is `(report[byte_offset] >> bit_offset) & ((1 << n_bits) - 1)`, this equals
`floor(report[byte_offset] / 2^bit_offset) mod 2^n_bits`, and it is below `2^n_bits`. -/
theorem get_nbit_from_input_report_value (report : StdArray 49)
    (byte_offset bit_offset n_bits : Nat)
    (hbyte : byte_offset < 49) (hbits : bit_offset + n_bits ≤ 8) :
    ∃ b, report.val[byte_offset]? = some b ∧
      JoyCon.get_nbit_from_input_report report byte_offset bit_offset n_bits
        = some ((b >>> bit_offset) &&& ((1 <<< n_bits) - 1)) ∧
      (b >>> bit_offset) &&& ((1 <<< n_bits) - 1) = b / 2 ^ bit_offset % 2 ^ n_bits ∧
      (b >>> bit_offset) &&& ((1 <<< n_bits) - 1) < 2 ^ n_bits := by
  have hlen : byte_offset < report.val.length := by rw [report.property]; exact hbyte
  refine ⟨report.val[byte_offset], List.getElem?_eq_getElem hlen, ?_, ?_, ?_⟩
  · have h1 : bit_offset < 32 ∧ n_bits < 31 := ⟨by omega, by omega⟩
    simp only [JoyCon.get_nbit_from_input_report, List.getElem?_eq_getElem hlen, h1]
    simp
  · exact shift_mask_eq_div_mod _ _ _
  · rw [shift_mask_eq_div_mod]
    exact Nat.mod_lt _ (Nat.two_pow_pos n_bits)

/-- Witness of C3: the battery level field (byte 2, bits 5..7) of a concrete report. -/
theorem get_nbit_from_input_report_value_witness :
    ∃ b, (StdArray.filled 49 [0x30, 0x07, 0x8E]).val[2]? = some b ∧
      JoyCon.get_nbit_from_input_report (StdArray.filled 49 [0x30, 0x07, 0x8E]) 2 5 3
        = some ((b >>> 5) &&& ((1 <<< 3) - 1)) ∧
      (b >>> 5) &&& ((1 <<< 3) - 1) = b / 2 ^ 5 % 2 ^ 3 ∧
      (b >>> 5) &&& ((1 <<< 3) - 1) < 2 ^ 3 :=
  get_nbit_from_input_report_value (StdArray.filled 49 [0x30, 0x07, 0x8E]) 2 5 3
    (by decide) (by decide)

/-- C4: for `n` in 1..8, a bit offset with `offset + n ≤ 8` and a value `v < 2^n`,
extracting `n` bits at that offset from a report whose addressed byte is `v` encoded
into a zeroed byte (`0 | (v << offset)`) returns `v`. -/
theorem get_nbit_from_input_report_round_trip (report : StdArray 49)
    (byte_offset offset n v : Nat)
    (hn1 : 1 ≤ n) (hn8 : n ≤ 8) (hoff : offset + n ≤ 8) (hv : v < 2 ^ n)
    (hbyte : report.val[byte_offset]? = some (0 ||| (v <<< offset))) :
    JoyCon.get_nbit_from_input_report report byte_offset offset n = some v := by
  have h1 : offset < 32 ∧ n < 31 := ⟨by omega, by omega⟩
  simp only [JoyCon.get_nbit_from_input_report, hbyte, h1]
  simp only [and_self, if_true, Option.some.injEq]
  rw [shift_mask_eq_div_mod, Nat.zero_or, Nat.shiftLeft_eq,
    Nat.mul_div_cancel _ (Nat.two_pow_pos offset), Nat.mod_eq_of_lt hv]

/-- Witness of C4: the value 5 in the three bits 4..6 of byte 2. -/
theorem get_nbit_from_input_report_round_trip_witness :
    JoyCon.get_nbit_from_input_report (StdArray.filled 49 [0, 0, 0 ||| (5 <<< 4)]) 2 4 3
      = some 5 :=
  get_nbit_from_input_report_round_trip (StdArray.filled 49 [0, 0, 0 ||| (5 <<< 4)]) 2 4 3 5
    (by decide) (by decide) (by decide) (by decide) (by decide)

/-! ## Report framing: one write, then the counter advances -/

namespace JoyCon

theorem and_0xF (x : Nat) : x &&& 0xF = x % 16 :=
  Nat.and_pow_two_sub_one_eq_mod x 4

/-- The two ways `write_output_report` ends: the report is appended to the log, or it
throws and the log is unchanged; nothing else of the object changes but the fault list. -/
theorem write_output_report_cases (d : JoyCon) (command : List Nat) :
    (write_output_report d command =
        (Outcome.returns (), { d with joycon_device_ :=
          { d.joycon_device_ with
            written := d.joycon_device_.written ++ [command],
            write_faults := d.joycon_device_.write_faults.tail } }) ∧
      d.joycon_device_.write_faults.head? ≠ some true) ∨
    (write_output_report d command =
        (Outcome.throws (Exception.runtime_error "Failed to write output report"),
          { d with joycon_device_ :=
            { d.joycon_device_ with write_faults := d.joycon_device_.write_faults.tail } }) ∧
      d.joycon_device_.write_faults.head? = some true) := by
  unfold write_output_report hid_write
  rcases hf : d.joycon_device_.write_faults with _ | ⟨b, rest⟩
  · left; simp
  · cases b
    · left; simp
    · right; simp

theorem write_frame_cases (d : JoyCon) (id : Nat) (tail : List Nat) :
    (write_frame d id tail =
        (Outcome.returns (), { d with
          packet_number_ := (d.packet_number_ + 1) % 16
          joycon_device_ :=
          { d.joycon_device_ with
            written := d.joycon_device_.written
              ++ [[id, d.packet_number_] ++ d.rumble_data_.val ++ tail],
            write_faults := d.joycon_device_.write_faults.tail } }) ∧
      d.joycon_device_.write_faults.head? ≠ some true) ∨
    (write_frame d id tail =
        (Outcome.throws (Exception.runtime_error "Failed to write output report"),
          { d with joycon_device_ :=
            { d.joycon_device_ with write_faults := d.joycon_device_.write_faults.tail } }) ∧
      d.joycon_device_.write_faults.head? = some true) := by
  unfold write_frame
  rcases write_output_report_cases d ([id, d.packet_number_] ++ d.rumble_data_.val ++ tail)
    with ⟨h, hf⟩ | ⟨h, hf⟩
  · left; rw [h]; simp [and_0xF, hf]
  · right; rw [h]; simp [hf]

theorem rumble_bytes_frame (id counter : Nat) (rumble : StdArray 8) (tail : List Nat) :
    rumble_bytes ([id, counter] ++ rumble.val ++ tail) = rumble.val := by
  have h : rumble.val.length = 8 := rumble.property
  simp only [rumble_bytes, List.cons_append, List.nil_append, List.drop_succ_cons, List.drop_zero]
  rw [List.take_append_of_le_length (by omega), List.take_of_length_le (by omega)]

/-- What one `write_frame` does: at most one report is appended; it carries the counter
and the rumble pattern of the object before the call; only the counter, the log and the
fault list change; the step returns or throws. -/
theorem write_frame_effect (d : JoyCon) (id : Nat) (tail : List Nat) :
    ∃ new, (write_frame d id tail).2.joycon_device_.written = d.joycon_device_.written ++ new ∧
      (d.packet_number_ < 16 → Counted d (write_frame d id tail).2 new) ∧
      (∀ r ∈ new, r[0]? = some id ∧ rumble_bytes r = d.rumble_data_.val) ∧
      (write_frame d id tail).2.rumble_data_ = d.rumble_data_ ∧
      (write_frame d id tail).2.joycon_device_.incoming = d.joycon_device_.incoming ∧
      ((write_frame d id tail).1 = Outcome.returns () →
        new = [[id, d.packet_number_] ++ d.rumble_data_.val ++ tail] ∧
        (write_frame d id tail).2.packet_number_ = (d.packet_number_ + 1) % 16) ∧
      ((write_frame d id tail).1 ≠ Outcome.returns () →
        new = [] ∧ (write_frame d id tail).2.packet_number_ = d.packet_number_) ∧
      (write_frame d id tail).1 ≠ Outcome.blocks := by
  rcases write_frame_cases d id tail with ⟨h, _⟩ | ⟨h, _⟩
  · refine ⟨[[id, d.packet_number_] ++ d.rumble_data_.val ++ tail], ?_, ?_, ?_, ?_, ?_, ?_, ?_, ?_⟩
    · rw [h]
    · intro hpn
      refine ⟨by rw [h], by rw [h]; simp, ?_⟩
      intro k r hk
      rcases k with _ | k
      · simp at hk
        subst hk
        simp [Nat.mod_eq_of_lt hpn]
      · simp at hk
    · intro r hr
      simp only [List.mem_singleton] at hr
      subst hr
      exact ⟨by simp, rumble_bytes_frame _ _ _ _⟩
    · rw [h]
    · rw [h]
    · intro _; exact ⟨rfl, by rw [h]⟩
    · intro hne; rw [h] at hne; exact absurd rfl hne
    · rw [h]; simp
  · refine ⟨[], ?_, ?_, ?_, ?_, ?_, ?_, ?_, ?_⟩
    · rw [h]; simp
    · intro hpn
      refine ⟨by rw [h]; simp, by rw [h]; simp [Nat.mod_eq_of_lt hpn], ?_⟩
      intro k r hk
      simp at hk
    · intro r hr; simp at hr
    · rw [h]
    · rw [h]
    · intro hret; rw [h] at hret; simp at hret
    · intro _; exact ⟨rfl, by rw [h]⟩
    · rw [h]; simp

/-! ### The members as instances of the frame step -/

theorem set_player_lamp_on_eq (d : JoyCon) (on_pattern : Int) :
    d.set_player_lamp_on on_pattern = write_frame d 0x01 [0x30, int_bits on_pattern &&& 0xF] := by
  simp [set_player_lamp_on, write_frame]

theorem set_player_lamp_flashing_eq (d : JoyCon) (player_number : Int) :
    d.set_player_lamp_flashing player_number =
      match binaryPattern player_number with
      | none => (Outcome.throws (Exception.invalid_argument "Invalid player number"), d)
      | some pattern => write_frame d 0x01 [0x30, (pattern &&& 0xF) <<< 4] := by
  unfold set_player_lamp_flashing
  cases binaryPattern player_number <;> simp [write_frame]

theorem set_player_lamp_eq (d : JoyCon) (player_number : Int) :
    d.set_player_lamp player_number =
      match binaryPattern player_number with
      | none => (Outcome.throws (Exception.invalid_argument "Invalid player number"), d)
      | some pattern => write_frame d 0x01 [0x30, pattern &&& 0xF] := by
  unfold set_player_lamp
  cases binaryPattern player_number <;> simp [write_frame]

theorem send_rumble_eq (d : JoyCon) (data : StdArray 8) :
    d.send_rumble data = write_frame { d with rumble_data_ := data } 0x10 [] := by
  simp [send_rumble, write_frame]

theorem enable_vibration_eq (d : JoyCon) (enable : Bool) :
    d.enable_vibration enable = write_frame d 0x01 [0x48, if enable then 0x01 else 0x00] := by
  simp [enable_vibration, write_frame]

theorem disconnect_device_eq (d : JoyCon) :
    d.disconnect_device = write_frame d 0x01 [0x06, 0x00] := by
  simp [disconnect_device, write_frame]

theorem setup_sensors_eq (d : JoyCon) :
    d.setup_sensors =
      match write_frame d 0x01 [0x40, 0x01] with
      | (Outcome.returns _, d2) => write_frame d2 0x01 [0x03, 0x30]
      | (Outcome.throws e, d1) => (Outcome.throws e, d1)
      | (Outcome.blocks, d1) => (Outcome.blocks, d1) := by
  unfold setup_sensors write_frame
  rcases write_output_report_cases d
    ([0x01, d.packet_number_] ++ d.rumble_data_.val ++ [0x40, 0x01]) with ⟨h, _⟩ | ⟨h, _⟩
  · rw [h]
    simp only []
    split <;> simp_all
  · rw [h]

/-! ### The reply wait -/

theorem ack_bit (x : Nat) : ((x &&& 0x80) != 0) = x.testBit 7 := by
  have h := Nat.and_two_pow x 7
  norm_num at h
  rw [h]
  cases x.testBit 7 <;> simp

theorem filled_take (bytes : List Nat) :
    StdArray.filled 49 (bytes.take 49) = StdArray.filled 49 bytes := by
  apply Subtype.ext
  simp [StdArray.filled, List.take_take]

theorem filled_val (R : StdArray 49) : StdArray.filled 49 R.val = R := by
  apply Subtype.ext
  have h : R.val.length = 49 := R.property
  simp [StdArray.filled, List.take_of_length_le (Nat.le_of_eq h), h]

/-- The three ways `read_input_report` ends, by the next coming input. -/
theorem read_input_report_eq (d : JoyCon) :
    read_input_report d =
      match d.joycon_device_.incoming with
      | [] => (Outcome.blocks, d)
      | HidInput.failure :: rest =>
        (Outcome.throws (Exception.runtime_error "Failed to read input report"),
          { d with joycon_device_ := { d.joycon_device_ with incoming := rest } })
      | HidInput.report bytes :: rest =>
        (Outcome.returns (StdArray.filled 49 bytes),
          { d with joycon_device_ := { d.joycon_device_ with incoming := rest } }) := by
  unfold read_input_report hid_read
  rcases d.joycon_device_.incoming with _ | ⟨x, rest⟩
  · rfl
  · cases x with
    | failure => simp
    | report bytes =>
      have h : ¬ (((List.take 49 bytes).length : Int) < 0) := by
        exact not_lt.mpr (Int.natCast_nonneg _)
      simp only [h, if_false, filled_take]

/-- The source shape of the loop: when the report at hand is not a `0x21` report the loop
reads the next one with `read_input_report` and goes on with it. -/
theorem reply_loop_step (d : JoyCon) (report : StdArray 49) (h : report.get 0 ≠ 0x21) :
    reply_loop report d.joycon_device_.incoming =
      match read_input_report d with
      | (Outcome.returns next, d1) => reply_loop next d1.joycon_device_.incoming
      | (Outcome.throws e, d1) => (Outcome.throws e, d1.joycon_device_.incoming)
      | (Outcome.blocks, d1) => (Outcome.blocks, d1.joycon_device_.incoming) := by
  rw [read_input_report_eq]
  rcases hin : d.joycon_device_.incoming with _ | ⟨x, rest⟩
  · rw [reply_loop]; simp [h, hin]
  · cases x with
    | failure => rw [reply_loop]; simp [h]
    | report bytes =>
      rw [reply_loop]
      simp [h, filled_take]

theorem reply_loop_done (report : StdArray 49) (pending : List HidInput)
    (h : report.get 0 = 0x21) :
    reply_loop report pending = (Outcome.returns report, pending) := by
  unfold reply_loop
  simp [h]

/-- On a stream that holds the `0x21` report `R` after reports with other ids, the wait
ends with `R` and leaves exactly what follows `R`. -/
theorem reply_loop_stream (report : StdArray 49) (h : report.get 0 ≠ 0x21)
    (skipped : List (List Nat)) (R : List Nat) (rest : List HidInput)
    (hskip : ∀ s ∈ skipped, (StdArray.filled 49 s).get 0 ≠ 0x21)
    (hR : (StdArray.filled 49 R).get 0 = 0x21) :
    reply_loop report (reply_stream skipped R rest)
      = (Outcome.returns (StdArray.filled 49 R), rest) := by
  induction skipped generalizing report with
  | nil =>
    rw [reply_stream, List.map_nil, List.nil_append, reply_loop]
    simp only [h, ne_eq, not_false_eq_true, if_true, filled_take]
    exact reply_loop_done _ _ hR
  | cons s skipped ih =>
    rw [reply_stream, List.map_cons, List.cons_append, reply_loop]
    simp only [h, ne_eq, not_false_eq_true, if_true, filled_take]
    exact ih _ (hskip s (List.mem_cons_self _ _))
      (fun t ht => hskip t (List.mem_cons_of_mem _ ht))

/-- Whenever the wait returns, the stream had this shape: reports with other ids, then
the returned `0x21` report, then the inputs left over. -/
theorem reply_loop_returns (report : StdArray 49) (h : report.get 0 ≠ 0x21)
    (pending : List HidInput) (reply : StdArray 49) (rest : List HidInput)
    (hret : reply_loop report pending = (Outcome.returns reply, rest)) :
    ∃ skipped R, pending = reply_stream skipped R rest ∧
      (∀ s ∈ skipped, (StdArray.filled 49 s).get 0 ≠ 0x21) ∧
      reply = StdArray.filled 49 R ∧ reply.get 0 = 0x21 := by
  induction pending generalizing report with
  | nil =>
    rw [reply_loop] at hret
    simp [h] at hret
  | cons x pending ih =>
    cases x with
    | failure =>
      rw [reply_loop] at hret
      simp [h] at hret
    | report bytes =>
      rw [reply_loop] at hret
      simp only [h, ne_eq, not_false_eq_true, if_true, filled_take] at hret
      by_cases hb : (StdArray.filled 49 bytes).get 0 = 0x21
      · rw [reply_loop_done _ _ hb] at hret
        simp only [Prod.mk.injEq, Outcome.returns.injEq] at hret
        refine ⟨[], bytes, ?_, ?_, hret.1.symm, ?_⟩
        · simp [reply_stream, hret.2]
        · intro s hs; simp at hs
        · rw [← hret.1]; exact hb
      · obtain ⟨skipped, R, hp, hs, hr, h0⟩ := ih _ hb hret
        refine ⟨bytes :: skipped, R, ?_, ?_, hr, h0⟩
        · simp [reply_stream, hp]
        · intro s hs1
          rcases List.mem_cons.mp hs1 with rfl | hs1
          · exact hb
          · exact hs s hs1

theorem filled_nil_id : (StdArray.filled 49 []).get 0 ≠ 0x21 := by decide

theorem reply_loop_skip (report : StdArray 49) (h : report.get 0 ≠ 0x21)
    (bytes : List Nat) (rest : List HidInput) :
    reply_loop report (HidInput.report bytes :: rest)
      = reply_loop (StdArray.filled 49 bytes) rest := by
  rw [reply_loop]
  simp only [h, ne_eq, not_false_eq_true, if_true, filled_take]

/-- Member `send_subcmd_get_response` as a frame step followed by the reply wait: the first
`read_input_report` and the loop together are the wait started from a report that is
not a `0x21` report. -/
theorem send_subcmd_get_response_eq (d : JoyCon) (subcommand : Nat) (argument : List Nat) :
    d.send_subcmd_get_response subcommand argument =
      match write_frame d 0x01 (subcommand :: argument) with
      | (Outcome.throws e, d1) => (Outcome.throws e, d1)
      | (Outcome.blocks, d1) => (Outcome.blocks, d1)
      | (Outcome.returns _, d2) =>
        match reply_loop (StdArray.filled 49 []) d2.joycon_device_.incoming with
        | (Outcome.throws e, rest) =>
          (Outcome.throws e,
            { d2 with joycon_device_ := { d2.joycon_device_ with incoming := rest } })
        | (Outcome.blocks, rest) =>
          (Outcome.blocks,
            { d2 with joycon_device_ := { d2.joycon_device_ with incoming := rest } })
        | (Outcome.returns report, rest) =>
          if report.get 1 = subcommand then
            (Outcome.throws (Exception.runtime_error "THREAD carefully"),
              { d2 with joycon_device_ := { d2.joycon_device_ with incoming := rest } })
          else
            (Outcome.returns ((report.get 13).testBit 7, report.val.drop 13),
              { d2 with joycon_device_ := { d2.joycon_device_ with incoming := rest } }) := by
  have hc : [0x01, d.packet_number_] ++ d.rumble_data_.val ++ [subcommand] ++ argument
      = [0x01, d.packet_number_] ++ d.rumble_data_.val ++ (subcommand :: argument) := by simp
  unfold send_subcmd_get_response write_frame
  simp only [hc]
  rcases write_output_report_cases d
    ([0x01, d.packet_number_] ++ d.rumble_data_.val ++ (subcommand :: argument))
    with ⟨h, _⟩ | ⟨h, _⟩
  · rw [h]
    simp only [read_input_report_eq]
    rcases d.joycon_device_.incoming with _ | ⟨x, rest⟩
    · rw [reply_loop]; simp [filled_nil_id]
    · cases x with
      | failure => rw [reply_loop]; simp [filled_nil_id]
      | report bytes =>
        simp only [reply_loop_skip _ filled_nil_id, ack_bit]
  · rw [h]

/-! ### What each call appends to the log -/

theorem Effect.nothing (d d1 : JoyCon)
    (hw : d1.joycon_device_.written = d.joycon_device_.written)
    (hp : d1.packet_number_ = d.packet_number_) : Effect d d1 [] := by
  refine ⟨by simp [hw], fun hpn => ⟨by simp [hw], by simp [hp, Nat.mod_eq_of_lt hpn], ?_⟩, ?_⟩
  · intro k r hk; simp at hk
  · intro r hr; simp at hr

/-- A state that agrees with `d1` on log, counter and rumble pattern has the same summary. -/
theorem Effect.congr {d d1 d2 : JoyCon} {new : List (List Nat)} (h : Effect d d1 new)
    (hw : d2.joycon_device_.written = d1.joycon_device_.written)
    (hp : d2.packet_number_ = d1.packet_number_)
    (hr : d2.rumble_data_ = d1.rumble_data_) : Effect d d2 new := by
  obtain ⟨h1, h2, h3⟩ := h
  refine ⟨by rw [hw, h1], fun hpn => ?_, ?_⟩
  · obtain ⟨c1, c2, c3⟩ := h2 hpn
    exact ⟨by rw [hw, c1], by rw [hp, c2], c3⟩
  · intro r hr1
    rw [hr]
    exact h3 r hr1

theorem write_frame_Effect (d : JoyCon) (tail : List Nat) :
    ∃ new, Effect d (write_frame d 0x01 tail).2 new ∧
      ((write_frame d 0x01 tail).1 = Outcome.returns () → new.length = 1) := by
  obtain ⟨new, hw, hc, hf, _, _, hret, _, _⟩ := write_frame_effect d 0x01 tail
  refine ⟨new, ⟨hw, hc, fun r hr => Or.inl (hf r hr)⟩, fun h => ?_⟩
  rw [(hret h).1]
  rfl

theorem send_rumble_Effect (d : JoyCon) (data : StdArray 8) :
    ∃ new, Effect d (d.send_rumble data).2 new ∧ (d.send_rumble data).2.rumble_data_ = data ∧
      ((d.send_rumble data).1 = Outcome.returns () → new.length = 1) := by
  rw [send_rumble_eq]
  obtain ⟨new, hw, hc, hf, hr, _, hret, _, _⟩ :=
    write_frame_effect { d with rumble_data_ := data } 0x10 []
  refine ⟨new, ⟨hw, fun hpn => ?_, fun r hr1 => Or.inr ?_⟩, hr, fun h => ?_⟩
  · obtain ⟨c1, c2, c3⟩ := hc hpn
    exact ⟨c1, c2, c3⟩
  · rw [hr]
    exact hf r hr1
  · rw [(hret h).1]
    rfl

theorem write_frame_rumble (d : JoyCon) (id : Nat) (tail : List Nat) :
    (write_frame d id tail).2.rumble_data_ = d.rumble_data_ := by
  obtain ⟨_, _, _, _, hr, _⟩ := write_frame_effect d id tail
  exact hr

theorem counted_append {d d1 d2 : JoyCon} {n1 n2 : List (List Nat)}
    (h1 : Counted d d1 n1) (h2 : Counted d1 d2 n2) : Counted d d2 (n1 ++ n2) := by
  obtain ⟨w1, c1, b1⟩ := h1
  obtain ⟨w2, c2, b2⟩ := h2
  refine ⟨by rw [w2, w1, List.append_assoc], ?_, ?_⟩
  · rw [c2, c1, List.length_append]; omega
  · intro k r hk
    rw [List.getElem?_append] at hk
    split at hk
    · exact b1 k r hk
    · rename_i hlt
      rw [b2 _ r hk, c1]
      congr 1
      omega

theorem Counted.counter_lt {d d1 : JoyCon} {new : List (List Nat)} (h : Counted d d1 new) :
    d1.packet_number_ < 16 := by
  rw [h.counter]
  exact Nat.mod_lt _ (by decide)

/-- Two calls in a row, neither of which changes the stored rumble pattern. -/
theorem effect_append {d d1 d2 : JoyCon} {n1 n2 : List (List Nat)}
    (h1 : Effect d d1 n1) (h2 : Effect d1 d2 n2)
    (hr1 : d1.rumble_data_ = d.rumble_data_) (hr2 : d2.rumble_data_ = d.rumble_data_) :
    Effect d d2 (n1 ++ n2) := by
  obtain ⟨w1, c1, f1⟩ := h1
  obtain ⟨w2, c2, f2⟩ := h2
  refine ⟨by rw [w2, w1, List.append_assoc], fun hpn => ?_, ?_⟩
  · exact counted_append (c1 hpn) (c2 (c1 hpn).counter_lt)
  · intro r hr
    rcases List.mem_append.mp hr with hr | hr
    · rcases f1 r hr with h | h
      · exact Or.inl h
      · exact Or.inr ⟨h.1, by rw [hr2, ← hr1]; exact h.2⟩
    · rcases f2 r hr with h | h
      · exact Or.inl ⟨h.1, by rw [← hr1]; exact h.2⟩
      · exact Or.inr h

theorem setup_sensors_Effect (d : JoyCon) :
    ∃ new, Effect d d.setup_sensors.2 new ∧ d.setup_sensors.2.rumble_data_ = d.rumble_data_ := by
  rw [setup_sensors_eq]
  obtain ⟨n1, e1, _⟩ := write_frame_Effect d [0x40, 0x01]
  have r1 := write_frame_rumble d 0x01 [0x40, 0x01]
  rcases hf : write_frame d 0x01 [0x40, 0x01] with ⟨o, d2⟩
  rw [hf] at e1 r1
  cases o with
  | returns v =>
    obtain ⟨n2, e2, _⟩ := write_frame_Effect d2 [0x03, 0x30]
    have r2 := write_frame_rumble d2 0x01 [0x03, 0x30]
    exact ⟨n1 ++ n2, effect_append e1 e2 r1 (by rw [r2]; exact r1), by simp only []; rw [r2]; exact r1⟩
  | throws e => exact ⟨n1, e1, r1⟩
  | blocks => exact ⟨n1, e1, r1⟩

/-- After its frame step `send_subcmd_get_response` only reads: log, counter, rumble pattern
and fault list stay those left by the frame step, and it returns only if the step did. -/
theorem send_subcmd_get_response_state (d : JoyCon) (subcommand : Nat) (argument : List Nat) :
    (d.send_subcmd_get_response subcommand argument).2.joycon_device_.written
        = (write_frame d 0x01 (subcommand :: argument)).2.joycon_device_.written ∧
      (d.send_subcmd_get_response subcommand argument).2.packet_number_
        = (write_frame d 0x01 (subcommand :: argument)).2.packet_number_ ∧
      (d.send_subcmd_get_response subcommand argument).2.rumble_data_
        = (write_frame d 0x01 (subcommand :: argument)).2.rumble_data_ ∧
      (d.send_subcmd_get_response subcommand argument).2.joycon_device_.write_faults
        = (write_frame d 0x01 (subcommand :: argument)).2.joycon_device_.write_faults ∧
      (∀ v, (d.send_subcmd_get_response subcommand argument).1 = Outcome.returns v →
        (write_frame d 0x01 (subcommand :: argument)).1 = Outcome.returns ()) := by
  rw [send_subcmd_get_response_eq]
  rcases write_frame d 0x01 (subcommand :: argument) with ⟨o, d2⟩
  cases o with
  | returns v =>
    simp only []
    rcases reply_loop (StdArray.filled 49 []) d2.joycon_device_.incoming with ⟨o2, rest⟩
    cases o2 with
    | returns report =>
      simp only []
      split <;> simp
    | throws e => simp
    | blocks => simp
  | throws e => simp
  | blocks => simp

theorem send_subcmd_get_response_Effect (d : JoyCon) (subcommand : Nat) (argument : List Nat) :
    ∃ new, Effect d (d.send_subcmd_get_response subcommand argument).2 new ∧
      (d.send_subcmd_get_response subcommand argument).2.rumble_data_ = d.rumble_data_ ∧
      (∀ v, (d.send_subcmd_get_response subcommand argument).1 = Outcome.returns v →
        new.length = 1) := by
  obtain ⟨hw, hp, hr, _, hret⟩ := send_subcmd_get_response_state d subcommand argument
  obtain ⟨new, e, h1⟩ := write_frame_Effect d (subcommand :: argument)
  exact ⟨new, e.congr hw hp hr, by rw [hr, write_frame_rumble], fun v hv => h1 (hret v hv)⟩

/-- Member `spi_flash_read` with its argument vector named. -/
theorem spi_flash_read_eq (d : JoyCon) (address size : Nat) :
    d.spi_flash_read address size =
      if size > 0x1d then
        (Outcome.throws (Exception.invalid_argument "size too large for SPI read"), d)
      else
        match d.send_subcmd_get_response 0x10 (spi_argument address size) with
        | (Outcome.throws e, d1) => (Outcome.throws e, d1)
        | (Outcome.blocks, d1) => (Outcome.blocks, d1)
        | (Outcome.returns (ack, report), d1) =>
          if !ack then
            (Outcome.throws (Exception.runtime_error "After SPI read: got NACK"), d1)
          else if !(report[0]? == some 0x90 && report[1]? == some 0x10) then
            (Outcome.throws (Exception.runtime_error "Unexpected ACK in SPI read"), d1)
          else if !(spi_argument address size
              == (report.drop 2).take (spi_argument address size).length) then
            (Outcome.throws (Exception.runtime_error "SPI argument mismatch"), d1)
          else
            (Outcome.returns ((report.drop 7).take size), d1) := rfl

/-- Member `spi_flash_read` leaves the object as it found it (size check) or as its
`send_subcmd_get_response` call left it. -/
theorem spi_flash_read_state (d : JoyCon) (address size : Nat) :
    (size > 0x1d ∧ d.spi_flash_read address size =
        (Outcome.throws (Exception.invalid_argument "size too large for SPI read"), d)) ∨
    (size ≤ 0x1d ∧ (d.spi_flash_read address size).2
        = (d.send_subcmd_get_response 0x10 (spi_argument address size)).2) := by
  rw [spi_flash_read_eq]
  by_cases hs : size > 0x1d
  · left; simp [hs]
  · right
    refine ⟨by omega, ?_⟩
    simp only [hs, if_false]
    rcases d.send_subcmd_get_response 0x10 (spi_argument address size) with ⟨o, d1⟩
    cases o with
    | returns v =>
      obtain ⟨ack, report⟩ := v
      simp only []
      split
      · rfl
      · split
        · rfl
        · split <;> rfl
    | throws e => rfl
    | blocks => rfl

theorem spi_flash_read_Effect (d : JoyCon) (address size : Nat) :
    ∃ new, Effect d (d.spi_flash_read address size).2 new ∧
      (d.spi_flash_read address size).2.rumble_data_ = d.rumble_data_ := by
  rcases spi_flash_read_state d address size with ⟨_, h⟩ | ⟨_, h⟩
  · rw [h]
    exact ⟨[], Effect.nothing d d rfl rfl, rfl⟩
  · rw [h]
    obtain ⟨new, e, hr, _⟩ := send_subcmd_get_response_Effect d 0x10 (spi_argument address size)
    exact ⟨new, e, hr⟩

theorem void_returns {α : Type} (o : Outcome α) (h : o.void = Outcome.returns ()) :
    ∃ v, o = Outcome.returns v := by
  cases o with
  | returns v => exact ⟨v, rfl⟩
  | throws e => simp [Outcome.void] at h
  | blocks => simp [Outcome.void] at h

theorem lamp_Effect (d : JoyCon) (player_number : Int) (f : Nat → Nat) :
    ∃ new,
      Effect d (match binaryPattern player_number with
        | none => (Outcome.throws (Exception.invalid_argument "Invalid player number"), d)
        | some pattern => write_frame d 0x01 [0x30, f pattern]).2 new ∧
      (match binaryPattern player_number with
        | none => (Outcome.throws (Exception.invalid_argument "Invalid player number"), d)
        | some pattern => write_frame d 0x01 [0x30, f pattern]).2.rumble_data_ = d.rumble_data_ ∧
      ((match binaryPattern player_number with
        | none => (Outcome.throws (Exception.invalid_argument "Invalid player number"), d)
        | some pattern => write_frame d 0x01 [0x30, f pattern]).1 = Outcome.returns () →
        new.length = 1) := by
  cases binaryPattern player_number with
  | none => exact ⟨[], Effect.nothing d d rfl rfl, rfl, fun h => by simp at h⟩
  | some pattern =>
    obtain ⟨new, e, h1⟩ := write_frame_Effect d [0x30, f pattern]
    exact ⟨new, e, write_frame_rumble _ _ _, h1⟩

/-- The member `status_offset` assigns `status_offset_` only. -/
theorem status_offset_state (d : JoyCon) :
    (d.status_offset).2.joycon_device_.written = d.joycon_device_.written ∧
      (d.status_offset).2.packet_number_ = d.packet_number_ ∧
      (d.status_offset).2.rumble_data_ = d.rumble_data_ := by
  unfold status_offset
  simp only []
  split
  · exact ⟨rfl, rfl, rfl⟩
  · exact ⟨rfl, rfl, rfl⟩
  · split
    · exact ⟨rfl, rfl, rfl⟩
    · exact ⟨rfl, rfl, rfl⟩
    · split <;> exact ⟨rfl, rfl, rfl⟩

/-- What one call does, for every call: the reports it appends carry consecutive counters
and a stored rumble pattern; the stored pattern afterwards is the one a rumble command
asked for and is unchanged otherwise; a single-report call that returns appended one
report. -/
theorem exec_Effect (op : Op) (d : JoyCon) :
    ∃ new, Effect d (op.exec d).2 new ∧
      (op.exec d).2.rumble_data_ = (op.rumble_request).getD d.rumble_data_ ∧
      (op.single_send = true → (op.exec d).1 = Outcome.returns () → new.length = 1) := by
  cases op with
  | set_player_lamp_on on_pattern =>
    simp only [Op.exec, set_player_lamp_on_eq, Op.rumble_request, Option.getD_none]
    obtain ⟨new, e, h1⟩ := write_frame_Effect d [0x30, int_bits on_pattern &&& 0xF]
    exact ⟨new, e, write_frame_rumble _ _ _, fun _ => h1⟩
  | set_player_lamp_flashing player_number =>
    simp only [Op.exec, set_player_lamp_flashing_eq, Op.rumble_request, Option.getD_none]
    obtain ⟨new, e, hr, h1⟩ := lamp_Effect d player_number (fun p => (p &&& 0xF) <<< 4)
    exact ⟨new, e, hr, fun _ => h1⟩
  | set_player_lamp player_number =>
    simp only [Op.exec, set_player_lamp_eq, Op.rumble_request, Option.getD_none]
    obtain ⟨new, e, hr, h1⟩ := lamp_Effect d player_number (fun p => p &&& 0xF)
    exact ⟨new, e, hr, fun _ => h1⟩
  | enable_vibration enable =>
    simp only [Op.exec, enable_vibration_eq, Op.rumble_request, Option.getD_none]
    obtain ⟨new, e, h1⟩ := write_frame_Effect d [0x48, if enable then 0x01 else 0x00]
    exact ⟨new, e, write_frame_rumble _ _ _, fun _ => h1⟩
  | rumble_simple =>
    obtain ⟨new, e, hr, h1⟩ := send_rumble_Effect d RUMBLE_SIMPLE_DATA
    exact ⟨new, e, hr, fun _ => h1⟩
  | rumble_bump =>
    obtain ⟨new, e, hr, h1⟩ := send_rumble_Effect d RUMBLE_BUMP_DATA
    exact ⟨new, e, hr, fun _ => h1⟩
  | rumble_stop =>
    obtain ⟨new, e, hr, h1⟩ := send_rumble_Effect d DEFAULT_RUMBLE_DATA
    exact ⟨new, e, hr, fun _ => h1⟩
  | disconnect_device =>
    simp only [Op.exec, disconnect_device_eq, Op.rumble_request, Option.getD_none]
    obtain ⟨new, e, h1⟩ := write_frame_Effect d [0x06, 0x00]
    exact ⟨new, e, write_frame_rumble _ _ _, fun _ => h1⟩
  | send_subcmd_get_response subcommand argument =>
    obtain ⟨new, e, hr, h1⟩ := send_subcmd_get_response_Effect d subcommand argument
    refine ⟨new, e, hr, fun _ h => ?_⟩
    obtain ⟨v, hv⟩ := void_returns _ h
    exact h1 v hv
  | spi_flash_read address size =>
    obtain ⟨new, e, hr⟩ := spi_flash_read_Effect d address size
    exact ⟨new, e, hr, fun h => by simp [Op.single_send] at h⟩
  | setup_sensors =>
    obtain ⟨new, e, hr⟩ := setup_sensors_Effect d
    exact ⟨new, e, hr, fun h => by simp [Op.single_send] at h⟩
  | set_gyro_calibration offset_xyz coeff_xyz =>
    exact ⟨[], Effect.nothing d _ rfl rfl, rfl, fun h => by simp [Op.single_send] at h⟩
  | set_accel_calibration offset_xyz coeff_xyz =>
    exact ⟨[], Effect.nothing d _ rfl rfl, rfl, fun h => by simp [Op.single_send] at h⟩
  | register_update_hook callback =>
    exact ⟨[], Effect.nothing d _ rfl rfl, rfl, fun h => by simp [Op.single_send] at h⟩
  | status_offset =>
    obtain ⟨hw, hp, hr⟩ := status_offset_state d
    exact ⟨[], Effect.nothing d _ hw hp, hr, fun h => by simp [Op.single_send] at h⟩

theorem Counted.refl (d : JoyCon) (h : d.packet_number_ < 16) : Counted d d [] :=
  (Effect.nothing d d rfl rfl).2.1 h

/-- The counters over a whole sequence of calls. -/
theorem run_Counted (ops : List Op) (d d1 : JoyCon) (hpn : d.packet_number_ < 16)
    (hrun : run ops d = some d1) :
    ∃ new, Counted d d1 new ∧
      (all_return ops d = true → (∀ op ∈ ops, op.single_send = true) →
        new.length = ops.length) := by
  induction ops generalizing d with
  | nil =>
    simp only [run, Option.some.injEq] at hrun
    subst hrun
    exact ⟨[], Counted.refl d hpn, fun _ _ => rfl⟩
  | cons op ops ih =>
    obtain ⟨n1, e1, _, hone⟩ := exec_Effect op d
    have c1 := e1.2.1 hpn
    simp only [run, all_return] at hrun ⊢
    rcases hex : op.exec d with ⟨o, d2⟩
    rw [hex] at hrun c1 hone
    cases o with
    | blocks => simp at hrun
    | returns v =>
      obtain ⟨n2, c2, hlen⟩ := ih d2 c1.counter_lt hrun
      refine ⟨n1 ++ n2, counted_append c1 c2, fun hall hs => ?_⟩
      rw [List.length_append, hlen hall (fun op1 h1 => hs op1 (List.mem_cons_of_mem _ h1)),
        hone (hs op (List.mem_cons_self _ _)) rfl, List.length_cons]
      omega
    | throws e =>
      obtain ⟨n2, c2, _⟩ := ih d2 c1.counter_lt hrun
      exact ⟨n1 ++ n2, counted_append c1 c2, fun hall _ => by simp at hall⟩

/-- A sequence whose calls all return runs to its end. -/
theorem run_of_all_return (ops : List Op) (d : JoyCon) (h : all_return ops d = true) :
    ∃ d1, run ops d = some d1 := by
  induction ops generalizing d with
  | nil => exact ⟨d, rfl⟩
  | cons op ops ih =>
    simp only [run, all_return] at h ⊢
    rcases hex : op.exec d with ⟨o, d2⟩
    rw [hex] at h
    cases o with
    | returns v => exact ih d2 h
    | throws e => simp at h
    | blocks => simp at h

/-! ## The packet counter -/

/-- C1: from a counter `c0` in 0..15, after any finite sequence of report-sending calls in
any mix (a throwing call is caught, so successful sequences are included), byte 1 of the
`k`-th report written since the start is `(c0 + k) mod 16` and the stored counter is
`(c0 + number of reports written) mod 16`; when all calls return and are single-report
calls there is one report per call; and 17 reports sent from counter 0 carry the counters
`0, 1, ..., 15, 0`. -/
theorem packet_counter_sequence (c0 : Nat) (hc0 : c0 < 16) (d d1 : JoyCon) (ops : List Op)
    (hd : d.packet_number_ = c0) (hrun : run ops d = some d1) :
    ∃ new : List (List Nat),
      d1.joycon_device_.written = d.joycon_device_.written ++ new ∧
      (∀ k, k < new.length → (new[k]?).bind (fun r => r[1]?) = some ((c0 + k) % 16)) ∧
      d1.packet_number_ = (c0 + new.length) % 16 ∧
      (all_return ops d = true → (∀ op ∈ ops, op.single_send = true) →
        new.length = ops.length) ∧
      (c0 = 0 → new.length = 17 →
        new.map (fun r => r[1]?) =
          [some 0, some 1, some 2, some 3, some 4, some 5, some 6, some 7, some 8, some 9,
            some 10, some 11, some 12, some 13, some 14, some 15, some 0]) := by
  subst hd
  obtain ⟨new, c, hlen⟩ := run_Counted ops d d1 hc0 hrun
  have hb : ∀ k, k < new.length →
      (new[k]?).bind (fun r => r[1]?) = some ((d.packet_number_ + k) % 16) := by
    intro k hk
    rw [List.getElem?_eq_getElem hk, Option.some_bind]
    exact c.byte1 k _ (List.getElem?_eq_getElem hk)
  refine ⟨new, c.written, hb, c.counter, hlen, fun h0 h17 => ?_⟩
  have htarget : [some 0, some 1, some 2, some 3, some 4, some 5, some 6, some 7, some 8,
      some 9, some 10, some 11, some 12, some 13, some 14, some 15, some 0]
      = (List.range 17).map (fun k => some ((0 + k) % 16)) := by decide
  rw [htarget]
  apply List.ext_getElem?
  intro k
  by_cases hk : k < 17
  · have h1 := hb k (by omega)
    rw [h0] at h1
    rw [List.getElem?_map, List.getElem?_map, List.getElem?_range hk,
      List.getElem?_eq_getElem (by omega : k < new.length)]
    rw [List.getElem?_eq_getElem (by omega : k < new.length), Option.some_bind] at h1
    simp only [Option.map_some']
    rw [h1]
  · rw [List.getElem?_eq_none (by simp; omega), List.getElem?_eq_none (by simp; omega)]

/-- Witness of C1: seventeen mixed calls on a fresh object; the counters wrap to 0. -/
theorem packet_counter_sequence_witness :
    ∃ new : List (List Nat),
      device_after_seventeen.joycon_device_.written
        = fresh_device.joycon_device_.written ++ new ∧
      (∀ k, k < new.length → (new[k]?).bind (fun r => r[1]?) = some ((0 + k) % 16)) ∧
      device_after_seventeen.packet_number_ = (0 + new.length) % 16 ∧
      (all_return seventeen_calls fresh_device = true →
        (∀ op ∈ seventeen_calls, op.single_send = true) →
        new.length = seventeen_calls.length) ∧
      (0 = 0 → new.length = 17 →
        new.map (fun r => r[1]?) =
          [some 0, some 1, some 2, some 3, some 4, some 5, some 6, some 7, some 8, some 9,
            some 10, some 11, some 12, some 13, some 14, some 15, some 0]) :=
  packet_counter_sequence 0 (by decide) fresh_device device_after_seventeen seventeen_calls
    rfl (by decide)

/-! ## The rumble pattern -/

theorem most_recent_rumble_snoc (ops : List Op) (op : Op) :
    most_recent_rumble (ops ++ [op]) = (op.rumble_request).getD (most_recent_rumble ops) := by
  simp [most_recent_rumble, List.foldl_append]

/-- The stored pattern after a sequence of calls is the fold of the rumble requests. -/
theorem run_rumble (ops : List Op) (d d1 : JoyCon) (hrun : run ops d = some d1) :
    d1.rumble_data_ =
      ops.foldl (fun pattern op => (op.rumble_request).getD pattern) d.rumble_data_ := by
  induction ops generalizing d with
  | nil =>
    simp only [run, Option.some.injEq] at hrun
    subst hrun
    rfl
  | cons op ops ih =>
    obtain ⟨_, _, hr, _⟩ := exec_Effect op d
    simp only [run] at hrun
    rcases hex : op.exec d with ⟨o, d2⟩
    rw [hex] at hrun hr
    simp only [List.foldl_cons]
    rw [← hr]
    cases o with
    | blocks => simp at hrun
    | returns v => exact ih d2 hrun
    | throws e => exact ih d2 hrun

/-- The pattern of the most recent rumble command is one of the three patterns of the
source, none of which is all-zero. -/
theorem most_recent_rumble_nonzero (ops : List Op) :
    (most_recent_rumble ops).val ≠ List.replicate 8 0 := by
  have hmem : ∀ (l : List Op) (p : StdArray 8),
      (p = DEFAULT_RUMBLE_DATA ∨ p = RUMBLE_SIMPLE_DATA ∨ p = RUMBLE_BUMP_DATA) →
      (l.foldl (fun pattern op => (op.rumble_request).getD pattern) p = DEFAULT_RUMBLE_DATA ∨
        l.foldl (fun pattern op => (op.rumble_request).getD pattern) p = RUMBLE_SIMPLE_DATA ∨
        l.foldl (fun pattern op => (op.rumble_request).getD pattern) p = RUMBLE_BUMP_DATA) := by
    intro l
    induction l with
    | nil => intro p hp; exact hp
    | cons op l ih =>
      intro p hp
      rw [List.foldl_cons]
      apply ih
      cases op <;> simp [Op.rumble_request, hp]
  rcases hmem ops DEFAULT_RUMBLE_DATA (Or.inl rfl) with h | h | h <;>
    (unfold most_recent_rumble; rw [h]; decide)

/-- C2: on an object whose stored pattern is the compile-time default (as the constructor
initialises it), after any sequence of calls (the public operations, and the private
report-writing members the constructor uses), the stored rumble pattern is the pattern of
the most recent rumble command, or the default if there was none, and is not all-zero;
and every report the next call writes with report id `0x01` has bytes 2..9 equal to that
pattern. Every report written has id `0x01` or `0x10`, and a `0x10` (rumble) report
carries the pattern its own command asked for. -/
theorem rumble_bytes_sequence (d d1 : JoyCon) (ops : List Op) (op : Op)
    (hd : d.rumble_data_ = DEFAULT_RUMBLE_DATA) (hrun : run ops d = some d1) :
    d1.rumble_data_ = most_recent_rumble ops ∧
    d1.rumble_data_.val ≠ List.replicate 8 0 ∧
    ∃ new : List (List Nat),
      (op.exec d1).2.joycon_device_.written = d1.joycon_device_.written ++ new ∧
      (∀ r ∈ new, r[0]? = some 0x01 → rumble_bytes r = (most_recent_rumble ops).val) ∧
      (∀ r ∈ new, r[0]? = some 0x10 →
        rumble_bytes r = (most_recent_rumble (ops ++ [op])).val) ∧
      (∀ r ∈ new, r[0]? = some 0x01 ∨ r[0]? = some 0x10) := by
  have h1 : d1.rumble_data_ = most_recent_rumble ops := by
    rw [run_rumble ops d d1 hrun, hd]
    rfl
  obtain ⟨new, ⟨hw, _, hf⟩, hr, _⟩ := exec_Effect op d1
  refine ⟨h1, by rw [h1]; exact most_recent_rumble_nonzero ops, new, hw, ?_, ?_, ?_⟩
  · intro r hr1 h01
    rcases hf r hr1 with h | h
    · rw [h.2, h1]
    · rw [h.1] at h01
      simp at h01
  · intro r hr1 h10
    rcases hf r hr1 with h | h
    · rw [h.1] at h10
      simp at h10
    · rw [h.2, hr, most_recent_rumble_snoc, h1]
  · intro r hr1
    rcases hf r hr1 with h | h
    · exact Or.inl h.1
    · exact Or.inr h.1

/-- Witness of C2: a lamp command issued after `rumble_bump()` on a fresh object. -/
theorem rumble_bytes_sequence_witness :
    device_after_bump.rumble_data_ = most_recent_rumble [Op.rumble_bump] ∧
    device_after_bump.rumble_data_.val ≠ List.replicate 8 0 ∧
    ∃ new : List (List Nat),
      ((Op.set_player_lamp 1).exec device_after_bump).2.joycon_device_.written
        = device_after_bump.joycon_device_.written ++ new ∧
      (∀ r ∈ new, r[0]? = some 0x01 →
        rumble_bytes r = (most_recent_rumble [Op.rumble_bump]).val) ∧
      (∀ r ∈ new, r[0]? = some 0x10 →
        rumble_bytes r = (most_recent_rumble ([Op.rumble_bump] ++ [Op.set_player_lamp 1])).val) ∧
      (∀ r ∈ new, r[0]? = some 0x01 ∨ r[0]? = some 0x10) :=
  rumble_bytes_sequence fresh_device device_after_bump [Op.rumble_bump] (Op.set_player_lamp 1)
    rfl (by decide)

/-! ## The subcommand engine on a stream that holds a reply -/

theorem get_eq_getElem? {n : Nat} (a : StdArray n) (i : Fin n) :
    a.val[i.val]? = some (a.get i) := by
  have h : i.val < a.val.length := by rw [a.property]; exact i.isLt
  rw [List.getElem?_eq_getElem h]
  rfl

theorem drop_getElem? {n : Nat} (a : StdArray n) (k j : Nat) (h : k + j < n) :
    (a.val.drop k)[j]? = some (a.get ⟨k + j, h⟩) := by
  rw [List.getElem?_drop]
  exact get_eq_getElem? a ⟨k + j, h⟩

/-- The object after a request frame was accepted and the reply wait consumed the stream up
to `rest`. -/
theorem send_subcmd_get_response_on_stream (d : JoyCon) (subcommand : Nat)
    (argument : List Nat) (skipped : List (List Nat)) (R : List Nat) (rest : List HidInput)
    (hw : d.joycon_device_.write_faults.head? ≠ some true)
    (hin : d.joycon_device_.incoming = reply_stream skipped R rest)
    (hskip : ∀ s ∈ skipped, (StdArray.filled 49 s).get 0 ≠ 0x21)
    (hR : (StdArray.filled 49 R).get 0 = 0x21) :
    d.send_subcmd_get_response subcommand argument =
      (if (StdArray.filled 49 R).get 1 = subcommand then
          Outcome.throws (Exception.runtime_error "THREAD carefully")
        else
          Outcome.returns (((StdArray.filled 49 R).get 13).testBit 7,
            (StdArray.filled 49 R).val.drop 13),
        { d with
          packet_number_ := (d.packet_number_ + 1) % 16
          joycon_device_ :=
            { written := d.joycon_device_.written
                ++ [[0x01, d.packet_number_] ++ d.rumble_data_.val ++ subcommand :: argument]
              write_faults := d.joycon_device_.write_faults.tail
              incoming := rest } }) := by
  rw [send_subcmd_get_response_eq]
  rcases write_frame_cases d 0x01 (subcommand :: argument) with ⟨h, _⟩ | ⟨_, hf⟩
  · rw [h]
    simp only [hin, reply_loop_stream _ filled_nil_id skipped R rest hskip hR]
    split <;> rfl
  · exact absurd hf hw

/-- Whenever `send_subcmd_get_response` returns, the stream held reports with other ids and
then a `0x21` report `R` whose byte 1 is not the subcommand id; the result is the ack bit of
byte 13 and bytes 13..48 of `R`, and the inputs after `R` are left. -/
theorem send_subcmd_get_response_returns (d d1 : JoyCon) (subcommand : Nat)
    (argument : List Nat) (ack : Bool) (data : List Nat)
    (hret : d.send_subcmd_get_response subcommand argument = (Outcome.returns (ack, data), d1)) :
    ∃ skipped R, d.joycon_device_.incoming = reply_stream skipped R d1.joycon_device_.incoming ∧
      (∀ s ∈ skipped, (StdArray.filled 49 s).get 0 ≠ 0x21) ∧
      (StdArray.filled 49 R).get 0 = 0x21 ∧
      (StdArray.filled 49 R).get 1 ≠ subcommand ∧
      ack = ((StdArray.filled 49 R).get 13).testBit 7 ∧
      data = (StdArray.filled 49 R).val.drop 13 ∧
      d.joycon_device_.write_faults.head? ≠ some true := by
  rw [send_subcmd_get_response_eq] at hret
  rcases write_frame_cases d 0x01 (subcommand :: argument) with ⟨h, hw⟩ | ⟨h, _⟩
  · rw [h] at hret
    simp only [] at hret
    rcases hloop : reply_loop (StdArray.filled 49 []) d.joycon_device_.incoming with ⟨o, rest⟩
    rw [hloop] at hret
    cases o with
    | throws e => simp at hret
    | blocks => simp at hret
    | returns reply =>
      simp only [] at hret
      obtain ⟨skipped, R, hp, hs, hr, h0⟩ :=
        reply_loop_returns _ filled_nil_id _ reply rest hloop
      by_cases h1 : reply.get 1 = subcommand
      · simp [h1] at hret
      · simp only [h1, if_false, Prod.mk.injEq, Outcome.returns.injEq] at hret
        obtain ⟨⟨ha, hdata⟩, hd1⟩ := hret
        subst hr
        refine ⟨skipped, R, ?_, hs, h0, h1, ha.symm, hdata.symm, hw⟩
        rw [← hd1]
        exact hp
  · rw [h] at hret
    simp at hret

/-- C9: when the request is accepted and the input stream holds, after any number of
reports with other ids, a first report `R` with id `0x21`, then `send_subcmd_get_response`
consumes the stream up to and including `R` (what follows `R` is left), and it returns
`(ack, data)` with `ack` = bit 7 of `R[13]` and `data` = `R[13..48]` (36 bytes), except that
it throws exactly when `R[1]` equals the subcommand id just sent; it does not wait
further. Here `StdArray.filled 49 R` is the 49-byte buffer `read_input_report` returns for
the input `R` (`R` itself when it has 49 bytes). -/
theorem send_subcmd_get_response_reply (d : JoyCon) (subcommand : Nat) (argument : List Nat)
    (skipped : List (List Nat)) (R : List Nat) (rest : List HidInput)
    (hw : d.joycon_device_.write_faults.head? ≠ some true)
    (hin : d.joycon_device_.incoming = reply_stream skipped R rest)
    (hskip : ∀ s ∈ skipped, (StdArray.filled 49 s).get 0 ≠ 0x21)
    (hR : (StdArray.filled 49 R).get 0 = 0x21) :
    (d.send_subcmd_get_response subcommand argument).2.joycon_device_.incoming = rest ∧
    ((StdArray.filled 49 R).get 1 ≠ subcommand →
      (d.send_subcmd_get_response subcommand argument).1 =
        Outcome.returns (((StdArray.filled 49 R).get 13).testBit 7,
          (StdArray.filled 49 R).val.drop 13)) ∧
    ((StdArray.filled 49 R).val.drop 13).length = 36 ∧
    ((∃ e, (d.send_subcmd_get_response subcommand argument).1 = Outcome.throws e) ↔
      (StdArray.filled 49 R).get 1 = subcommand) ∧
    (d.send_subcmd_get_response subcommand argument).1 ≠ Outcome.blocks := by
  rw [send_subcmd_get_response_on_stream d subcommand argument skipped R rest hw hin hskip hR]
  refine ⟨rfl, fun h => by simp [h], ?_, ?_, ?_⟩
  · rw [List.length_drop, (StdArray.filled 49 R).property]
  · by_cases h : (StdArray.filled 49 R).get 1 = subcommand <;> simp [h]
  · by_cases h : (StdArray.filled 49 R).get 1 = subcommand <;> simp [h]

/-- Witness of C9: a `0x30` report, then a `0x21` report whose byte 1 is 5. -/
theorem send_subcmd_get_response_reply_witness :
    (fresh_device.send_subcmd_get_response 0x10 [0x50, 0x60, 0, 0, 6]).2.joycon_device_.incoming
      = [] ∧
    ((StdArray.filled 49 [0x21, 0x05]).get 1 ≠ 0x10 →
      (fresh_device.send_subcmd_get_response 0x10 [0x50, 0x60, 0, 0, 6]).1 =
        Outcome.returns (((StdArray.filled 49 [0x21, 0x05]).get 13).testBit 7,
          (StdArray.filled 49 [0x21, 0x05]).val.drop 13)) ∧
    ((StdArray.filled 49 [0x21, 0x05]).val.drop 13).length = 36 ∧
    ((∃ e, (fresh_device.send_subcmd_get_response 0x10 [0x50, 0x60, 0, 0, 6]).1
        = Outcome.throws e) ↔ (StdArray.filled 49 [0x21, 0x05]).get 1 = 0x10) ∧
    (fresh_device.send_subcmd_get_response 0x10 [0x50, 0x60, 0, 0, 6]).1 ≠ Outcome.blocks :=
  send_subcmd_get_response_reply fresh_device 0x10 [0x50, 0x60, 0, 0, 6] [[0x30, 0x01]]
    [0x21, 0x05] [] (by decide) (by decide) (by decide) (by decide)

/-! ## The request report -/

theorem spi_argument_eq (address size : Nat) :
    spi_argument address size =
      [address &&& 0xFF, (address >>> 8) &&& 0xFF, (address >>> 16) &&& 0xFF,
        (address >>> 24) &&& 0xFF, size] := rfl

theorem and_0xFF (x : Nat) : x &&& 0xFF = x % 256 :=
  Nat.and_pow_two_sub_one_eq_mod x 8

/-- C8: when `hid_write` accepts the report, `send_subcmd_get_response(id, args)` writes
exactly one report, `[0x01, counter, r0..r7, id]` followed by `args` (length
`11 + |args|`), with `r` the stored rumble pattern and `counter` the counter before the
call (when `hid_write` refuses it, nothing is written). For `spi_flash_read(address, size)`
with `size ≤ 0x1D` this is the 16-byte report with id `0x10` and arguments
`[address & 0xFF, (address >> 8) & 0xFF, (address >> 16) & 0xFF, (address >> 24) & 0xFF, size]`,
and a 32-bit address is recovered from the four bytes as
`a0 + 256*a1 + 65536*a2 + 16777216*a3`. -/
theorem send_subcmd_get_response_request (d : JoyCon) (subcommand : Nat)
    (argument : List Nat) (address size : Nat) :
    (d.joycon_device_.write_faults.head? ≠ some true →
      (d.send_subcmd_get_response subcommand argument).2.joycon_device_.written =
        d.joycon_device_.written ++
          [[0x01, d.packet_number_] ++ d.rumble_data_.val ++ [subcommand] ++ argument] ∧
      ([0x01, d.packet_number_] ++ d.rumble_data_.val ++ [subcommand] ++ argument).length
        = 11 + argument.length ∧
      (size ≤ 0x1d →
        (d.spi_flash_read address size).2.joycon_device_.written =
          d.joycon_device_.written ++
            [[0x01, d.packet_number_] ++ d.rumble_data_.val ++
              [0x10, address &&& 0xFF, (address >>> 8) &&& 0xFF, (address >>> 16) &&& 0xFF,
                (address >>> 24) &&& 0xFF, size]] ∧
        ([0x01, d.packet_number_] ++ d.rumble_data_.val ++
              [0x10, address &&& 0xFF, (address >>> 8) &&& 0xFF, (address >>> 16) &&& 0xFF,
                (address >>> 24) &&& 0xFF, size]).length = 16)) ∧
    (d.joycon_device_.write_faults.head? = some true →
      (d.send_subcmd_get_response subcommand argument).2.joycon_device_.written =
        d.joycon_device_.written) ∧
    (address < 2 ^ 32 →
      (address &&& 0xFF) + 256 * ((address >>> 8) &&& 0xFF)
        + 65536 * ((address >>> 16) &&& 0xFF) + 16777216 * ((address >>> 24) &&& 0xFF)
        = address) := by
  have hlen : d.rumble_data_.val.length = 8 := d.rumble_data_.property
  have hsub : ∀ (sub : Nat) (arg : List Nat),
      d.joycon_device_.write_faults.head? ≠ some true →
      (d.send_subcmd_get_response sub arg).2.joycon_device_.written =
        d.joycon_device_.written ++ [[0x01, d.packet_number_] ++ d.rumble_data_.val ++ sub :: arg] := by
    intro sub arg hw
    rw [(send_subcmd_get_response_state d sub arg).1]
    rcases write_frame_cases d 0x01 (sub :: arg) with ⟨h, _⟩ | ⟨_, hf⟩
    · rw [h]
    · exact absurd hf hw
  refine ⟨fun hw => ⟨?_, ?_, fun hs => ⟨?_, ?_⟩⟩, fun hf => ?_, fun ha => ?_⟩
  · rw [hsub subcommand argument hw]
    simp
  · simp [hlen]; omega
  · rcases spi_flash_read_state d address size with ⟨h, _⟩ | ⟨_, h⟩
    · omega
    · rw [h, hsub _ _ hw, spi_argument_eq]
  · simp [hlen]
  · rw [(send_subcmd_get_response_state d subcommand argument).1]
    rcases write_frame_cases d 0x01 (subcommand :: argument) with ⟨_, hw⟩ | ⟨h, _⟩
    · exact absurd hf hw
    · rw [h]
  · simp only [and_0xFF, Nat.shiftRight_eq_div_pow]
    omega

/-- Witness of C8: the first flash read request of a fresh object. -/
theorem send_subcmd_get_response_request_witness :
    ((fresh_device.send_subcmd_get_response 0x10 [0x50, 0x60, 0, 0, 6]).2.joycon_device_.written =
        fresh_device.joycon_device_.written ++
          [[0x01, fresh_device.packet_number_] ++ fresh_device.rumble_data_.val ++ [0x10]
            ++ [0x50, 0x60, 0, 0, 6]] ∧
      ([0x01, fresh_device.packet_number_] ++ fresh_device.rumble_data_.val ++ [0x10]
            ++ [0x50, 0x60, 0, 0, 6]).length = 11 + [0x50, 0x60, 0, 0, 6].length ∧
      (6 ≤ 0x1d →
        (fresh_device.spi_flash_read 0x6050 6).2.joycon_device_.written =
          fresh_device.joycon_device_.written ++
            [[0x01, fresh_device.packet_number_] ++ fresh_device.rumble_data_.val ++
              [0x10, 0x6050 &&& 0xFF, (0x6050 >>> 8) &&& 0xFF, (0x6050 >>> 16) &&& 0xFF,
                (0x6050 >>> 24) &&& 0xFF, 6]] ∧
        ([0x01, fresh_device.packet_number_] ++ fresh_device.rumble_data_.val ++
              [0x10, 0x6050 &&& 0xFF, (0x6050 >>> 8) &&& 0xFF, (0x6050 >>> 16) &&& 0xFF,
                (0x6050 >>> 24) &&& 0xFF, 6]).length = 16)) ∧
    (0x6050 &&& 0xFF) + 256 * ((0x6050 >>> 8) &&& 0xFF)
        + 65536 * ((0x6050 >>> 16) &&& 0xFF) + 16777216 * ((0x6050 >>> 24) &&& 0xFF)
        = 0x6050 :=
  ⟨(send_subcmd_get_response_request fresh_device 0x10 [0x50, 0x60, 0, 0, 6] 0x6050 6).1
      (by decide),
    (send_subcmd_get_response_request fresh_device 0x10 [0x50, 0x60, 0, 0, 6] 0x6050 6).2.2
      (by decide)⟩

/-! ## Flash reads -/

theorem reply_loop_throws (report : StdArray 49) (pending rest : List HidInput) (e : Exception)
    (h : reply_loop report pending = (Outcome.throws e, rest)) :
    e = Exception.runtime_error "Failed to read input report" := by
  induction pending generalizing report with
  | nil =>
    rw [reply_loop] at h
    split at h <;> simp at h
  | cons x pending ih =>
    cases x with
    | failure =>
      rw [reply_loop] at h
      split at h
      · simp only [Prod.mk.injEq, Outcome.throws.injEq] at h
        exact h.1.symm
      · simp at h
    | report bytes =>
      rw [reply_loop] at h
      split at h
      · exact ih _ h
      · simp at h

/-- Every exception of `send_subcmd_get_response` is a `runtime_error`. -/
theorem send_subcmd_get_response_throws (d d1 : JoyCon) (subcommand : Nat)
    (argument : List Nat) (e : Exception)
    (h : d.send_subcmd_get_response subcommand argument = (Outcome.throws e, d1)) :
    ∃ what, e = Exception.runtime_error what := by
  rw [send_subcmd_get_response_eq] at h
  rcases write_frame_cases d 0x01 (subcommand :: argument) with ⟨hf, _⟩ | ⟨hf, _⟩
  · rw [hf] at h
    simp only [] at h
    rcases hloop : reply_loop (StdArray.filled 49 []) d.joycon_device_.incoming with ⟨o, rest⟩
    rw [hloop] at h
    cases o with
    | throws e1 =>
      simp only [Prod.mk.injEq, Outcome.throws.injEq] at h
      exact ⟨_, by rw [← h.1]; exact reply_loop_throws _ _ _ _ hloop⟩
    | blocks => simp at h
    | returns reply =>
      simp only [] at h
      split at h
      · simp only [Prod.mk.injEq, Outcome.throws.injEq] at h
        exact ⟨_, h.1.symm⟩
      · simp at h
  · rw [hf] at h
    simp only [Prod.mk.injEq, Outcome.throws.injEq] at h
    exact ⟨_, h.1.symm⟩

/-- C7: for every address, `spi_flash_read(address, size)` with `size > 0x1D` throws
`invalid_argument` and leaves the whole object as it was: no report written, no input read,
packet counter and rumble pattern unchanged; for `size ≤ 0x1D` the call never ends with
an `invalid_argument` exception. -/
theorem spi_flash_read_size_check (d : JoyCon) (address size : Nat) :
    (size > 0x1d →
      d.spi_flash_read address size =
        (Outcome.throws (Exception.invalid_argument "size too large for SPI read"), d)) ∧
    (size ≤ 0x1d →
      ∀ what, (d.spi_flash_read address size).1
        ≠ Outcome.throws (Exception.invalid_argument what)) := by
  constructor
  · intro hs
    rw [spi_flash_read_eq]
    simp [hs]
  · intro hs what
    rw [spi_flash_read_eq]
    have hs1 : ¬ size > 0x1d := by omega
    simp only [hs1, if_false]
    rcases hsend : d.send_subcmd_get_response 0x10 (spi_argument address size) with ⟨o, d1⟩
    cases o with
    | throws e =>
      obtain ⟨w, hw⟩ := send_subcmd_get_response_throws d d1 _ _ e hsend
      simp [hw]
    | blocks => simp
    | returns v =>
      obtain ⟨ack, report⟩ := v
      simp only []
      split
      · simp
      · split
        · simp
        · split <;> simp

/-- Witness of C7: size `0x1E` is refused, size 6 passes the size check. -/
theorem spi_flash_read_size_check_witness :
    fresh_device.spi_flash_read 0x6050 0x1e =
        (Outcome.throws (Exception.invalid_argument "size too large for SPI read"),
          fresh_device) ∧
    ∀ what, (fresh_device.spi_flash_read 0x6050 6).1
        ≠ Outcome.throws (Exception.invalid_argument what) :=
  ⟨(spi_flash_read_size_check fresh_device 0x6050 0x1e).1 (by decide),
    (spi_flash_read_size_check fresh_device 0x6050 6).2 (by decide)⟩

/-- Member `spi_flash_read` on a stream that holds a reply `R`, when the size passes the check
and the request is accepted: the checks in the order of the source, on the bytes of `R`. -/
theorem spi_flash_read_on_stream (d : JoyCon) (address size : Nat)
    (skipped : List (List Nat)) (R : List Nat) (rest : List HidInput)
    (hs : size ≤ 0x1d)
    (hw : d.joycon_device_.write_faults.head? ≠ some true)
    (hin : d.joycon_device_.incoming = reply_stream skipped R rest)
    (hskip : ∀ s ∈ skipped, (StdArray.filled 49 s).get 0 ≠ 0x21)
    (hR : (StdArray.filled 49 R).get 0 = 0x21) :
    (d.spi_flash_read address size).1 =
      if (StdArray.filled 49 R).get 1 = 0x10 then
        Outcome.throws (Exception.runtime_error "THREAD carefully")
      else if ((StdArray.filled 49 R).get 13).testBit 7 = false then
        Outcome.throws (Exception.runtime_error "After SPI read: got NACK")
      else if ¬ ((StdArray.filled 49 R).get 13 = 0x90 ∧ (StdArray.filled 49 R).get 14 = 0x10) then
        Outcome.throws (Exception.runtime_error "Unexpected ACK in SPI read")
      else if ((StdArray.filled 49 R).val.drop 15).take 5 ≠ spi_argument address size then
        Outcome.throws (Exception.runtime_error "SPI argument mismatch")
      else
        Outcome.returns (((StdArray.filled 49 R).val.drop 20).take size) := by
  have hs1 : ¬ size > 0x1d := by omega
  have h13 := drop_getElem? (StdArray.filled 49 R) 13 0 (by decide)
  have h14 := drop_getElem? (StdArray.filled 49 R) 13 1 (by decide)
  rw [spi_flash_read_eq]
  simp only [hs1, if_false]
  rw [send_subcmd_get_response_on_stream d 0x10 _ skipped R rest hw hin hskip hR]
  have hlen : (spi_argument address size).length = 5 := rfl
  have h144 : Nat.testBit 144 7 = true := by decide
  have h13a : (StdArray.filled 49 R).get ⟨13 + 0, by decide⟩ = (StdArray.filled 49 R).get 13 := rfl
  have h14a : (StdArray.filled 49 R).get ⟨13 + 1, by decide⟩ = (StdArray.filled 49 R).get 14 := rfl
  rw [h13a] at h13
  rw [h14a] at h14
  by_cases h1 : (StdArray.filled 49 R).get 1 = 0x10
  · simp only [h1, if_true]
  · simp only [h1, if_false, h13, h14, hlen, List.drop_drop]
    by_cases hack : ((StdArray.filled 49 R).get 13).testBit 7 = false
    · simp [hack]
    · have hack1 : ((StdArray.filled 49 R).get 13).testBit 7 = true := by simpa using hack
      by_cases h90 : (StdArray.filled 49 R).get 13 = 0x90
      · by_cases h10 : (StdArray.filled 49 R).get 14 = 0x10
        · by_cases hecho :
              ((StdArray.filled 49 R).val.drop 15).take 5 = spi_argument address size
          · simp [h144, h90, h10, hecho]
          · have hecho1 : ¬ spi_argument address size
                = ((StdArray.filled 49 R).val.drop 15).take 5 := fun h => hecho h.symm
            simp [h144, h90, h10, hecho, hecho1]
        · simp [h144, h90, h10]
      · simp [hack1, h90]

/-- Whenever `spi_flash_read` returns a payload: the size passed the check, the request was
accepted, and the stream held reports with other ids followed by a `0x21` report `R`
that passed every check. -/
theorem spi_flash_read_returns (d d1 : JoyCon) (address size : Nat) (payload : List Nat)
    (hret : d.spi_flash_read address size = (Outcome.returns payload, d1)) :
    size ≤ 0x1d ∧ d.joycon_device_.write_faults.head? ≠ some true ∧
    ∃ skipped R, d.joycon_device_.incoming = reply_stream skipped R d1.joycon_device_.incoming ∧
      (∀ s ∈ skipped, (StdArray.filled 49 s).get 0 ≠ 0x21) ∧
      (StdArray.filled 49 R).get 0 = 0x21 ∧
      (StdArray.filled 49 R).get 1 ≠ 0x10 ∧
      ((StdArray.filled 49 R).get 13).testBit 7 = true ∧
      (StdArray.filled 49 R).get 13 = 0x90 ∧
      (StdArray.filled 49 R).get 14 = 0x10 ∧
      ((StdArray.filled 49 R).val.drop 15).take 5 = spi_argument address size ∧
      payload = ((StdArray.filled 49 R).val.drop 20).take size := by
  have hs : size ≤ 0x1d := by
    rcases spi_flash_read_state d address size with ⟨_, h⟩ | ⟨h, _⟩
    · rw [h] at hret
      simp at hret
    · exact h
  have hstate : (d.send_subcmd_get_response 0x10 (spi_argument address size)).2 = d1 := by
    rcases spi_flash_read_state d address size with ⟨h, _⟩ | ⟨_, h⟩
    · omega
    · rw [← h, hret]
  have hs1 : ¬ size > 0x1d := by omega
  rcases hsend : d.send_subcmd_get_response 0x10 (spi_argument address size) with ⟨o, d2⟩
  rw [hsend] at hstate
  simp only [] at hstate
  subst hstate
  cases o with
  | throws e =>
    rw [spi_flash_read_eq, hsend] at hret
    simp [hs1] at hret
  | blocks =>
    rw [spi_flash_read_eq, hsend] at hret
    simp [hs1] at hret
  | returns v =>
    obtain ⟨ack, data⟩ := v
    obtain ⟨skipped, R, hin, hskip, hR, h1, _, _, hw⟩ :=
      send_subcmd_get_response_returns d d2 0x10 _ ack data hsend
    have hon := spi_flash_read_on_stream d address size skipped R _ hs hw hin hskip hR
    rw [hret] at hon
    simp only [h1, if_false] at hon
    refine ⟨hs, hw, skipped, R, hin, hskip, hR, h1, ?_⟩
    by_cases hack : ((StdArray.filled 49 R).get 13).testBit 7 = false
    · simp [hack] at hon
    · by_cases h90 : (StdArray.filled 49 R).get 13 = 0x90 ∧ (StdArray.filled 49 R).get 14 = 0x10
      · by_cases hecho :
            ((StdArray.filled 49 R).val.drop 15).take 5 = spi_argument address size
        · have h144 : Nat.testBit 144 7 = true := by decide
          simp [h144, h90, hecho] at hon
          exact ⟨by simpa using hack, h90.1, h90.2, hecho, hon⟩
        · have h144 : Nat.testBit 144 7 = true := by decide
          simp [h144, h90, hecho] at hon
      · simp [hack, h90] at hon

/-- When `hid_write` refuses the request, `send_subcmd_get_response` throws. -/
theorem send_subcmd_get_response_write_fault (d : JoyCon) (subcommand : Nat)
    (argument : List Nat) (hf : d.joycon_device_.write_faults.head? = some true) :
    (d.send_subcmd_get_response subcommand argument).1 =
      Outcome.throws (Exception.runtime_error "Failed to write output report") := by
  rw [send_subcmd_get_response_eq]
  rcases write_frame_cases d 0x01 (subcommand :: argument) with ⟨_, hw⟩ | ⟨h, _⟩
  · exact absurd hf hw
  · rw [h]

/-- On a stream that holds a reply, `spi_flash_read` throws unless the reply passes every
check; this covers the refused size and the refused write as well. -/
theorem spi_flash_read_rejects (d : JoyCon) (address size : Nat)
    (skipped : List (List Nat)) (R : List Nat) (rest : List HidInput)
    (hin : d.joycon_device_.incoming = reply_stream skipped R rest)
    (hskip : ∀ s ∈ skipped, (StdArray.filled 49 s).get 0 ≠ 0x21)
    (hR : (StdArray.filled 49 R).get 0 = 0x21)
    (hbad : ((StdArray.filled 49 R).get 13).testBit 7 = false ∨
      (StdArray.filled 49 R).get 13 ≠ 0x90 ∨
      (StdArray.filled 49 R).get 14 ≠ 0x10 ∨
      ((StdArray.filled 49 R).val.drop 15).take 5 ≠ spi_argument address size) :
    ∃ e, (d.spi_flash_read address size).1 = Outcome.throws e := by
  by_cases hs : size > 0x1d
  · rw [spi_flash_read_eq]
    simp [hs]
  · by_cases hf : d.joycon_device_.write_faults.head? = some true
    · have h := send_subcmd_get_response_write_fault d 0x10 (spi_argument address size) hf
      rw [spi_flash_read_eq]
      simp only [hs, if_false]
      rcases hsend : d.send_subcmd_get_response 0x10 (spi_argument address size) with ⟨o, d1⟩
      rw [hsend] at h
      simp only [] at h
      subst h
      exact ⟨_, rfl⟩
    · have hon :=
        spi_flash_read_on_stream d address size skipped R rest (by omega) hf hin hskip hR
      by_cases h1 : (StdArray.filled 49 R).get 1 = 0x10
      · rw [if_pos h1] at hon
        exact ⟨_, hon⟩
      · rw [if_neg h1] at hon
        by_cases hack : ((StdArray.filled 49 R).get 13).testBit 7 = false
        · rw [if_pos hack] at hon
          exact ⟨_, hon⟩
        · rw [if_neg hack] at hon
          by_cases h90 :
              (StdArray.filled 49 R).get 13 = 0x90 ∧ (StdArray.filled 49 R).get 14 = 0x10
          · have hecho : ((StdArray.filled 49 R).val.drop 15).take 5
                ≠ spi_argument address size := by
              rcases hbad with h | h | h | h
              · exact absurd h hack
              · exact absurd h90.1 h
              · exact absurd h90.2 h
              · exact h
            rw [if_neg (not_not.mpr h90), if_pos hecho] at hon
            exact ⟨_, hon⟩
          · rw [if_pos h90] at hon
            exact ⟨_, hon⟩

/-- C5: whenever `spi_flash_read(address, size)` returns a payload, the stream it consumed
held reports with other ids and then a first `0x21` report `R` with bit 7 of byte 13 set,
byte 14 equal to `0x10` and bytes 15..19 equal to the four little-endian address bytes
followed by `size`; the payload is bytes 20..20+size-1 of `R` (`size` bytes) and the inputs
after `R` are left. And on a stream whose first `0x21` report is not acknowledged, or has
an embedded subcommand id other than `0x10`, or echoes other address/size bytes, the read
throws: it yields no payload. -/
theorem spi_flash_read_validates_reply (d : JoyCon) (address size : Nat) :
    (∀ payload d1, d.spi_flash_read address size = (Outcome.returns payload, d1) →
      ∃ skipped R,
        d.joycon_device_.incoming = reply_stream skipped R d1.joycon_device_.incoming ∧
        (∀ s ∈ skipped, (StdArray.filled 49 s).get 0 ≠ 0x21) ∧
        (StdArray.filled 49 R).get 0 = 0x21 ∧
        ((StdArray.filled 49 R).get 13).testBit 7 = true ∧
        (StdArray.filled 49 R).get 14 = 0x10 ∧
        ((StdArray.filled 49 R).val.drop 15).take 5 =
          [address &&& 0xFF, (address >>> 8) &&& 0xFF, (address >>> 16) &&& 0xFF,
            (address >>> 24) &&& 0xFF, size] ∧
        payload = ((StdArray.filled 49 R).val.drop 20).take size ∧
        payload.length = size) ∧
    (∀ skipped R rest,
      d.joycon_device_.incoming = reply_stream skipped R rest →
      (∀ s ∈ skipped, (StdArray.filled 49 s).get 0 ≠ 0x21) →
      (StdArray.filled 49 R).get 0 = 0x21 →
      (((StdArray.filled 49 R).get 13).testBit 7 = false ∨
        (StdArray.filled 49 R).get 14 ≠ 0x10 ∨
        ((StdArray.filled 49 R).val.drop 15).take 5 ≠
          [address &&& 0xFF, (address >>> 8) &&& 0xFF, (address >>> 16) &&& 0xFF,
            (address >>> 24) &&& 0xFF, size]) →
      ∃ e, (d.spi_flash_read address size).1 = Outcome.throws e) := by
  constructor
  · intro payload d1 hret
    obtain ⟨hs, _, skipped, R, hin, hskip, hR, _, hack, _, h14, hecho, hp⟩ :=
      spi_flash_read_returns d d1 address size payload hret
    refine ⟨skipped, R, hin, hskip, hR, hack, h14, hecho, hp, ?_⟩
    rw [hp, List.length_take, List.length_drop, (StdArray.filled 49 R).property]
    omega
  · intro skipped R rest hin hskip hR hbad
    apply spi_flash_read_rejects d address size skipped R rest hin hskip hR
    rcases hbad with h | h | h
    · exact Or.inl h
    · exact Or.inr (Or.inr (Or.inl h))
    · exact Or.inr (Or.inr (Or.inr h))

/-- Witness of C5: a read that returns its payload, and a reply that is not acknowledged. -/
theorem spi_flash_read_validates_reply_witness :
    (∃ skipped R,
        (spi_device (spi_reply 0x90 0x10)).joycon_device_.incoming
          = reply_stream skipped R spi_device_after.joycon_device_.incoming ∧
        (∀ s ∈ skipped, (StdArray.filled 49 s).get 0 ≠ 0x21) ∧
        (StdArray.filled 49 R).get 0 = 0x21 ∧
        ((StdArray.filled 49 R).get 13).testBit 7 = true ∧
        (StdArray.filled 49 R).get 14 = 0x10 ∧
        ((StdArray.filled 49 R).val.drop 15).take 5 =
          [0x6050 &&& 0xFF, (0x6050 >>> 8) &&& 0xFF, (0x6050 >>> 16) &&& 0xFF,
            (0x6050 >>> 24) &&& 0xFF, 6] ∧
        [0x82, 0x82, 0x82, 0x0F, 0x0F, 0x0F] = ((StdArray.filled 49 R).val.drop 20).take 6 ∧
        [0x82, 0x82, 0x82, 0x0F, 0x0F, 0x0F].length = 6) ∧
    ∃ e, ((spi_device (spi_reply 0x10 0x10)).spi_flash_read 0x6050 6).1 = Outcome.throws e :=
  ⟨(spi_flash_read_validates_reply (spi_device (spi_reply 0x90 0x10)) 0x6050 6).1
      [0x82, 0x82, 0x82, 0x0F, 0x0F, 0x0F] spi_device_after (by decide),
    (spi_flash_read_validates_reply (spi_device (spi_reply 0x10 0x10)) 0x6050 6).2
      [[0x30, 0x01]] (spi_reply 0x10 0x10) [] (by decide) (by decide) (by decide)
      (Or.inl (by decide))⟩

/-- Counterexample to C6: a reply with the ack flag set (byte 13 = `0x80`), embedded id
`0x10` and the right echo, for size 6, on which `spi_flash_read` throws. -/
theorem spi_flash_read_ack_0x80_throws :
    6 ≤ 0x1d ∧
    (spi_device (spi_reply 0x80 0x10)).joycon_device_.incoming
      = reply_stream [[0x30, 0x01]] (spi_reply 0x80 0x10) [] ∧
    (StdArray.filled 49 [0x30, 0x01]).get 0 ≠ 0x21 ∧
    (StdArray.filled 49 (spi_reply 0x80 0x10)).get 0 = 0x21 ∧
    ((StdArray.filled 49 (spi_reply 0x80 0x10)).get 13).testBit 7 = true ∧
    (StdArray.filled 49 (spi_reply 0x80 0x10)).get 14 = 0x10 ∧
    ((StdArray.filled 49 (spi_reply 0x80 0x10)).val.drop 15).take 5 =
      [0x6050 &&& 0xFF, (0x6050 >>> 8) &&& 0xFF, (0x6050 >>> 16) &&& 0xFF,
        (0x6050 >>> 24) &&& 0xFF, 6] ∧
    ((spi_device (spi_reply 0x80 0x10)).spi_flash_read 0x6050 6).1 =
      Outcome.throws (Exception.runtime_error "Unexpected ACK in SPI read") := by
  decide

/-- C6 (amended): for every address and every size ≤ `0x1D`, if the request is accepted
and the first `0x21` report received has byte 13 equal to `0x90`, embedded subcommand id
`0x10` (byte 14), echoed bytes 15..19 equal to the little-endian address and the size, and
byte 1 different from `0x10`, then `spi_flash_read` returns exactly the `size` bytes that
follow the 5-byte echo (bytes 20..20+size-1 of the reply) and leaves what follows the
reply on the stream. -/
theorem spi_flash_read_accepts (d : JoyCon) (address size : Nat)
    (skipped : List (List Nat)) (R : List Nat) (rest : List HidInput)
    (hs : size ≤ 0x1d)
    (hw : d.joycon_device_.write_faults.head? ≠ some true)
    (hin : d.joycon_device_.incoming = reply_stream skipped R rest)
    (hskip : ∀ s ∈ skipped, (StdArray.filled 49 s).get 0 ≠ 0x21)
    (hR : (StdArray.filled 49 R).get 0 = 0x21)
    (h1 : (StdArray.filled 49 R).get 1 ≠ 0x10)
    (h13 : (StdArray.filled 49 R).get 13 = 0x90)
    (h14 : (StdArray.filled 49 R).get 14 = 0x10)
    (hecho : ((StdArray.filled 49 R).val.drop 15).take 5 =
      [address &&& 0xFF, (address >>> 8) &&& 0xFF, (address >>> 16) &&& 0xFF,
        (address >>> 24) &&& 0xFF, size]) :
    (d.spi_flash_read address size).1 =
      Outcome.returns (((StdArray.filled 49 R).val.drop 20).take size) ∧
    (((StdArray.filled 49 R).val.drop 20).take size).length = size ∧
    (d.spi_flash_read address size).2.joycon_device_.incoming = rest := by
  have hon := spi_flash_read_on_stream d address size skipped R rest hs hw hin hskip hR
  have hack : ¬ ((StdArray.filled 49 R).get 13).testBit 7 = false := by
    rw [h13]; decide
  have hecho1 : ¬ ((StdArray.filled 49 R).val.drop 15).take 5 ≠ spi_argument address size :=
    not_not.mpr hecho
  rw [if_neg h1, if_neg hack, if_neg (not_not.mpr ⟨h13, h14⟩), if_neg hecho1] at hon
  refine ⟨hon, ?_, ?_⟩
  · rw [List.length_take, List.length_drop, (StdArray.filled 49 R).property]
    omega
  · rcases spi_flash_read_state d address size with ⟨h, _⟩ | ⟨_, h⟩
    · omega
    · rw [h, send_subcmd_get_response_on_stream d 0x10 _ skipped R rest hw hin hskip hR]

/-- Witness of C6 (amended): the colour read of a fresh object. -/
theorem spi_flash_read_accepts_witness :
    ((spi_device (spi_reply 0x90 0x10)).spi_flash_read 0x6050 6).1 =
      Outcome.returns (((StdArray.filled 49 (spi_reply 0x90 0x10)).val.drop 20).take 6) ∧
    (((StdArray.filled 49 (spi_reply 0x90 0x10)).val.drop 20).take 6).length = 6 ∧
    ((spi_device (spi_reply 0x90 0x10)).spi_flash_read 0x6050 6).2.joycon_device_.incoming
      = [] :=
  spi_flash_read_accepts (spi_device (spi_reply 0x90 0x10)) 0x6050 6 [[0x30, 0x01]]
    (spi_reply 0x90 0x10) [] (by decide) (by decide) (by decide) (by decide) (by decide)
    (by decide) (by decide) (by decide) (by decide)

/-- Counterexample to C10: the first `0x21` report has embedded subcommand id `0x11`, not the
id `0x10` just sent, and `send_subcmd_get_response` returns it as the reply. -/
theorem send_subcmd_get_response_ignores_embedded_id :
    (spi_device (spi_reply 0x90 0x11)).joycon_device_.incoming
      = reply_stream [[0x30, 0x01]] (spi_reply 0x90 0x11) [] ∧
    (StdArray.filled 49 [0x30, 0x01]).get 0 ≠ 0x21 ∧
    (StdArray.filled 49 (spi_reply 0x90 0x11)).get 0 = 0x21 ∧
    (StdArray.filled 49 (spi_reply 0x90 0x11)).get 14 ≠ 0x10 ∧
    ((spi_device (spi_reply 0x90 0x11)).send_subcmd_get_response 0x10 [0x50, 0x60, 0, 0, 6]).1 =
      Outcome.returns (true, (StdArray.filled 49 (spi_reply 0x90 0x11)).val.drop 13) := by
  decide

/-- C10 (amended): `send_subcmd_get_response` does not compare the embedded subcommand id
(byte 14) with the id just sent: when byte 1 of the first `0x21` report differs from the id
sent it returns that report as the reply, whatever byte 14 is. The mismatch is an error
in its caller: if byte 14 of the first `0x21` report differs from `0x10`,
`spi_flash_read` throws instead of returning a payload. -/
theorem embedded_id_checked_by_spi_flash_read (d : JoyCon) (subcommand : Nat)
    (argument : List Nat) (address size : Nat)
    (skipped : List (List Nat)) (R : List Nat) (rest : List HidInput)
    (hw : d.joycon_device_.write_faults.head? ≠ some true)
    (hin : d.joycon_device_.incoming = reply_stream skipped R rest)
    (hskip : ∀ s ∈ skipped, (StdArray.filled 49 s).get 0 ≠ 0x21)
    (hR : (StdArray.filled 49 R).get 0 = 0x21) :
    ((StdArray.filled 49 R).get 1 ≠ subcommand →
      (d.send_subcmd_get_response subcommand argument).1 =
        Outcome.returns (((StdArray.filled 49 R).get 13).testBit 7,
          (StdArray.filled 49 R).val.drop 13)) ∧
    ((StdArray.filled 49 R).get 14 ≠ 0x10 →
      ∃ e, (d.spi_flash_read address size).1 = Outcome.throws e) := by
  constructor
  · intro h1
    rw [send_subcmd_get_response_on_stream d subcommand argument skipped R rest hw hin hskip hR]
    simp [h1]
  · intro h14
    exact spi_flash_read_rejects d address size skipped R rest hin hskip hR
      (Or.inr (Or.inr (Or.inl h14)))

/-- Witness of C10 (amended): the reply with embedded id `0x11`. -/
theorem embedded_id_checked_by_spi_flash_read_witness :
    ((spi_device (spi_reply 0x90 0x11)).send_subcmd_get_response 0x10 [0x50, 0x60, 0, 0, 6]).1 =
        Outcome.returns (((StdArray.filled 49 (spi_reply 0x90 0x11)).get 13).testBit 7,
          (StdArray.filled 49 (spi_reply 0x90 0x11)).val.drop 13) ∧
    ∃ e, ((spi_device (spi_reply 0x90 0x11)).spi_flash_read 0x6050 6).1 = Outcome.throws e :=
  ⟨(embedded_id_checked_by_spi_flash_read (spi_device (spi_reply 0x90 0x11)) 0x10
      [0x50, 0x60, 0, 0, 6] 0x6050 6 [[0x30, 0x01]] (spi_reply 0x90 0x11) []
      (by decide) (by decide) (by decide) (by decide)).1 (by decide),
    (embedded_id_checked_by_spi_flash_read (spi_device (spi_reply 0x90 0x11)) 0x10
      [0x50, 0x60, 0, 0, 6] 0x6050 6 [[0x30, 0x01]] (spi_reply 0x90 0x11) []
      (by decide) (by decide) (by decide) (by decide)).2 (by decide)⟩

/-! ## Player lamps -/

/-- The `switch` of the lamp commands is the lookup table for players 1..8. -/
theorem binaryPattern_eq_player_code (n : Int) (h1 : 1 ≤ n) (h8 : n ≤ 8) :
    binaryPattern n = player_code n ∧ ∃ code, player_code n = some code ∧ code < 16 := by
  interval_cases n <;> exact ⟨rfl, _, rfl, by decide⟩

/-- Outside 1..8 the `switch` takes its `default:` branch. -/
theorem binaryPattern_none (n : Int) (h : n < 1 ∨ 8 < n) : binaryPattern n = none := by
  unfold binaryPattern
  split <;> first | omega | rfl

/-- A frame step whose write is accepted. -/
theorem write_frame_accepted (d : JoyCon) (id : Nat) (tail : List Nat)
    (hw : d.joycon_device_.write_faults.head? ≠ some true) :
    write_frame d id tail =
      (Outcome.returns (), { d with
        packet_number_ := (d.packet_number_ + 1) % 16
        joycon_device_ :=
          { d.joycon_device_ with
            written := d.joycon_device_.written
              ++ [[id, d.packet_number_] ++ d.rumble_data_.val ++ tail],
            write_faults := d.joycon_device_.write_faults.tail } }) := by
  rcases write_frame_cases d id tail with ⟨h, _⟩ | ⟨_, hf⟩
  · exact h
  · exact absurd hf hw

theorem nibble_facts (code : Nat) (h : code < 16) :
    code &&& 0xF = code ∧ code <<< 4 < 256 ∧ code &&& 0xF0 = 0 ∧ (code <<< 4) &&& 0x0F = 0 := by
  interval_cases code <;> decide

/-- C11: for every player number `n` in 1..8, when the write is accepted,
`set_player_lamp(n)` writes the 12-byte report `[0x01, counter, rumble(8), 0x30, code(n)]`
and `set_player_lamp_flashing(n)` writes `[0x01, counter, rumble(8), 0x30, code(n) << 4]`,
where `code` is the table 1,3,7,15,9,10,11,6; player 4 gives `0x0F` steady and `0xF0`
flashing; the last byte is below 256 and its unused nibble is zero. -/
theorem player_lamp_report (d : JoyCon) (n : Int) (h1 : 1 ≤ n) (h8 : n ≤ 8)
    (hw : d.joycon_device_.write_faults.head? ≠ some true) :
    ∃ code, player_code n = some code ∧
      (d.set_player_lamp n).1 = Outcome.returns () ∧
      (d.set_player_lamp n).2.joycon_device_.written = d.joycon_device_.written ++
        [[0x01, d.packet_number_] ++ d.rumble_data_.val ++ [0x30, code]] ∧
      ([0x01, d.packet_number_] ++ d.rumble_data_.val ++ [0x30, code]).length = 12 ∧
      (d.set_player_lamp_flashing n).1 = Outcome.returns () ∧
      (d.set_player_lamp_flashing n).2.joycon_device_.written = d.joycon_device_.written ++
        [[0x01, d.packet_number_] ++ d.rumble_data_.val ++ [0x30, code <<< 4]] ∧
      ([0x01, d.packet_number_] ++ d.rumble_data_.val ++ [0x30, code <<< 4]).length = 12 ∧
      code < 16 ∧ code <<< 4 < 256 ∧ code &&& 0xF0 = 0 ∧ (code <<< 4) &&& 0x0F = 0 ∧
      (n = 4 → code = 0x0F ∧ code <<< 4 = 0xF0) := by
  obtain ⟨hbp, code, hcode, hlt⟩ := binaryPattern_eq_player_code n h1 h8
  obtain ⟨hand, hfit, hlow, hhigh⟩ := nibble_facts code hlt
  have hlen : d.rumble_data_.val.length = 8 := d.rumble_data_.property
  rw [hcode] at hbp
  refine ⟨code, hcode, ?_, ?_, ?_, ?_, ?_, ?_, hlt, hfit, hlow, hhigh, ?_⟩
  · rw [set_player_lamp_eq, hbp]
    simp only [write_frame_accepted d _ _ hw]
  · rw [set_player_lamp_eq, hbp]
    simp only [write_frame_accepted d _ _ hw, hand]
  · simp [hlen]
  · rw [set_player_lamp_flashing_eq, hbp]
    simp only [write_frame_accepted d _ _ hw]
  · rw [set_player_lamp_flashing_eq, hbp]
    simp only [write_frame_accepted d _ _ hw, hand]
  · simp [hlen]
  · intro h4
    subst h4
    have : code = 15 := by
      have h : player_code 4 = some 15 := rfl
      rw [hcode] at h
      exact Option.some.inj h
    subst this
    exact ⟨rfl, rfl⟩

/-- Witness of C11: player 4 on a fresh object. -/
theorem player_lamp_report_witness :
    ∃ code, player_code 4 = some code ∧
      (fresh_device.set_player_lamp 4).1 = Outcome.returns () ∧
      (fresh_device.set_player_lamp 4).2.joycon_device_.written =
        fresh_device.joycon_device_.written ++
        [[0x01, fresh_device.packet_number_] ++ fresh_device.rumble_data_.val ++ [0x30, code]] ∧
      ([0x01, fresh_device.packet_number_] ++ fresh_device.rumble_data_.val
        ++ [0x30, code]).length = 12 ∧
      (fresh_device.set_player_lamp_flashing 4).1 = Outcome.returns () ∧
      (fresh_device.set_player_lamp_flashing 4).2.joycon_device_.written =
        fresh_device.joycon_device_.written ++
        [[0x01, fresh_device.packet_number_] ++ fresh_device.rumble_data_.val
          ++ [0x30, code <<< 4]] ∧
      ([0x01, fresh_device.packet_number_] ++ fresh_device.rumble_data_.val
        ++ [0x30, code <<< 4]).length = 12 ∧
      code < 16 ∧ code <<< 4 < 256 ∧ code &&& 0xF0 = 0 ∧ (code <<< 4) &&& 0x0F = 0 ∧
      ((4 : Int) = 4 → code = 0x0F ∧ code <<< 4 = 0xF0) :=
  player_lamp_report fresh_device 4 (by decide) (by decide) (by decide)

/-- C12: for every player number outside 1..8, `set_player_lamp` and
`set_player_lamp_flashing` throw `invalid_argument` and leave the whole object as it was:
no report is written and the packet counter and the stored rumble pattern are unchanged. -/
theorem player_lamp_invalid (d : JoyCon) (n : Int) (h : n < 1 ∨ 8 < n) :
    d.set_player_lamp n =
      (Outcome.throws (Exception.invalid_argument "Invalid player number"), d) ∧
    d.set_player_lamp_flashing n =
      (Outcome.throws (Exception.invalid_argument "Invalid player number"), d) := by
  rw [set_player_lamp_eq, set_player_lamp_flashing_eq, binaryPattern_none n h]
  exact ⟨rfl, rfl⟩

/-- Witness of C12: players 9, 0 and -3. -/
theorem player_lamp_invalid_witness :
    (fresh_device.set_player_lamp 9 =
        (Outcome.throws (Exception.invalid_argument "Invalid player number"), fresh_device) ∧
      fresh_device.set_player_lamp_flashing 9 =
        (Outcome.throws (Exception.invalid_argument "Invalid player number"), fresh_device)) ∧
    (fresh_device.set_player_lamp 0 =
        (Outcome.throws (Exception.invalid_argument "Invalid player number"), fresh_device) ∧
      fresh_device.set_player_lamp_flashing 0 =
        (Outcome.throws (Exception.invalid_argument "Invalid player number"), fresh_device)) ∧
    (fresh_device.set_player_lamp (-3) =
        (Outcome.throws (Exception.invalid_argument "Invalid player number"), fresh_device) ∧
      fresh_device.set_player_lamp_flashing (-3) =
        (Outcome.throws (Exception.invalid_argument "Invalid player number"), fresh_device)) :=
  ⟨player_lamp_invalid fresh_device 9 (by decide),
    player_lamp_invalid fresh_device 0 (by decide),
    player_lamp_invalid fresh_device (-3) (by decide)⟩

/-! ## The layout of command reports -/

/-- One frame step appends nothing or exactly its frame. -/
theorem write_frame_new (d : JoyCon) (id : Nat) (tail : List Nat) :
    ∃ new, (write_frame d id tail).2.joycon_device_.written = d.joycon_device_.written ++ new ∧
      (new = [] ∨ new = [[id, d.packet_number_] ++ d.rumble_data_.val ++ tail]) ∧
      ((write_frame d id tail).1 = Outcome.returns () →
        new = [[id, d.packet_number_] ++ d.rumble_data_.val ++ tail]) ∧
      (write_frame d id tail).2.rumble_data_ = d.rumble_data_ := by
  rcases write_frame_cases d id tail with ⟨h, _⟩ | ⟨h, _⟩
  · exact ⟨_, by rw [h], Or.inr rfl, fun _ => rfl, by rw [h]⟩
  · exact ⟨[], by rw [h]; simp, Or.inl rfl, fun hr => by rw [h] at hr; simp at hr, by rw [h]⟩

/-- Counterexample to C20: the report written by `rumble_bump()` on a fresh object starts
with `0x10`, not `0x01`, and ends after the 8 pattern bytes: 10 bytes in all. -/
theorem rumble_report_is_0x10 :
    fresh_device.rumble_bump.1 = Outcome.returns () ∧
    fresh_device.rumble_bump.2.joycon_device_.written =
      [[0x10, 0, 0x98, 0x1e, 0xc1, 0x51, 0x98, 0x1e, 0xc1, 0x12]] := by
  decide

/-- The shape of a report: `[id, counter] ++ pattern ++ tail`. -/
theorem frame_shape (id counter : Nat) (pattern : StdArray 8) (tail : List Nat) :
    ([id, counter] ++ pattern.val ++ tail)[0]? = some id ∧
    ([id, counter] ++ pattern.val ++ tail)[1]? = some counter ∧
    rumble_bytes ([id, counter] ++ pattern.val ++ tail) = pattern.val ∧
    ([id, counter] ++ pattern.val ++ tail).length = 10 + tail.length := by
  have h : pattern.val.length = 8 := pattern.property
  refine ⟨by simp, by simp, rumble_bytes_frame _ _ _ _, ?_⟩
  simp [h]
  omega

/-- C20 (amended): every report written by a Command Encoder operation carries the packet
counter at byte 1 and the stored rumble pattern at bytes 2..9. For LED on-pattern, LED
flashing / player-number pattern, vibration enable and disconnect, byte 0 is `0x01`, the
stored pattern is unchanged and two more bytes follow (12 bytes). For a rumble command,
byte 0 is `0x10`, the pattern is the requested one, which the command has stored, and
nothing follows it (10 bytes). A command that returns has written exactly one report. -/
theorem command_report_layout (d : JoyCon) (op : Op) (hop : op.is_command = true) :
    ∃ new : List (List Nat),
      (op.exec d).2.joycon_device_.written = d.joycon_device_.written ++ new ∧
      ((op.exec d).1 = Outcome.returns () → new.length = 1) ∧
      ∀ r ∈ new,
        r[1]? = some d.packet_number_ ∧
        rumble_bytes r = (op.exec d).2.rumble_data_.val ∧
        ((op.rumble_request = none ∧ r[0]? = some 0x01 ∧ r.length = 12 ∧
            (op.exec d).2.rumble_data_ = d.rumble_data_) ∨
          (∃ pattern, op.rumble_request = some pattern ∧ r[0]? = some 0x10 ∧
            r = [0x10, d.packet_number_] ++ pattern.val ∧ r.length = 10 ∧
            (op.exec d).2.rumble_data_ = pattern)) := by
  have hcmd : ∀ tail : List Nat, tail.length = 2 →
      ∃ new : List (List Nat),
        (write_frame d 0x01 tail).2.joycon_device_.written = d.joycon_device_.written ++ new ∧
        ((write_frame d 0x01 tail).1 = Outcome.returns () → new.length = 1) ∧
        ∀ r ∈ new,
          r[1]? = some d.packet_number_ ∧
          rumble_bytes r = (write_frame d 0x01 tail).2.rumble_data_.val ∧
          r[0]? = some 0x01 ∧ r.length = 12 ∧
          (write_frame d 0x01 tail).2.rumble_data_ = d.rumble_data_ := by
    intro tail htail
    obtain ⟨new, hw, hor, hret, hr⟩ := write_frame_new d 0x01 tail
    obtain ⟨f0, f1, f2, f3⟩ := frame_shape 0x01 d.packet_number_ d.rumble_data_ tail
    refine ⟨new, hw, fun h => by rw [hret h]; rfl, fun r hmem => ?_⟩
    rcases hor with h | h
    · rw [h] at hmem; simp at hmem
    · rw [h] at hmem
      simp only [List.mem_singleton] at hmem
      subst hmem
      exact ⟨f1, by rw [hr]; exact f2, f0, by rw [f3, htail], hr⟩
  have hrum : ∀ pattern : StdArray 8,
      ∃ new : List (List Nat),
        (d.send_rumble pattern).2.joycon_device_.written = d.joycon_device_.written ++ new ∧
        ((d.send_rumble pattern).1 = Outcome.returns () → new.length = 1) ∧
        ∀ r ∈ new,
          r[1]? = some d.packet_number_ ∧
          rumble_bytes r = (d.send_rumble pattern).2.rumble_data_.val ∧
          r[0]? = some 0x10 ∧ r = [0x10, d.packet_number_] ++ pattern.val ∧ r.length = 10 ∧
          (d.send_rumble pattern).2.rumble_data_ = pattern := by
    intro pattern
    rw [send_rumble_eq]
    obtain ⟨new, hw, hor, hret, hr⟩ := write_frame_new { d with rumble_data_ := pattern } 0x10 []
    obtain ⟨f0, f1, f2, f3⟩ := frame_shape 0x10 d.packet_number_ pattern []
    refine ⟨new, hw, fun h => by rw [hret h]; rfl, fun r hmem => ?_⟩
    rcases hor with h | h
    · rw [h] at hmem; simp at hmem
    · rw [h] at hmem
      simp only [List.mem_singleton] at hmem
      subst hmem
      exact ⟨f1, by rw [hr]; exact f2, f0, by simp, f3, hr⟩
  have lift01 : ∀ (res : Outcome Unit × JoyCon) (hreq : op.rumble_request = none),
      (∃ new : List (List Nat),
        res.2.joycon_device_.written = d.joycon_device_.written ++ new ∧
        (res.1 = Outcome.returns () → new.length = 1) ∧
        ∀ r ∈ new,
          r[1]? = some d.packet_number_ ∧ rumble_bytes r = res.2.rumble_data_.val ∧
          r[0]? = some 0x01 ∧ r.length = 12 ∧ res.2.rumble_data_ = d.rumble_data_) →
      ∃ new : List (List Nat),
        res.2.joycon_device_.written = d.joycon_device_.written ++ new ∧
        (res.1 = Outcome.returns () → new.length = 1) ∧
        ∀ r ∈ new,
          r[1]? = some d.packet_number_ ∧ rumble_bytes r = res.2.rumble_data_.val ∧
          ((op.rumble_request = none ∧ r[0]? = some 0x01 ∧ r.length = 12 ∧
              res.2.rumble_data_ = d.rumble_data_) ∨
            (∃ pattern, op.rumble_request = some pattern ∧ r[0]? = some 0x10 ∧
              r = [0x10, d.packet_number_] ++ pattern.val ∧ r.length = 10 ∧
              res.2.rumble_data_ = pattern)) := by
    intro res hreq ⟨new, hw, hret, hall⟩
    refine ⟨new, hw, hret, fun r hmem => ?_⟩
    obtain ⟨a, b, c, e, f⟩ := hall r hmem
    exact ⟨a, b, Or.inl ⟨hreq, c, e, f⟩⟩
  have lift10 : ∀ (pattern : StdArray 8) (hreq : op.rumble_request = some pattern)
      (hex : op.exec d = d.send_rumble pattern),
      ∃ new : List (List Nat),
        (op.exec d).2.joycon_device_.written = d.joycon_device_.written ++ new ∧
        ((op.exec d).1 = Outcome.returns () → new.length = 1) ∧
        ∀ r ∈ new,
          r[1]? = some d.packet_number_ ∧ rumble_bytes r = (op.exec d).2.rumble_data_.val ∧
          ((op.rumble_request = none ∧ r[0]? = some 0x01 ∧ r.length = 12 ∧
              (op.exec d).2.rumble_data_ = d.rumble_data_) ∨
            (∃ pattern, op.rumble_request = some pattern ∧ r[0]? = some 0x10 ∧
              r = [0x10, d.packet_number_] ++ pattern.val ∧ r.length = 10 ∧
              (op.exec d).2.rumble_data_ = pattern)) := by
    intro pattern hreq hex
    rw [hex]
    obtain ⟨new, hw, hret, hall⟩ := hrum pattern
    refine ⟨new, hw, hret, fun r hmem => ?_⟩
    obtain ⟨a, b, c, e, f, g⟩ := hall r hmem
    exact ⟨a, b, Or.inr ⟨pattern, hreq, c, e, f, g⟩⟩
  cases op with
  | set_player_lamp_on on_pattern =>
    apply lift01 _ rfl
    simp only [Op.exec, set_player_lamp_on_eq]
    exact hcmd _ rfl
  | set_player_lamp_flashing player_number =>
    apply lift01 _ rfl
    simp only [Op.exec, set_player_lamp_flashing_eq]
    cases binaryPattern player_number with
    | none => exact ⟨[], by simp, fun h => by simp at h, fun r hr => by simp at hr⟩
    | some pattern => exact hcmd _ rfl
  | set_player_lamp player_number =>
    apply lift01 _ rfl
    simp only [Op.exec, set_player_lamp_eq]
    cases binaryPattern player_number with
    | none => exact ⟨[], by simp, fun h => by simp at h, fun r hr => by simp at hr⟩
    | some pattern => exact hcmd _ rfl
  | enable_vibration enable =>
    apply lift01 _ rfl
    simp only [Op.exec, enable_vibration_eq]
    exact hcmd _ rfl
  | rumble_simple => exact lift10 RUMBLE_SIMPLE_DATA rfl rfl
  | rumble_bump => exact lift10 RUMBLE_BUMP_DATA rfl rfl
  | rumble_stop => exact lift10 DEFAULT_RUMBLE_DATA rfl rfl
  | disconnect_device =>
    apply lift01 _ rfl
    simp only [Op.exec, disconnect_device_eq]
    exact hcmd _ rfl
  | send_subcmd_get_response subcommand argument => simp [Op.is_command] at hop
  | spi_flash_read address size => simp [Op.is_command] at hop
  | setup_sensors => simp [Op.is_command] at hop
  | set_gyro_calibration offset_xyz coeff_xyz => simp [Op.is_command] at hop
  | set_accel_calibration offset_xyz coeff_xyz => simp [Op.is_command] at hop
  | register_update_hook callback => simp [Op.is_command] at hop
  | status_offset => simp [Op.is_command] at hop

/-! ## Signed 16-bit values -/

theorem shift8_or (b0 b1 : Nat) (h0 : b0 < 256) : (b1 <<< 8) ||| b0 = 256 * b1 + b0 := by
  have h := Nat.mul_add_lt_is_or (i := 8) (b := b0) (by simpa using h0) b1
  rw [Nat.shiftLeft_eq, Nat.mul_comm b1 (2 ^ 8), ← h]

/-- The value of `to_int16le_from_2bytes` on two bytes, by cases on the sign bit. -/
theorem to_int16le_from_2bytes_eq (b0 b1 : Nat) (h0 : b0 < 256) (h1 : b1 < 256) :
    to_int16le_from_2bytes b0 b1 =
      if b0 + 256 * b1 < 32768 then ((b0 + 256 * b1 : Nat) : Int)
      else ((b0 + 256 * b1 : Nat) : Int) - 65536 := by
  unfold to_int16le_from_2bytes
  simp only [shift8_or b0 b1 h0]
  have hlt : 256 * b1 + b0 < 65536 := by omega
  rw [Nat.mod_eq_of_lt hlt, Nat.add_comm (256 * b1) b0]

/-- C14: for all bytes `b0` and `b1`, `to_int16le_from_2bytes(b0, b1)` is the little-endian
two's-complement signed 16-bit value of the pair in report order: it is `b0 + 256*b1` when
that is below 32768 and `b0 + 256*b1 - 65536` otherwise (so it is congruent to
`b0 + 256*b1` modulo `2^16`), it lies in `[-32768, 32767]`, and distinct byte pairs give
distinct values. -/
theorem to_int16le_from_2bytes_value (b0 b1 : Nat) (h0 : b0 < 256) (h1 : b1 < 256) :
    (b0 + 256 * b1 < 32768 → to_int16le_from_2bytes b0 b1 = (b0 : Int) + 256 * b1) ∧
    (32768 ≤ b0 + 256 * b1 → to_int16le_from_2bytes b0 b1 = (b0 : Int) + 256 * b1 - 65536) ∧
    to_int16le_from_2bytes b0 b1 % 65536 = (b0 : Int) + 256 * b1 ∧
    -32768 ≤ to_int16le_from_2bytes b0 b1 ∧ to_int16le_from_2bytes b0 b1 ≤ 32767 ∧
    (∀ c0 c1 : Nat, c0 < 256 → c1 < 256 →
      to_int16le_from_2bytes b0 b1 = to_int16le_from_2bytes c0 c1 → b0 = c0 ∧ b1 = c1) := by
  have hb := to_int16le_from_2bytes_eq b0 b1 h0 h1
  refine ⟨fun h => ?_, fun h => ?_, ?_, ?_, ?_, fun c0 c1 hc0 hc1 heq => ?_⟩
  · rw [hb, if_pos h]; push_cast; ring
  · rw [hb, if_neg (by omega)]; push_cast; ring
  · rw [hb]; split <;> omega
  · rw [hb]; split <;> omega
  · rw [hb]; split <;> omega
  · rw [hb, to_int16le_from_2bytes_eq c0 c1 hc0 hc1] at heq
    split at heq <;> split at heq <;> omega

/-- Witness of C14: the pairs `(0x34, 0x12)` (value `0x1234`) and `(0xFF, 0xFF)`
(value `-1`). -/
theorem to_int16le_from_2bytes_value_witness :
    to_int16le_from_2bytes 0x34 0x12 = ((0x34 : Nat) : Int) + 256 * (0x12 : Nat) ∧
    to_int16le_from_2bytes 0xFF 0xFF = ((0xFF : Nat) : Int) + 256 * (0xFF : Nat) - 65536 ∧
    to_int16le_from_2bytes 0xFF 0xFF % 65536 = ((0xFF : Nat) : Int) + 256 * (0xFF : Nat) :=
  ⟨(to_int16le_from_2bytes_value 0x34 0x12 (by decide) (by decide)).1 (by decide),
    (to_int16le_from_2bytes_value 0xFF 0xFF (by decide) (by decide)).2.1 (by decide),
    (to_int16le_from_2bytes_value 0xFF 0xFF (by decide) (by decide)).2.2.1⟩

/-- Witness of C20 (amended): `rumble_bump()` on a fresh object. -/
theorem command_report_layout_witness :
    ∃ new : List (List Nat),
      (Op.rumble_bump.exec fresh_device).2.joycon_device_.written
        = fresh_device.joycon_device_.written ++ new ∧
      ((Op.rumble_bump.exec fresh_device).1 = Outcome.returns () → new.length = 1) ∧
      ∀ r ∈ new,
        r[1]? = some fresh_device.packet_number_ ∧
        rumble_bytes r = (Op.rumble_bump.exec fresh_device).2.rumble_data_.val ∧
        ((Op.rumble_bump.rumble_request = none ∧ r[0]? = some 0x01 ∧ r.length = 12 ∧
            (Op.rumble_bump.exec fresh_device).2.rumble_data_ = fresh_device.rumble_data_) ∨
          (∃ pattern, Op.rumble_bump.rumble_request = some pattern ∧ r[0]? = some 0x10 ∧
            r = [0x10, fresh_device.packet_number_] ++ pattern.val ∧ r.length = 10 ∧
            (Op.rumble_bump.exec fresh_device).2.rumble_data_ = pattern)) :=
  command_report_layout fresh_device Op.rumble_bump rfl

/-! ## Analog sticks -/

/-- The extractor on a constant position of a 49-byte array. -/
theorem get_nbit_const (report : StdArray 49) (i : Fin 49) (bit nbit : Nat)
    (h : bit + nbit ≤ 8) :
    get_nbit_from_input_report report i.val bit nbit
      = some (report.get i / 2 ^ bit % 2 ^ nbit) := by
  have h1 : bit < 32 ∧ nbit < 31 := ⟨by omega, by omega⟩
  simp only [get_nbit_from_input_report, get_eq_getElem? report i, h1, and_self, if_true,
    shift_mask_eq_div_mod]

theorem low_or_shift (i x y : Nat) (hx : x < 2 ^ i) : x ||| (y <<< i) = x + 2 ^ i * y := by
  rw [Nat.or_comm, Nat.shiftLeft_eq, Nat.mul_comm y, ← Nat.mul_add_lt_is_or hx y, Nat.add_comm]

theorem get_byte_lt (report : StdArray 49) (hbytes : ∀ b ∈ report.val, b < 256) (i : Fin 49) :
    report.get i < 256 := by
  apply hbytes
  unfold StdArray.get
  exact List.get_mem _ _ _

/-- The two 12-bit values held by three bytes, in arithmetic form. -/
theorem stick_decode (b0 b1 b2 : Nat) (h0 : b0 < 256) (h1 : b1 < 256) (h2 : b2 < 256) :
    (b0 / 2 ^ 0 % 2 ^ 8) ||| ((b1 / 2 ^ 0 % 2 ^ 4) <<< 8) = b0 ||| ((b1 &&& 0xF) <<< 8) ∧
    (b1 / 2 ^ 4 % 2 ^ 4) ||| ((b2 / 2 ^ 0 % 2 ^ 8) <<< 4) = (b1 >>> 4) ||| (b2 <<< 4) ∧
    b0 ||| ((b1 &&& 0xF) <<< 8) = b0 + 256 * (b1 % 16) ∧
    (b1 >>> 4) ||| (b2 <<< 4) = b1 / 16 + 16 * b2 := by
  have e1 : b0 / 2 ^ 0 % 2 ^ 8 = b0 := by norm_num; omega
  have e2 : b1 / 2 ^ 0 % 2 ^ 4 = b1 &&& 0xF := by rw [and_0xF]; norm_num
  have e3 : b1 / 2 ^ 4 % 2 ^ 4 = b1 >>> 4 := by
    rw [Nat.shiftRight_eq_div_pow]; norm_num; omega
  have e4 : b2 / 2 ^ 0 % 2 ^ 8 = b2 := by norm_num; omega
  refine ⟨by rw [e1, e2], by rw [e3, e4], ?_, ?_⟩
  · rw [low_or_shift 8 b0 _ (by norm_num; omega), and_0xF]; norm_num
  · rw [low_or_shift 4 _ _ (by rw [Nat.shiftRight_eq_div_pow]; norm_num; omega),
      Nat.shiftRight_eq_div_pow]
    norm_num

/-- The four stick getters in terms of the three bytes of their stick. -/
theorem stick_getters_eq (report : StdArray 49) :
    get_stick_left_horizontal report =
      (report.get 6 / 2 ^ 0 % 2 ^ 8) ||| ((report.get 7 / 2 ^ 0 % 2 ^ 4) <<< 8) ∧
    get_stick_left_vertical report =
      (report.get 7 / 2 ^ 4 % 2 ^ 4) ||| ((report.get 8 / 2 ^ 0 % 2 ^ 8) <<< 4) ∧
    get_stick_right_horizontal report =
      (report.get 9 / 2 ^ 0 % 2 ^ 8) ||| ((report.get 10 / 2 ^ 0 % 2 ^ 4) <<< 8) ∧
    get_stick_right_vertical report =
      (report.get 10 / 2 ^ 4 % 2 ^ 4) ||| ((report.get 11 / 2 ^ 0 % 2 ^ 8) <<< 4) := by
  have a6 : get_nbit_from_input_report report 6 0 8 = _ := get_nbit_const report 6 0 8 (by decide)
  have a7 : get_nbit_from_input_report report 7 0 4 = _ := get_nbit_const report 7 0 4 (by decide)
  have b7 : get_nbit_from_input_report report 7 4 4 = _ := get_nbit_const report 7 4 4 (by decide)
  have a8 : get_nbit_from_input_report report 8 0 8 = _ := get_nbit_const report 8 0 8 (by decide)
  have a9 : get_nbit_from_input_report report 9 0 8 = _ := get_nbit_const report 9 0 8 (by decide)
  have a10 : get_nbit_from_input_report report 10 0 4 = _ :=
    get_nbit_const report 10 0 4 (by decide)
  have b10 : get_nbit_from_input_report report 10 4 4 = _ :=
    get_nbit_const report 10 4 4 (by decide)
  have a11 : get_nbit_from_input_report report 11 0 8 = _ :=
    get_nbit_const report 11 0 8 (by decide)
  refine ⟨?_, ?_, ?_, ?_⟩
  · rw [get_stick_left_horizontal, a6, a7]; rfl
  · rw [get_stick_left_vertical, b7, a8]; rfl
  · rw [get_stick_right_horizontal, a9, a10]; rfl
  · rw [get_stick_right_vertical, b10, a11]; rfl

theorem pack_stick_decode (h v b0 b1 b2 : Nat) (hh : h ≤ 4095) (hv : v ≤ 4095)
    (hp : [b0, b1, b2] = pack_stick h v) :
    b0 < 256 ∧ b1 < 256 ∧ b2 < 256 ∧ b0 + 256 * (b1 % 16) = h ∧ b1 / 16 + 16 * b2 = v := by
  simp only [pack_stick, List.cons.injEq, and_true] at hp
  obtain ⟨e0, e1, e2⟩ := hp
  have f1 : (h >>> 8) ||| ((v &&& 0xF) <<< 4) = h / 256 + 16 * (v % 16) := by
    rw [low_or_shift 4 _ _ (by rw [Nat.shiftRight_eq_div_pow]; norm_num; omega),
      Nat.shiftRight_eq_div_pow, and_0xF]
    norm_num
  rw [and_0xFF] at e0
  rw [f1] at e1
  rw [Nat.shiftRight_eq_div_pow] at e2
  norm_num at e2
  omega

/-- C17: for each stick (left at bytes 6..8, right at bytes 9..11) and every 49-byte report
(of bytes), horizontal is `report[B] | ((report[B+1] & 0xF) << 8)` and vertical is
`(report[B+1] >> 4) | (report[B+2] << 4)`; both lie in `[0, 4095]`; and for every pair
`(h, v)` in `[0,4095] × [0,4095]` the three bytes
`(h & 0xFF, (h >> 8) | ((v & 0xF) << 4), v >> 4)` placed at `B..B+2` of a report decode
back to exactly `(h, v)`, for both sticks alike. -/
theorem stick_packing (report : StdArray 49) (hbytes : ∀ b ∈ report.val, b < 256)
    (h v : Nat) (hh : h ≤ 4095) (hv : v ≤ 4095) :
    (get_stick_left_horizontal report = report.get 6 ||| ((report.get 7 &&& 0xF) <<< 8) ∧
      get_stick_left_vertical report = (report.get 7 >>> 4) ||| (report.get 8 <<< 4) ∧
      get_stick_right_horizontal report = report.get 9 ||| ((report.get 10 &&& 0xF) <<< 8) ∧
      get_stick_right_vertical report = (report.get 10 >>> 4) ||| (report.get 11 <<< 4)) ∧
    (get_stick_left_horizontal report ≤ 4095 ∧ get_stick_left_vertical report ≤ 4095 ∧
      get_stick_right_horizontal report ≤ 4095 ∧ get_stick_right_vertical report ≤ 4095) ∧
    (∀ r : StdArray 49, [r.get 6, r.get 7, r.get 8] = pack_stick h v →
      get_stick_left_horizontal r = h ∧ get_stick_left_vertical r = v) ∧
    (∀ r : StdArray 49, [r.get 9, r.get 10, r.get 11] = pack_stick h v →
      get_stick_right_horizontal r = h ∧ get_stick_right_vertical r = v) := by
  obtain ⟨g1, g2, g3, g4⟩ := stick_getters_eq report
  have k6 := get_byte_lt report hbytes 6
  have k7 := get_byte_lt report hbytes 7
  have k8 := get_byte_lt report hbytes 8
  have k9 := get_byte_lt report hbytes 9
  have k10 := get_byte_lt report hbytes 10
  have k11 := get_byte_lt report hbytes 11
  obtain ⟨l1, l2, l3, l4⟩ := stick_decode _ _ _ k6 k7 k8
  obtain ⟨r1, r2, r3, r4⟩ := stick_decode _ _ _ k9 k10 k11
  refine ⟨⟨by rw [g1, l1], by rw [g2, l2], by rw [g3, r1], by rw [g4, r2]⟩,
    ⟨by rw [g1, l1, l3]; omega, by rw [g2, l2, l4]; omega, by rw [g3, r1, r3]; omega,
      by rw [g4, r2, r4]; omega⟩, fun r hp => ?_, fun r hp => ?_⟩
  · obtain ⟨q1, q2, _, _⟩ := stick_getters_eq r
    obtain ⟨p0, p1, p2, ph, pv⟩ := pack_stick_decode h v _ _ _ hh hv hp
    obtain ⟨m1, m2, m3, m4⟩ := stick_decode _ _ _ p0 p1 p2
    exact ⟨by rw [q1, m1, m3, ph], by rw [q2, m2, m4, pv]⟩
  · obtain ⟨_, _, q1, q2⟩ := stick_getters_eq r
    obtain ⟨p0, p1, p2, ph, pv⟩ := pack_stick_decode h v _ _ _ hh hv hp
    obtain ⟨m1, m2, m3, m4⟩ := stick_decode _ _ _ p0 p1 p2
    exact ⟨by rw [q1, m1, m3, ph], by rw [q2, m2, m4, pv]⟩

/-- Witness of C17: both sticks centred at raw `(2048, 2048)`. -/
theorem stick_packing_witness :
    (get_stick_left_horizontal (report_with 6 (pack_stick 2048 2048 ++ pack_stick 2048 2048))
        = 2048 ∧
      get_stick_left_vertical (report_with 6 (pack_stick 2048 2048 ++ pack_stick 2048 2048))
        = 2048) ∧
    (get_stick_right_horizontal (report_with 6 (pack_stick 2048 2048 ++ pack_stick 2048 2048))
        = 2048 ∧
      get_stick_right_vertical (report_with 6 (pack_stick 2048 2048 ++ pack_stick 2048 2048))
        = 2048) :=
  ⟨(stick_packing (report_with 6 (pack_stick 2048 2048 ++ pack_stick 2048 2048)) (by decide)
      2048 2048 (by decide) (by decide)).2.2.1 _ (by decide),
    (stick_packing (report_with 6 (pack_stick 2048 2048 ++ pack_stick 2048 2048)) (by decide)
      2048 2048 (by decide) (by decide)).2.2.2 _ (by decide)⟩

end JoyCon

/-! ## Single-precision rounding -/

theorem round_half_even_intCast (z : Int) : round_half_even (z : Rat) = z := by
  simp [round_half_even]

theorem round_half_even_err (q : Rat) : |(round_half_even q : Rat) - q| ≤ 1 / 2 := by
  have h1 := Int.floor_le q
  have h2 := Int.lt_floor_add_one q
  unfold round_half_even
  split
  · rw [abs_le]; constructor <;> linarith
  · split
    · push_cast; rw [abs_le]; constructor <;> linarith
    · have : q - ⌊q⌋ = 1 / 2 := by
        rename_i a b
        exact le_antisymm (not_lt.mp b) (not_lt.mp a)
      split
      · rw [abs_le]; constructor <;> linarith
      · push_cast; rw [abs_le]; constructor <;> linarith

theorem two_zpow_pos (x : Int) : (0 : Rat) < 2 ^ x := zpow_pos (by norm_num) x

/-- The exponent chosen by `F32.round` brackets `|q|`. -/
theorem log2_bracket (q : Rat) (h : q ≠ 0) :
    (2 : Rat) ^ Int.log 2 |q| ≤ |q| ∧ |q| < (2 : Rat) ^ (Int.log 2 |q| + 1) := by
  have hpos : 0 < |q| := abs_pos.mpr h
  have h1 := Int.zpow_log_le_self (b := 2) (by norm_num) hpos
  have h2 := Int.lt_zpow_succ_log_self (b := 2) (by norm_num) |q|
  simp only [Nat.cast_ofNat] at h1 h2
  exact ⟨h1, h2⟩

theorem log2_lt_of_lt (q : Rat) (h : q ≠ 0) (x : Int) (hx : |q| < (2 : Rat) ^ x) :
    Int.log 2 |q| < x := by
  have hpos : 0 < |q| := abs_pos.mpr h
  have := (Int.lt_zpow_iff_log_lt (b := 2) (by norm_num) hpos (x := x)).mp (by simpa using hx)
  exact this

theorem le_log2_of_le (q : Rat) (h : q ≠ 0) (x : Int) (hx : (2 : Rat) ^ x ≤ |q|) :
    x ≤ Int.log 2 |q| := by
  have hpos : 0 < |q| := abs_pos.mpr h
  exact (Int.zpow_le_iff_le_log (b := 2) (by norm_num) hpos (x := x)).mp (by simpa using hx)

/-- A number with at most 24 significant bits, in the exponent range of binary32, is its own
rounding. -/
theorem F32.round_exact (m k : Int) (hm : |m| < 2 ^ 24) (hk : -149 ≤ k)
    (hq : |(m : Rat) * 2 ^ k| < 2 ^ 128) :
    F32.round ((m : Rat) * 2 ^ k) = F32.finite ((m : Rat) * 2 ^ k) := by
  by_cases h0 : (m : Rat) * 2 ^ k = 0
  · simp [F32.round, h0]
  · have hlt : |(m : Rat) * 2 ^ k| < (2 : Rat) ^ (k + 24) := by
      rw [abs_mul, abs_of_pos (two_zpow_pos k), zpow_add₀ (by norm_num), mul_comm]
      apply mul_lt_mul_of_pos_left _ (two_zpow_pos k)
      have : ((|m| : Int) : Rat) < ((2 ^ 24 : Int) : Rat) := by exact_mod_cast hm
      rw [Int.cast_abs] at this
      calc |(m : Rat)| < ((2 ^ 24 : Int) : Rat) := this
        _ = 2 ^ (24 : Int) := by norm_num
    have hlog := log2_lt_of_lt _ h0 _ hlt
    have hle : max (Int.log 2 |(m : Rat) * 2 ^ k|) (-126) ≤ k + 23 := by
      apply max_le <;> omega
    obtain ⟨n, hn⟩ : ∃ n : Nat, k + 23 - max (Int.log 2 |(m : Rat) * 2 ^ k|) (-126) = n :=
      ⟨(k + 23 - max (Int.log 2 |(m : Rat) * 2 ^ k|) (-126)).toNat, by omega⟩
    have hdiv : (m : Rat) * 2 ^ k / 2 ^ (max (Int.log 2 |(m : Rat) * 2 ^ k|) (-126) - 23)
        = ((m * 2 ^ n : Int) : Rat) := by
      rw [div_eq_iff (ne_of_gt (two_zpow_pos _))]
      push_cast
      rw [mul_assoc, ← zpow_natCast, ← zpow_add₀ (by norm_num : (2 : Rat) ≠ 0)]
      congr 2
      omega
    unfold F32.round
    simp only [h0, if_false]
    rw [hdiv, round_half_even_intCast, ← hdiv,
      div_mul_cancel₀ _ (ne_of_gt (two_zpow_pos _))]
    rw [if_neg (not_le.mpr hq)]

theorem F32.round_intCast (i : Int) (h : |i| < 2 ^ 24) : F32.round (i : Rat) = F32.finite i := by
  have := F32.round_exact i 0 h (by norm_num) (by
    rw [zpow_zero, mul_one]
    have : ((|i| : Int) : Rat) < ((2 ^ 24 : Int) : Rat) := by exact_mod_cast h
    rw [Int.cast_abs] at this
    calc |(i : Rat)| < ((2 ^ 24 : Int) : Rat) := this
      _ < 2 ^ 128 := by norm_num)
  simpa using this

/-- In the normal range the rounding is a finite value within relative error `2^-24`. -/
theorem F32.round_near (q : Rat) (hlo : (2 : Rat) ^ (-126 : Int) ≤ |q|)
    (hhi : |q| < (2 : Rat) ^ (127 : Int)) :
    ∃ r, F32.round q = F32.finite r ∧ |r - q| ≤ 2 ^ (-24 : Int) * |q| := by
  have hpos : 0 < |q| := lt_of_lt_of_le (two_zpow_pos _) hlo
  have h0 : q ≠ 0 := abs_pos.mp hpos
  have hge : (-126 : Int) ≤ Int.log 2 |q| := le_log2_of_le q h0 _ hlo
  have hlt : Int.log 2 |q| < 127 := log2_lt_of_lt q h0 _ hhi
  have hmax : max (Int.log 2 |q|) (-126) = Int.log 2 |q| := max_eq_left hge
  have hbr := (log2_bracket q h0).1
  have hulp : (0 : Rat) < 2 ^ (Int.log 2 |q| - 23) := two_zpow_pos _
  have herr := round_half_even_err (q / 2 ^ (Int.log 2 |q| - 23))
  have hdiff : |(round_half_even (q / 2 ^ (Int.log 2 |q| - 23)) : Rat)
      * 2 ^ (Int.log 2 |q| - 23) - q| ≤ 2 ^ (-24 : Int) * |q| := by
    have e1 : (round_half_even (q / 2 ^ (Int.log 2 |q| - 23)) : Rat)
        * 2 ^ (Int.log 2 |q| - 23) - q
        = ((round_half_even (q / 2 ^ (Int.log 2 |q| - 23)) : Rat)
            - q / 2 ^ (Int.log 2 |q| - 23)) * 2 ^ (Int.log 2 |q| - 23) := by
      field_simp
    rw [e1, abs_mul, abs_of_pos hulp]
    have e2 : (2 : Rat) ^ (Int.log 2 |q| - 23) = 2 ^ (-23 : Int) * 2 ^ Int.log 2 |q| := by
      rw [← zpow_add₀ (by norm_num : (2 : Rat) ≠ 0)]
      congr 1
      omega
    calc |(round_half_even (q / 2 ^ (Int.log 2 |q| - 23)) : Rat)
            - q / 2 ^ (Int.log 2 |q| - 23)| * 2 ^ (Int.log 2 |q| - 23)
        ≤ 1 / 2 * 2 ^ (Int.log 2 |q| - 23) := mul_le_mul_of_nonneg_right herr hulp.le
      _ = 2 ^ (-24 : Int) * 2 ^ Int.log 2 |q| := by rw [e2]; norm_num; ring
      _ ≤ 2 ^ (-24 : Int) * |q| := mul_le_mul_of_nonneg_left hbr (two_zpow_pos _).le
  refine ⟨(round_half_even (q / 2 ^ (Int.log 2 |q| - 23)) : Rat) * 2 ^ (Int.log 2 |q| - 23),
    ?_, hdiff⟩
  unfold F32.round
  simp only [h0, if_false, hmax]
  rw [if_neg]
  rw [not_le]
  have habs : |(round_half_even (q / 2 ^ (Int.log 2 |q| - 23)) : Rat)
      * 2 ^ (Int.log 2 |q| - 23)| ≤ |q| + 2 ^ (-24 : Int) * |q| := by
    have := abs_sub_abs_le_abs_sub
      ((round_half_even (q / 2 ^ (Int.log 2 |q| - 23)) : Rat) * 2 ^ (Int.log 2 |q| - 23)) q
    linarith
  have h24 : (2 : Rat) ^ (-24 : Int) ≤ 1 := by norm_num
  have h127 : (2 : Rat) ^ (127 : Int) * 2 = 2 ^ 128 := by norm_num
  nlinarith

/-- The binary32 value of `16384 / 3` is `5461.33349609375`. -/
theorem F32.round_16384_div_3 :
    F32.round (16384 / 3) = F32.finite (11184811 / 2048) := by
  have h0 : (16384 / 3 : Rat) ≠ 0 := by norm_num
  have hlog : Int.log 2 |(16384 / 3 : Rat)| = 12 := by
    apply le_antisymm
    · have := log2_lt_of_lt _ h0 13 (by rw [abs_of_pos (by norm_num)]; norm_num)
      omega
    · exact le_log2_of_le _ h0 12 (by rw [abs_of_pos (by norm_num)]; norm_num)
  have hx : (16384 / 3 : Rat) / 2 ^ ((12 : Int) - 23) = 33554432 / 3 := by norm_num
  have hf : ⌊(33554432 / 3 : Rat)⌋ = 11184810 := by
    rw [Int.floor_eq_iff]; norm_num
  have hr : round_half_even (33554432 / 3) = 11184811 := by
    unfold round_half_even
    rw [hf]
    norm_num
  have hmax : max (12 : Int) (-126) = 12 := by decide
  unfold F32.round
  simp only [h0, if_false, hlog, hmax, hx, hr]
  have hval : ((11184811 : Int) : Rat) * 2 ^ ((12 : Int) - 23) = 11184811 / 2048 := by norm_num
  rw [hval, if_neg]
  rw [abs_of_pos (by norm_num)]
  norm_num

/-! ## The calibration setters -/

namespace JoyCon

/-- A 16-bit integer converts to `float` without rounding. -/
theorem of_int_small (i : Int) (h : |i| < 2 ^ 24) : F32.of_int i = F32.finite i :=
  F32.round_intCast i h

/-- The coefficient expression of the two calibration setters,
`(c != S) ? S / static_cast<float>(c) : 1.0f`, for a positive 15-bit sentinel `S` and a
non-zero 16-bit `c`: a finite value, `1` at the sentinel, within relative error `2^-24`
of the quotient, and the quotient itself when that has at most 24 significant bits. -/
theorem coeff_rounding (S c : Int) (hS : 0 < S ∧ S ≤ 32767)
    (hc : -32768 ≤ c ∧ c ≤ 32767) (hne : c ≠ 0) :
    ∃ r : Rat,
      (if c ≠ S then F32.div (F32.of_int S) (F32.of_int c) else F32.finite 1) = F32.finite r ∧
      (c = S → r = 1) ∧
      |r - (S : Rat) / c| ≤ 2 ^ (-24 : Int) * |(S : Rat) / c| ∧
      (∀ m k : Int, |m| < 2 ^ 24 → -149 ≤ k → (S : Rat) / c = m * 2 ^ k → r = (S : Rat) / c) := by
  have hcq : (c : Rat) ≠ 0 := by exact_mod_cast hne
  have hSq : (0 : Rat) < S := by exact_mod_cast hS.1
  by_cases h : c = S
  · subst h
    refine ⟨1, by simp, fun _ => rfl, ?_, fun _ _ _ _ _ => ?_⟩
    · rw [div_self hcq]; norm_num
    · rw [div_self hcq]
  · have e1 : F32.of_int S = F32.finite S := of_int_small S (by rw [abs_lt]; omega)
    have e2 : F32.of_int c = F32.finite c := of_int_small c (by rw [abs_lt]; omega)
    have hcabs : (0 : Rat) < |(c : Rat)| := abs_pos.mpr hcq
    have hc1 : (1 : Rat) ≤ |(c : Rat)| := by
      have : (1 : Int) ≤ |c| := Int.one_le_abs hne
      have h2 : ((1 : Int) : Rat) ≤ ((|c| : Int) : Rat) := by exact_mod_cast this
      simpa using h2
    have hc2 : |(c : Rat)| ≤ 32768 := by
      have : |c| ≤ 32768 := by rw [abs_le]; omega
      have h2 : ((|c| : Int) : Rat) ≤ ((32768 : Int) : Rat) := by exact_mod_cast this
      simpa using h2
    have hS1 : (1 : Rat) ≤ S := by exact_mod_cast hS.1
    have hS2 : (S : Rat) ≤ 32767 := by exact_mod_cast hS.2
    have habs : |(S : Rat) / c| = (S : Rat) / |(c : Rat)| := by
      rw [abs_div, abs_of_pos hSq]
    have hlo : (2 : Rat) ^ (-126 : Int) ≤ |(S : Rat) / c| := by
      rw [habs, le_div_iff₀ hcabs]
      have : (2 : Rat) ^ (-126 : Int) * 32768 ≤ 1 := by norm_num
      nlinarith [two_zpow_pos (-126)]
    have hhi : |(S : Rat) / c| < (2 : Rat) ^ (127 : Int) := by
      rw [habs, div_lt_iff₀ hcabs]
      have : (32767 : Rat) < 2 ^ (127 : Int) := by norm_num
      nlinarith [two_zpow_pos 127]
    obtain ⟨r, hr, herr⟩ := F32.round_near ((S : Rat) / c) hlo hhi
    have hdiv : F32.div (F32.of_int S) (F32.of_int c) = F32.finite r := by
      rw [e1, e2]
      simp only [F32.div, hcq, if_false]
      exact hr
    refine ⟨r, by rw [if_pos h]; exact hdiv, fun hcS => absurd hcS h, herr, ?_⟩
    intro m k hm hk hq
    have hx := F32.round_exact m k hm hk (by
      rw [← hq]
      calc |(S : Rat) / c| < 2 ^ (127 : Int) := hhi
        _ ≤ 2 ^ 128 := by norm_num)
    rw [← hq, hr] at hx
    exact F32.finite.inj hx

/-! ## The calibration constants -/

/-- C13, counterexample: with raw accelerometer coefficient `c = 3` the stored
coefficient is the `float` nearest to the quotient, `11184811 / 2048 = 5461.33349609375`,
not the exact quotient `0x4000 / 3`. -/
theorem set_accel_calibration_rounds_the_quotient :
    (fresh_device.set_accel_calibration ⟨0, 0, 0⟩ ⟨3, 3, 3⟩).ACCEL_COEFF_X_
        = F32.finite (11184811 / 2048) ∧
      (fresh_device.set_accel_calibration ⟨0, 0, 0⟩ ⟨3, 3, 3⟩).ACCEL_COEFF_X_
        ≠ F32.finite (0x4000 / 3) := by
  have e1 : F32.of_int 0x4000 = F32.finite 16384 := by
    simpa using of_int_small 16384 (by decide)
  have e2 : F32.of_int 3 = F32.finite 3 := by
    simpa using of_int_small 3 (by decide)
  have hv : (fresh_device.set_accel_calibration ⟨0, 0, 0⟩ ⟨3, 3, 3⟩).ACCEL_COEFF_X_
      = F32.finite (11184811 / 2048) := by
    simp only [set_accel_calibration]
    rw [if_pos (by decide), e1, e2]
    simp only [F32.div]
    rw [if_neg (by norm_num)]
    exact F32.round_16384_div_3
  refine ⟨hv, ?_⟩
  rw [hv]
  intro h
  have := F32.finite.inj h
  norm_num at this

/-- C13 (amended): for every non-zero raw 16-bit coefficient `c` and each axis `j`, the
two setters store the offset unchanged and store a finite single-precision coefficient
`r`: `1` at the sentinel (`0x4000` for the accelerometer, `0x343B` for the gyroscope),
otherwise the quotient `sentinel / c` rounded to single precision, which is within
relative error `2^-24` of the quotient and equal to it whenever the quotient has at most
24 significant bits; in particular accelerometer raw value `0x2000` gives `2.0`. -/
theorem calibration_coefficients (d : JoyCon) (offset_xyz coeff_xyz : Int16x3) (j : Nat)
    (hj : j < 3) (hc : -32768 ≤ coeff_xyz.get j ∧ coeff_xyz.get j ≤ 32767)
    (hne : coeff_xyz.get j ≠ 0) :
    axis_offset (d.set_accel_calibration offset_xyz coeff_xyz) j = offset_xyz.get j ∧
    axis_offset (d.set_gyro_calibration offset_xyz coeff_xyz) (j + 3) = offset_xyz.get j ∧
    (∃ r : Rat,
      axis_coeff (d.set_accel_calibration offset_xyz coeff_xyz) j = F32.finite r ∧
      (coeff_xyz.get j = 0x4000 → r = 1) ∧
      (coeff_xyz.get j = 0x2000 → r = 2) ∧
      |r - (0x4000 : Int) / coeff_xyz.get j|
        ≤ 2 ^ (-24 : Int) * |((0x4000 : Int) : Rat) / coeff_xyz.get j| ∧
      (∀ m k : Int, |m| < 2 ^ 24 → -149 ≤ k →
        ((0x4000 : Int) : Rat) / coeff_xyz.get j = m * 2 ^ k →
        r = (0x4000 : Int) / coeff_xyz.get j)) ∧
    (∃ r : Rat,
      axis_coeff (d.set_gyro_calibration offset_xyz coeff_xyz) (j + 3) = F32.finite r ∧
      (coeff_xyz.get j = 0x343B → r = 1) ∧
      |r - (0x343B : Int) / coeff_xyz.get j|
        ≤ 2 ^ (-24 : Int) * |((0x343B : Int) : Rat) / coeff_xyz.get j| ∧
      (∀ m k : Int, |m| < 2 ^ 24 → -149 ≤ k →
        ((0x343B : Int) : Rat) / coeff_xyz.get j = m * 2 ^ k →
        r = (0x343B : Int) / coeff_xyz.get j)) := by
  obtain ⟨ra, ha, ha1, haerr, haex⟩ :=
    coeff_rounding 0x4000 (coeff_xyz.get j) (by decide) hc hne
  obtain ⟨rg, hg, hg1, hgerr, hgex⟩ :=
    coeff_rounding 0x343B (coeff_xyz.get j) (by decide) hc hne
  have h2 : coeff_xyz.get j = 0x2000 → ra = 2 := by
    intro h
    have := haex 2 0 (by decide) (by decide) (by rw [h]; norm_num)
    rw [this, h]
    norm_num
  have hcases : j = 0 ∨ j = 1 ∨ j = 2 := by omega
  rcases hcases with rfl | rfl | rfl
  · exact ⟨rfl, rfl, ⟨ra, ha, ha1, h2, haerr, haex⟩, ⟨rg, hg, hg1, hgerr, hgex⟩⟩
  · exact ⟨rfl, rfl, ⟨ra, ha, ha1, h2, haerr, haex⟩, ⟨rg, hg, hg1, hgerr, hgex⟩⟩
  · exact ⟨rfl, rfl, ⟨ra, ha, ha1, h2, haerr, haex⟩, ⟨rg, hg, hg1, hgerr, hgex⟩⟩

/-- Witness of C13 (amended): raw accelerometer coefficient `0x2000` on the x axis is
stored as `2.0`, with the offset `1` unchanged. -/
theorem calibration_coefficients_witness :
    axis_offset (fresh_device.set_accel_calibration ⟨1, 2, 3⟩ ⟨0x2000, 0x4000, 3⟩) 0 = 1 ∧
      axis_coeff (fresh_device.set_accel_calibration ⟨1, 2, 3⟩ ⟨0x2000, 0x4000, 3⟩) 0
        = F32.finite 2 := by
  obtain ⟨h1, _, ⟨r, hr, _, h2, _⟩, _⟩ :=
    calibration_coefficients fresh_device ⟨1, 2, 3⟩ ⟨0x2000, 0x4000, 3⟩ 0 (by decide)
      (by decide) (by decide)
  exact ⟨h1, by rw [hr, h2 rfl]⟩

/-! ## The sensor getters -/

/-- The value of `to_int16le_from_2bytes` is in the range of `int16_t`. -/
theorem to_int16le_from_2bytes_range (a b : Nat) :
    -32768 ≤ to_int16le_from_2bytes a b ∧ to_int16le_from_2bytes a b ≤ 32767 := by
  unfold to_int16le_from_2bytes
  simp only []
  split <;> omega

/-- An element read of a 49-byte report at an index below 49 is a byte of the report. -/
theorem report_getD (report : StdArray 49) (n : Nat) (h : n < 49) :
    report.val[n]? = some (report.val.getD n 0) := by
  have hl : n < report.val.length := by rw [report.property]; exact h
  simp [List.getD, List.getElem?_eq_getElem hl]

/-- The difference of two 16-bit values converts to `float` without rounding. -/
theorem of_int_difference (raw offset : Int) (hr : -32768 ≤ raw ∧ raw ≤ 32767)
    (ho : -32768 ≤ offset ∧ offset ≤ 32767) :
    F32.of_int (raw - offset) = F32.finite ((raw - offset : Int) : Rat) :=
  of_int_small _ (by rw [abs_lt]; constructor <;> norm_num <;> omega)

/-- C16: for every 49-byte report, every sample index `i` in `{0,1,2}` and every axis slot
`k` in `0..5` (accelerometer x, y, z, then gyroscope x, y, z), the getter returns
`(raw - offset) * coeff`, the `float` product of the integer `raw - offset` and the
stored coefficient, with `raw = to_int16le_from_2bytes(report[13 + 12*i + 2*k],
report[14 + 12*i + 2*k])`. The subtraction is exact integer arithmetic (the difference
lies in `[-65535, 65535]`, so nothing wraps and the conversion to `float` is exact), every
index read is at most 48, and the byte ranges of different samples are disjoint. -/
theorem sensor_getter_value (d : JoyCon) (report : StdArray 49) (i k : Nat)
    (hi : i ≤ 2) (hk : k ≤ 5)
    (hoff : -32768 ≤ axis_offset d k ∧ axis_offset d k ≤ 32767) :
    axis_getter d k report i
      = Outcome.returns (F32.mul
          (F32.finite ((to_int16le_from_2bytes (report.val.getD (13 + 12 * i + 2 * k) 0)
            (report.val.getD (14 + 12 * i + 2 * k) 0) - axis_offset d k : Int) : Rat))
          (axis_coeff d k)) ∧
    (∀ c : Rat, axis_coeff d k = F32.finite c →
      axis_getter d k report i
        = Outcome.returns (F32.round
            (((to_int16le_from_2bytes (report.val.getD (13 + 12 * i + 2 * k) 0)
              (report.val.getD (14 + 12 * i + 2 * k) 0) - axis_offset d k : Int) : Rat) * c))) ∧
    (-65535 ≤ to_int16le_from_2bytes (report.val.getD (13 + 12 * i + 2 * k) 0)
        (report.val.getD (14 + 12 * i + 2 * k) 0) - axis_offset d k ∧
      to_int16le_from_2bytes (report.val.getD (13 + 12 * i + 2 * k) 0)
        (report.val.getD (14 + 12 * i + 2 * k) 0) - axis_offset d k ≤ 65535) ∧
    14 + 12 * i + 2 * k ≤ 48 ∧
    report.val[13 + 12 * i + 2 * k]? = some (report.val.getD (13 + 12 * i + 2 * k) 0) ∧
    report.val[14 + 12 * i + 2 * k]? = some (report.val.getD (14 + 12 * i + 2 * k) 0) ∧
    (∀ i2 k2 a b : Nat, i2 ≤ 2 → k2 ≤ 5 → a ≤ 1 → b ≤ 1 → i2 ≠ i →
      13 + 12 * i + 2 * k + a ≠ 13 + 12 * i2 + 2 * k2 + b) := by
  have hrange := to_int16le_from_2bytes_range (report.val.getD (13 + 12 * i + 2 * k) 0)
    (report.val.getD (14 + 12 * i + 2 * k) 0)
  have hconv := of_int_difference _ _ hrange hoff
  have hidx : ¬ ((i : Int) < 0 ∨ (i : Int) > 2) := by omega
  have hget : axis_getter d k report i
      = Outcome.returns (F32.mul
          (F32.finite ((to_int16le_from_2bytes (report.val.getD (13 + 12 * i + 2 * k) 0)
            (report.val.getD (14 + 12 * i + 2 * k) 0) - axis_offset d k : Int) : Rat))
          (axis_coeff d k)) := by
    rw [← hconv]
    have hk6 : k = 0 ∨ k = 1 ∨ k = 2 ∨ k = 3 ∨ k = 4 ∨ k = 5 := by omega
    rcases hk6 with rfl | rfl | rfl | rfl | rfl | rfl
    · simp only [axis_getter, get_accel_x, hidx, if_false, axis_offset, axis_coeff]
      have e1 : (13 + (i : Int) * 12).toNat = 13 + 12 * i + 2 * 0 := by omega
      have e2 : (14 + (i : Int) * 12).toNat = 14 + 12 * i + 2 * 0 := by omega
      rw [e1, e2]
    · simp only [axis_getter, get_accel_y, hidx, if_false, axis_offset, axis_coeff]
      have e1 : (15 + (i : Int) * 12).toNat = 13 + 12 * i + 2 * 1 := by omega
      have e2 : (16 + (i : Int) * 12).toNat = 14 + 12 * i + 2 * 1 := by omega
      rw [e1, e2]
    · simp only [axis_getter, get_accel_z, hidx, if_false, axis_offset, axis_coeff]
      have e1 : (17 + (i : Int) * 12).toNat = 13 + 12 * i + 2 * 2 := by omega
      have e2 : (18 + (i : Int) * 12).toNat = 14 + 12 * i + 2 * 2 := by omega
      rw [e1, e2]
    · simp only [axis_getter, get_gyro_x, hidx, if_false, axis_offset, axis_coeff]
      have e1 : (19 + (i : Int) * 12).toNat = 13 + 12 * i + 2 * 3 := by omega
      have e2 : (20 + (i : Int) * 12).toNat = 14 + 12 * i + 2 * 3 := by omega
      rw [e1, e2]
    · simp only [axis_getter, get_gyro_y, hidx, if_false, axis_offset, axis_coeff]
      have e1 : (21 + (i : Int) * 12).toNat = 13 + 12 * i + 2 * 4 := by omega
      have e2 : (22 + (i : Int) * 12).toNat = 14 + 12 * i + 2 * 4 := by omega
      rw [e1, e2]
    · simp only [axis_getter, get_gyro_z, hidx, if_false, axis_offset, axis_coeff]
      have e1 : (23 + (i : Int) * 12).toNat = 13 + 12 * i + 2 * 5 := by omega
      have e2 : (24 + (i : Int) * 12).toNat = 14 + 12 * i + 2 * 5 := by omega
      rw [e1, e2]
  refine ⟨hget, fun c hc => ?_, ⟨by omega, by omega⟩, by omega,
    report_getD report _ (by omega), report_getD report _ (by omega), ?_⟩
  · rw [hget, hc]
    rfl
  · intro i2 k2 a b hi2 hk2 ha hb hne
    omega

/-- Witness of C16: the gyroscope x axis (slot 3) of sample 1, bytes 31 and 32, holding
`0x1234`. -/
theorem sensor_getter_value_witness :
    axis_getter fresh_device 3 (report_with 31 [0x34, 0x12]) ((1 : Nat) : Int)
      = Outcome.returns (F32.mul
          (F32.finite ((to_int16le_from_2bytes
            ((report_with 31 [0x34, 0x12]).val.getD (13 + 12 * 1 + 2 * 3) 0)
            ((report_with 31 [0x34, 0x12]).val.getD (14 + 12 * 1 + 2 * 3) 0)
              - axis_offset fresh_device 3 : Int) : Rat))
          (axis_coeff fresh_device 3)) ∧
      to_int16le_from_2bytes
        ((report_with 31 [0x34, 0x12]).val.getD (13 + 12 * 1 + 2 * 3) 0)
        ((report_with 31 [0x34, 0x12]).val.getD (14 + 12 * 1 + 2 * 3) 0) = 0x1234 ∧
      14 + 12 * 1 + 2 * 3 ≤ 48 :=
  ⟨(sensor_getter_value fresh_device (report_with 31 [0x34, 0x12]) 1 3 (by decide) (by decide)
      (by decide)).1,
    by decide,
    (sensor_getter_value fresh_device (report_with 31 [0x34, 0x12]) 1 3 (by decide) (by decide)
      (by decide)).2.2.2.1⟩

/-! ## Reading the calibration from flash -/

/-- A vector returned by `spi_flash_read(address, size)` has `size` elements. -/
theorem spi_flash_read_length (d d1 : JoyCon) (address size : Nat) (payload : List Nat)
    (h : d.spi_flash_read address size = (Outcome.returns payload, d1)) :
    payload.length = size := by
  obtain ⟨hs, _, skipped, R, _, _, _, _, _, _, _, _, hp⟩ :=
    spi_flash_read_returns d d1 address size payload h
  rw [hp, List.length_take, List.length_drop, (StdArray.filled 49 R).property]
  omega

theorem list_getD (l : List Nat) (n : Nat) (h : n < l.length) : l[n]? = some (l.getD n 0) := by
  simp [List.getD, List.getElem?_eq_getElem h]

/-- C15: when its three flash reads return, `read_joycon_data` returns, and it turns the
24 calibration bytes `b` into the twelve 16-bit values
`v_k = to_int16le_from_2bytes(b[2k], b[2k+1])`, all of them bytes of `b`: it calls
`set_accel_calibration` with offsets `v0..v2` and raw coefficients `v3..v5`, then
`set_gyro_calibration` with offsets `v6..v8` and raw coefficients `v9..v11`, so that the
stored offsets of the axes x, y, z are `v0..v2` (accelerometer) and `v6..v8` (gyroscope). -/
theorem read_joycon_data_layout (d da db dc : JoyCon) (color_data marker b : List Nat)
    (h1 : d.spi_flash_read 0x6050 6 = (Outcome.returns color_data, da))
    (h2 : da.spi_flash_read 0x8026 2 = (Outcome.returns marker, db))
    (h3 : db.spi_flash_read (if marker = [0xB2, 0xA1] then 0x8028 else 0x6020) 24
      = (Outcome.returns b, dc)) :
    b.length = 24 ∧
    (∀ n, n < 24 → b[n]? = some (b.getD n 0)) ∧
    (d.read_joycon_data).1 = Outcome.returns () ∧
    (d.read_joycon_data).2 =
      (({ dc with
          color_body_ := ⟨[color_data.getD 0 0, color_data.getD 1 0, color_data.getD 2 0], rfl⟩
          color_btn_ := ⟨[color_data.getD 3 0, color_data.getD 4 0, color_data.getD 5 0], rfl⟩
          } : JoyCon).set_accel_calibration
          ⟨calibration_value b 0, calibration_value b 1, calibration_value b 2⟩
          ⟨calibration_value b 3, calibration_value b 4, calibration_value b 5⟩).set_gyro_calibration
        ⟨calibration_value b 6, calibration_value b 7, calibration_value b 8⟩
        ⟨calibration_value b 9, calibration_value b 10, calibration_value b 11⟩ ∧
    (∀ j, j < 3 →
      axis_offset (d.read_joycon_data).2 j = calibration_value b j ∧
      axis_offset (d.read_joycon_data).2 (j + 3) = calibration_value b (j + 6) ∧
      axis_coeff (d.read_joycon_data).2 j =
        (if calibration_value b (j + 3) ≠ 0x4000 then
          F32.div (F32.of_int 0x4000) (F32.of_int (calibration_value b (j + 3)))
        else F32.finite 1) ∧
      axis_coeff (d.read_joycon_data).2 (j + 3) =
        (if calibration_value b (j + 9) ≠ 0x343b then
          F32.div (F32.of_int 0x343b) (F32.of_int (calibration_value b (j + 9)))
        else F32.finite 1)) := by
  have hlen : b.length = 24 := spi_flash_read_length _ _ _ _ _ h3
  have h3a : (if marker = [0xB2, 0xA1] then db.spi_flash_read 0x8028 24
      else db.spi_flash_read 0x6020 24) = (Outcome.returns b, dc) := by
    rw [← h3]
    split <;> rfl
  have hrun : d.read_joycon_data = (Outcome.returns (),
      (({ dc with
          color_body_ := ⟨[color_data.getD 0 0, color_data.getD 1 0, color_data.getD 2 0], rfl⟩
          color_btn_ := ⟨[color_data.getD 3 0, color_data.getD 4 0, color_data.getD 5 0], rfl⟩
          } : JoyCon).set_accel_calibration
          ⟨calibration_value b 0, calibration_value b 1, calibration_value b 2⟩
          ⟨calibration_value b 3, calibration_value b 4, calibration_value b 5⟩).set_gyro_calibration
        ⟨calibration_value b 6, calibration_value b 7, calibration_value b 8⟩
        ⟨calibration_value b 9, calibration_value b 10, calibration_value b 11⟩) := by
    unfold read_joycon_data
    rw [h1]
    simp only []
    rw [h2]
    simp only []
    rw [h3a]
    rfl
  refine ⟨hlen, fun n hn => list_getD b n (by omega), by rw [hrun], by rw [hrun], ?_⟩
  intro j hj
  rw [hrun]
  have hcases : j = 0 ∨ j = 1 ∨ j = 2 := by omega
  rcases hcases with rfl | rfl | rfl <;> exact ⟨rfl, rfl, rfl, rfl⟩

/-- Witness of C15: the calibration bytes `calibration_bytes` read from the user area. -/
theorem read_joycon_data_layout_witness :
    (calibration_device.read_joycon_data).1 = Outcome.returns () ∧
      axis_offset (calibration_device.read_joycon_data).2 2
        = calibration_value calibration_bytes 2 ∧
      axis_offset (calibration_device.read_joycon_data).2 4
        = calibration_value calibration_bytes 7 := by
  have h := read_joycon_data_layout calibration_device
    (calibration_device.spi_flash_read 0x6050 6).2
    ((calibration_device.spi_flash_read 0x6050 6).2.spi_flash_read 0x8026 2).2
    (((calibration_device.spi_flash_read 0x6050 6).2.spi_flash_read 0x8026 2).2.spi_flash_read
      0x8028 24).2
    [0x82, 0x82, 0x82, 0x0F, 0x0F, 0x0F] [0xB2, 0xA1] calibration_bytes
    (Prod.ext (by decide) rfl) (Prod.ext (by decide) rfl) (Prod.ext (by decide) rfl)
  exact ⟨h.2.2.1, (h.2.2.2.2 2 (by decide)).1, (h.2.2.2.2 1 (by decide)).2.1⟩

/-! ## The baseline -/

/-- C18: for every 49-byte snapshot, `status_offset()` on that snapshot returns, leaves the
snapshot in place and stores the four raw stick values as the baseline, and `get_status()`
on the same snapshot then returns a status whose four stick values (left and right,
horizontal and vertical) are 0. -/
theorem status_offset_zeroes_the_sticks (d : JoyCon) (snapshot : StdArray 49) :
    (status_offset { d with input_report_ := snapshot }).1 = Outcome.returns () ∧
    (status_offset { d with input_report_ := snapshot }).2.input_report_ = snapshot ∧
    (status_offset { d with input_report_ := snapshot }).2.status_offset_.stick_left_horizontal
      = get_stick_left_horizontal snapshot ∧
    (status_offset { d with input_report_ := snapshot }).2.status_offset_.stick_left_vertical
      = get_stick_left_vertical snapshot ∧
    (status_offset { d with input_report_ := snapshot }).2.status_offset_.stick_right_horizontal
      = get_stick_right_horizontal snapshot ∧
    (status_offset { d with input_report_ := snapshot }).2.status_offset_.stick_right_vertical
      = get_stick_right_vertical snapshot ∧
    ∃ s : Status,
      get_status (status_offset { d with input_report_ := snapshot }).2 = Outcome.returns s ∧
      s.analog_sticks.left.horizontal = 0 ∧ s.analog_sticks.left.vertical = 0 ∧
      s.analog_sticks.right.horizontal = 0 ∧ s.analog_sticks.right.vertical = 0 := by
  have h0 : ¬ ((0 : Int) < 0 ∨ (0 : Int) > 2) := by decide
  refine ⟨?_, ?_, ?_, ?_, ?_, ?_, ?_⟩
  · simp only [status_offset, get_gyro_x, get_gyro_y, get_gyro_z, h0, if_false]
  · simp only [status_offset, get_gyro_x, get_gyro_y, get_gyro_z, h0, if_false]
  · simp only [status_offset, get_gyro_x, get_gyro_y, get_gyro_z, h0, if_false]
  · simp only [status_offset, get_gyro_x, get_gyro_y, get_gyro_z, h0, if_false]
  · simp only [status_offset, get_gyro_x, get_gyro_y, get_gyro_z, h0, if_false]
  · simp only [status_offset, get_gyro_x, get_gyro_y, get_gyro_z, h0, if_false]
  · simp only [status_offset, get_status, get_gyro_x, get_gyro_y, get_gyro_z, get_accel_x,
      get_accel_y, get_accel_z, h0, if_false, Outcome.bind]
    exact ⟨_, rfl, sub_self _, sub_self _, sub_self _, sub_self _⟩

/-- Witness of C18: both sticks centred at raw `(2048, 2048)`. -/
theorem status_offset_zeroes_the_sticks_witness :
    (status_offset
        { fresh_device with input_report_ := centred_report }).2.status_offset_.stick_left_horizontal
      = 2048 ∧
    ∃ s : Status,
      get_status (status_offset { fresh_device with input_report_ := centred_report }).2
        = Outcome.returns s ∧
      s.analog_sticks.left.horizontal = 0 ∧ s.analog_sticks.left.vertical = 0 ∧
      s.analog_sticks.right.horizontal = 0 ∧ s.analog_sticks.right.vertical = 0 := by
  obtain ⟨_, _, h, _, _, _, hs⟩ := status_offset_zeroes_the_sticks fresh_device centred_report
  refine ⟨?_, hs⟩
  rw [h]
  decide

/-! ## The publisher loop -/

/-- The source shape of the wait: when the report at hand is not a `0x30` report the loop
reads the next one with `read_input_report` and goes on with it. -/
theorem state_loop_step (d : JoyCon) (report : StdArray 49) (h : report.get 0 ≠ 0x30) :
    state_loop report d.joycon_device_.incoming =
      match read_input_report d with
      | (Outcome.returns next, d1) => state_loop next d1.joycon_device_.incoming
      | (Outcome.throws e, d1) => (Outcome.throws e, d1.joycon_device_.incoming)
      | (Outcome.blocks, d1) => (Outcome.blocks, d1.joycon_device_.incoming) := by
  rw [read_input_report_eq]
  rcases hin : d.joycon_device_.incoming with _ | ⟨x, rest⟩
  · rw [state_loop]; simp [h, hin]
  · cases x with
    | failure => rw [state_loop]; simp [h]
    | report bytes =>
      rw [state_loop]
      simp [h, filled_take]

theorem full_state_reports_append (a b : List HidInput) :
    full_state_reports (a ++ b) = full_state_reports a ++ full_state_reports b := by
  simp [full_state_reports, List.filterMap_append]

theorem full_state_reports_skip (bytes : List Nat) (rest : List HidInput)
    (h : (StdArray.filled 49 bytes).get 0 ≠ 0x30) :
    full_state_reports (HidInput.report bytes :: rest) = full_state_reports rest := by
  simp [full_state_reports, List.filterMap_cons, h]

theorem full_state_reports_keep (bytes : List Nat) (rest : List HidInput)
    (h : (StdArray.filled 49 bytes).get 0 = 0x30) :
    full_state_reports (HidInput.report bytes :: rest)
      = StdArray.filled 49 bytes :: full_state_reports rest := by
  simp [full_state_reports, List.filterMap_cons, h]

theorem full_state_reports_failure (rest : List HidInput) :
    full_state_reports (HidInput.failure :: rest) = full_state_reports rest := by
  simp [full_state_reports, List.filterMap_cons]

/-- What the wait consumes when the report at hand is not a `0x30` report: reports with
other ids, and then either the `0x30` report it returns, or the failed read, or all
there is. -/
theorem state_loop_consumes (pending : List HidInput) (report : StdArray 49)
    (h : report.get 0 ≠ 0x30) :
    ∃ consumed, pending = consumed ++ (state_loop report pending).2 ∧
      (∀ r, (state_loop report pending).1 = Outcome.returns r →
        full_state_reports consumed = [r] ∧ r.get 0 = 0x30 ∧
        ∃ bytes, consumed.getLast? = some (HidInput.report bytes) ∧
          r = StdArray.filled 49 bytes) ∧
      ((∀ r, (state_loop report pending).1 ≠ Outcome.returns r) →
        full_state_reports consumed = []) := by
  induction pending generalizing report with
  | nil =>
    rw [state_loop]
    simp only [h, ne_eq, not_false_eq_true, if_true]
    exact ⟨[], rfl, fun r hr => by simp at hr, fun _ => rfl⟩
  | cons x rest ih =>
    cases x with
    | failure =>
      rw [state_loop]
      simp only [h, ne_eq, not_false_eq_true, if_true]
      exact ⟨[HidInput.failure], rfl, fun r hr => by simp at hr,
        fun _ => full_state_reports_failure []⟩
    | report bytes =>
      rw [state_loop]
      simp only [h, ne_eq, not_false_eq_true, if_true, filled_take]
      by_cases hb : (StdArray.filled 49 bytes).get 0 = 0x30
      · have hdone : state_loop (StdArray.filled 49 bytes) rest
            = (Outcome.returns (StdArray.filled 49 bytes), rest) := by
          unfold state_loop
          simp [hb]
        rw [hdone]
        refine ⟨[HidInput.report bytes], rfl, fun r hr => ?_, fun hne => ?_⟩
        · have hr1 : StdArray.filled 49 bytes = r := by simpa using hr
          subst hr1
          exact ⟨full_state_reports_keep bytes [] hb, hb, bytes, rfl, rfl⟩
        · exact absurd rfl (hne (StdArray.filled 49 bytes))
      · obtain ⟨consumed, hc, hret, hno⟩ := ih (StdArray.filled 49 bytes) hb
        refine ⟨HidInput.report bytes :: consumed, by rw [List.cons_append, ← hc],
          fun r hr => ?_, fun hne => ?_⟩
        · obtain ⟨h1, h2, b2, h3, h4⟩ := hret r hr
          refine ⟨by rw [full_state_reports_skip bytes consumed hb, h1], h2, b2, ?_, h4⟩
          cases consumed with
          | nil => simp at h3
          | cons y ys => rw [List.getLast?_cons_cons]; exact h3
        · rw [full_state_reports_skip bytes consumed hb]
          exact hno hne

theorem full_state_reports_id (inputs : List HidInput) :
    ∀ r ∈ full_state_reports inputs, r.get 0 = 0x30 := by
  induction inputs with
  | nil => intro r hr; simp [full_state_reports] at hr
  | cons x rest ih =>
    intro r hr
    cases x with
    | failure =>
      rw [full_state_reports_failure] at hr
      exact ih r hr
    | report bytes =>
      by_cases hb : (StdArray.filled 49 bytes).get 0 = 0x30
      · rw [full_state_reports_keep bytes rest hb] at hr
        rcases List.mem_cons.mp hr with h | h
        · rw [h]; exact hb
        · exact ih r h
      · rw [full_state_reports_skip bytes rest hb] at hr
        exact ih r hr

theorem stored_reports_called (hooks : List Nat) :
    stored_reports (hooks.map PublisherEvent.called) = [] := by
  induction hooks with
  | nil => rfl
  | cons x rest ih =>
    simp only [stored_reports, List.map_cons, List.filterMap_cons] at ih ⊢
    exact ih

theorem stored_reports_iteration (report : StdArray 49) (hooks : List Nat) :
    stored_reports (PublisherEvent.stored report :: hooks.map PublisherEvent.called)
      = [report] := by
  have h := stored_reports_called hooks
  simp only [stored_reports, List.filterMap_cons] at h ⊢
  rw [h]

theorem stored_reports_append (a b : List PublisherEvent) :
    stored_reports (a ++ b) = stored_reports a ++ stored_reports b := by
  simp [stored_reports, List.filterMap_append]

/-- One iteration of the publisher loop: it consumes a prefix of the inputs; when it
completes, the prefix ends with a `0x30` report, which is the only `0x30` report of the
prefix and the value stored; otherwise nothing is stored. -/
theorem update_input_report_iteration_spec (d : JoyCon) :
    ∃ consumed, d.joycon_device_.incoming
        = consumed ++ (update_input_report_iteration d).2.1.joycon_device_.incoming ∧
      stored_reports (update_input_report_iteration d).2.2 = full_state_reports consumed ∧
      (update_input_report_iteration d).2.1.input_hooks_ = d.input_hooks_ ∧
      ((update_input_report_iteration d).1 = Outcome.returns () →
        ∃ bytes, consumed.getLast? = some (HidInput.report bytes) ∧
          (StdArray.filled 49 bytes).get 0 = 0x30 ∧
          (update_input_report_iteration d).2.1.input_report_ = StdArray.filled 49 bytes ∧
          (update_input_report_iteration d).2.2
            = PublisherEvent.stored (StdArray.filled 49 bytes)
              :: d.input_hooks_.map PublisherEvent.called) ∧
      ((update_input_report_iteration d).1 ≠ Outcome.returns () →
        (update_input_report_iteration d).2.2 = [] ∧
        (update_input_report_iteration d).2.1.input_report_ = d.input_report_) := by
  unfold update_input_report_iteration
  rw [read_input_report_eq]
  rcases hin : d.joycon_device_.incoming with _ | ⟨x, rest⟩
  · exact ⟨[], by simp [hin], rfl, rfl, fun h => by simp at h, fun _ => ⟨rfl, rfl⟩⟩
  · cases x with
    | failure =>
      exact ⟨[HidInput.failure], by simp, (full_state_reports_failure []).symm, rfl,
        fun h => by simp at h, fun _ => ⟨rfl, rfl⟩⟩
    | report bytes =>
      simp only []
      by_cases hb : (StdArray.filled 49 bytes).get 0 = 0x30
      · have hdone : state_loop (StdArray.filled 49 bytes) rest
            = (Outcome.returns (StdArray.filled 49 bytes), rest) := by
          unfold state_loop
          simp [hb]
        rw [hdone]
        refine ⟨[HidInput.report bytes], by simp, ?_, rfl, fun _ => ⟨bytes, rfl, hb, rfl, rfl⟩,
          fun h => absurd rfl h⟩
        simp only []
        rw [stored_reports_iteration, full_state_reports_keep bytes [] hb]
        rfl
      · obtain ⟨consumed, hc, hret, hno⟩ := state_loop_consumes rest (StdArray.filled 49 bytes) hb
        rcases hsl : state_loop (StdArray.filled 49 bytes) rest with ⟨o, rest2⟩
        rw [hsl] at hc hret hno
        cases o with
        | throws e =>
          refine ⟨HidInput.report bytes :: consumed, by simp [hc], ?_, rfl,
            fun h => by simp at h, fun _ => ⟨rfl, rfl⟩⟩
          rw [full_state_reports_skip bytes consumed hb, hno (fun r => by simp)]
          rfl
        | blocks =>
          refine ⟨HidInput.report bytes :: consumed, by simp [hc], ?_, rfl,
            fun h => by simp at h, fun _ => ⟨rfl, rfl⟩⟩
          rw [full_state_reports_skip bytes consumed hb, hno (fun r => by simp)]
          rfl
        | returns r =>
          obtain ⟨h1, h2, b2, h3, h4⟩ := hret r rfl
          refine ⟨HidInput.report bytes :: consumed, by simp [hc], ?_, rfl,
            fun _ => ⟨b2, ?_, by rw [← h4]; exact h2, h4, by rw [← h4]⟩, fun h => absurd rfl h⟩
          · simp only []
            rw [stored_reports_iteration, full_state_reports_skip bytes consumed hb, h1]
          · cases consumed with
            | nil => simp at h3
            | cons y ys => rw [List.getLast?_cons_cons]; exact h3

theorem getLast?_append_getD {α : Type} (a b : List α) (x : α) :
    ((a ++ b).getLast?).getD x = (b.getLast?).getD ((a.getLast?).getD x) := by
  rcases List.eq_nil_or_concat b with rfl | ⟨l, y, rfl⟩
  · simp
  · rw [List.concat_eq_append, ← List.append_assoc]
    simp

/-- The publisher over any number of iterations. -/
theorem update_input_report_spec (iterations : Nat) (d : JoyCon) :
    ∃ consumed, d.joycon_device_.incoming
        = consumed ++ (update_input_report iterations d).2.1.joycon_device_.incoming ∧
      (iterations = 0 → consumed = []) ∧
      stored_reports (update_input_report iterations d).2.2 = full_state_reports consumed ∧
      (update_input_report iterations d).2.1.input_report_
        = ((stored_reports (update_input_report iterations d).2.2).getLast?).getD
            d.input_report_ ∧
      ((update_input_report iterations d).1 = Outcome.returns () →
        (stored_reports (update_input_report iterations d).2.2).length = iterations ∧
        (0 < iterations → ∃ bytes, consumed.getLast? = some (HidInput.report bytes) ∧
          (StdArray.filled 49 bytes).get 0 = 0x30 ∧
          (update_input_report iterations d).2.1.input_report_ = StdArray.filled 49 bytes)) := by
  induction iterations generalizing d with
  | zero =>
    exact ⟨[], rfl, fun _ => rfl, rfl, rfl, fun _ => ⟨rfl, fun h => absurd h (by decide)⟩⟩
  | succ n ih =>
    obtain ⟨c1, hc1, hs1, _, hret1, hno1⟩ := update_input_report_iteration_spec d
    rw [update_input_report]
    rcases hit : update_input_report_iteration d with ⟨o, d1, ev⟩
    rw [hit] at hc1 hs1 hret1 hno1
    simp only [] at hc1 hs1 hret1 hno1
    cases o with
    | throws e =>
      obtain ⟨he, hi⟩ := hno1 (by simp)
      refine ⟨c1, hc1, fun h => by omega, hs1, ?_, fun h => by simp at h⟩
      simp only [he, hi]
      rfl
    | blocks =>
      obtain ⟨he, hi⟩ := hno1 (by simp)
      refine ⟨c1, hc1, fun h => by omega, hs1, ?_, fun h => by simp at h⟩
      simp only [he, hi]
      rfl
    | returns u =>
      obtain ⟨bytes, hlast, hid, hsnap, hev⟩ := hret1 rfl
      obtain ⟨c2, hc2, hz2, hs2, hsnap2, hret2⟩ := ih d1
      simp only []
      rcases hrest : update_input_report n d1 with ⟨o2, d2, later⟩
      rw [hrest] at hc2 hs2 hsnap2 hret2
      simp only [] at hc2 hs2 hsnap2 hret2 ⊢
      have hsev : stored_reports ev = [StdArray.filled 49 bytes] := by
        rw [hev, stored_reports_iteration]
      refine ⟨c1 ++ c2, by rw [hc1, hc2, List.append_assoc], fun h => by omega, ?_, ?_,
        fun h => ?_⟩
      · rw [stored_reports_append, full_state_reports_append, hs1, hs2]
      · rw [stored_reports_append, getLast?_append_getD, hsnap2, hsev, hsnap]
        rfl
      · obtain ⟨hlen, hfin⟩ := hret2 h
        refine ⟨by rw [stored_reports_append, List.length_append, hlen, hsev]; simp; omega,
          fun _ => ?_⟩
        rcases Nat.eq_zero_or_pos n with hn | hn
        · have hc2nil : c2 = [] := hz2 hn
          subst hn
          rw [update_input_report] at hrest
          have hd2 : d2 = d1 := by
            have := congrArg (fun p => p.2.1) hrest
            simpa using this.symm
          exact ⟨bytes, by rw [hc2nil, List.append_nil]; exact hlast, hid,
            by rw [hd2]; exact hsnap⟩
        · obtain ⟨b2, hl2, hid2, hsn2⟩ := hfin hn
          refine ⟨b2, ?_, hid2, hsn2⟩
          rcases List.eq_nil_or_concat c2 with rfl | ⟨l, y, rfl⟩
          · simp at hl2
          · rw [List.concat_eq_append] at hl2 ⊢
            rw [← List.append_assoc, List.getLast?_append_of_ne_nil _ (by simp)]
            rw [List.getLast?_append_of_ne_nil _ (by simp)] at hl2
            exact hl2

/-- C19: for every input stream and every number of iterations of the publisher loop, the
values stored as `input_report_` are exactly the `0x30` reports of the inputs consumed, in
order of arrival, so every stored value has report id (byte 0) `0x30` and a report with
another id, such as a `0x21` reply, is consumed without being stored; the snapshot at the
end is the last value stored (the initial one if none was); and when the iterations
complete, one value was stored per iteration and the last input consumed is the `0x30`
report that is the snapshot. -/
theorem publisher_stores_only_0x30 (d : JoyCon) (iterations : Nat) :
    ∃ consumed,
      d.joycon_device_.incoming
        = consumed ++ (update_input_report iterations d).2.1.joycon_device_.incoming ∧
      stored_reports (update_input_report iterations d).2.2 = full_state_reports consumed ∧
      (∀ r ∈ stored_reports (update_input_report iterations d).2.2, r.get 0 = 0x30) ∧
      (∀ bytes, HidInput.report bytes ∈ consumed → (StdArray.filled 49 bytes).get 0 ≠ 0x30 →
        StdArray.filled 49 bytes ∉ stored_reports (update_input_report iterations d).2.2) ∧
      (update_input_report iterations d).2.1.input_report_
        = ((stored_reports (update_input_report iterations d).2.2).getLast?).getD
            d.input_report_ ∧
      ((update_input_report iterations d).1 = Outcome.returns () →
        (stored_reports (update_input_report iterations d).2.2).length = iterations ∧
        (0 < iterations → ∃ bytes, consumed.getLast? = some (HidInput.report bytes) ∧
          (StdArray.filled 49 bytes).get 0 = 0x30 ∧
          (update_input_report iterations d).2.1.input_report_ = StdArray.filled 49 bytes)) := by
  obtain ⟨consumed, hc, _, hs, hsnap, hret⟩ := update_input_report_spec iterations d
  have hid : ∀ r ∈ stored_reports (update_input_report iterations d).2.2, r.get 0 = 0x30 := by
    rw [hs]
    exact full_state_reports_id consumed
  exact ⟨consumed, hc, hs, hid, fun bytes _ hne hmem => hne (hid _ hmem), hsnap, hret⟩

/-- Witness of C19: two iterations on a stream that mixes `0x21`, `0x30` and `0x3F`
reports. -/
theorem publisher_stores_only_0x30_witness :
    (update_input_report 2 publisher_device).1 = Outcome.returns () ∧
    (stored_reports (update_input_report 2 publisher_device).2.2).length = 2 ∧
    (∀ r ∈ stored_reports (update_input_report 2 publisher_device).2.2, r.get 0 = 0x30) ∧
    (update_input_report 2 publisher_device).2.1.input_report_ = StdArray.filled 49 [0x30, 0x02] ∧
    (update_input_report 2 publisher_device).2.1.joycon_device_.incoming
      = [HidInput.report [0x21, 0x07]] := by
  obtain ⟨consumed, _, _, hid, _, _, hret⟩ := publisher_stores_only_0x30 publisher_device 2
  have h : (update_input_report 2 publisher_device).1 = Outcome.returns () := by decide
  exact ⟨h, (hret h).1, hid, by decide, by decide⟩

theorem take_two_faults (faults : List Bool) (h : ∀ b ∈ faults.take 2, b = false) :
    faults.head? ≠ some true ∧ faults.tail.head? ≠ some true := by
  rcases faults with _ | ⟨a, _ | ⟨b, rest⟩⟩
  · simp
  · have := h a (by simp); simp [this]
  · have ha := h a (by simp)
    have hb := h b (by simp)
    simp [ha, hb]

/-- C21: when the channel accepts the two coming writes, `setup_sensors` returns, it has
appended exactly two reports to the log, `[0x01, c, rumble(8), 0x40, 0x01]` and then
`[0x01, (c + 1) mod 16, rumble(8), 0x03, 0x30]`, where `c` is the packet counter on entry
and `rumble` the stored pattern, and it leaves the counter at `(c + 2) mod 16` and the
pattern unchanged. -/
theorem setup_sensors_reports (d : JoyCon)
    (hw : ∀ b ∈ d.joycon_device_.write_faults.take 2, b = false) :
    d.setup_sensors.1 = Outcome.returns () ∧
    d.setup_sensors.2.joycon_device_.written = d.joycon_device_.written ++
      [[0x01, d.packet_number_] ++ d.rumble_data_.val ++ [0x40, 0x01],
        [0x01, (d.packet_number_ + 1) % 16] ++ d.rumble_data_.val ++ [0x03, 0x30]] ∧
    d.setup_sensors.2.packet_number_ = (d.packet_number_ + 2) % 16 ∧
    d.setup_sensors.2.rumble_data_ = d.rumble_data_ := by
  obtain ⟨h1, h2⟩ := take_two_faults _ hw
  rw [setup_sensors_eq, write_frame_accepted d 0x01 [0x40, 0x01] h1]
  simp only []
  rw [write_frame_accepted _ 0x01 [0x03, 0x30] h2]
  refine ⟨rfl, by simp, ?_, rfl⟩
  simp only []
  omega

/-- Witness of C21: a fresh object, counter 0 and the default pattern. -/
theorem setup_sensors_reports_witness :
    fresh_device.setup_sensors.1 = Outcome.returns () ∧
    fresh_device.setup_sensors.2.joycon_device_.written = fresh_device.joycon_device_.written ++
      [[0x01, fresh_device.packet_number_] ++ fresh_device.rumble_data_.val ++ [0x40, 0x01],
        [0x01, (fresh_device.packet_number_ + 1) % 16] ++ fresh_device.rumble_data_.val
          ++ [0x03, 0x30]] ∧
    fresh_device.setup_sensors.2.packet_number_ = (fresh_device.packet_number_ + 2) % 16 ∧
    fresh_device.setup_sensors.2.rumble_data_ = fresh_device.rumble_data_ :=
  setup_sensors_reports fresh_device (by decide)

/-! ## The reports written during construction -/

theorem flash_read_request_eq (counter : Nat) (rumble : StdArray 8) (address size : Nat) :
    flash_read_request counter rumble address size
      = [0x01, counter] ++ rumble.val ++ 0x10 :: spi_argument address size := by
  simp [flash_read_request, spi_argument_eq]

/-- What one `spi_flash_read` does to the log, the counter and the pattern: it appends its
request report or nothing, and when it returns it has appended the request and advanced
the counter. -/
theorem spi_flash_read_step (d : JoyCon) (address size : Nat) :
    ∃ new, (d.spi_flash_read address size).2.joycon_device_.written
        = d.joycon_device_.written ++ new ∧
      (new = [] ∨ new = [flash_read_request d.packet_number_ d.rumble_data_ address size]) ∧
      (d.spi_flash_read address size).2.rumble_data_ = d.rumble_data_ ∧
      (∀ p, (d.spi_flash_read address size).1 = Outcome.returns p →
        new = [flash_read_request d.packet_number_ d.rumble_data_ address size] ∧
        (d.spi_flash_read address size).2.packet_number_ = (d.packet_number_ + 1) % 16) := by
  rcases spi_flash_read_state d address size with ⟨_, h⟩ | ⟨hs, h⟩
  · rw [h]
    exact ⟨[], by simp, Or.inl rfl, rfl, fun p hp => by simp at hp⟩
  · obtain ⟨hw, hp, hr, _, hret⟩ :=
      send_subcmd_get_response_state d 0x10 (spi_argument address size)
    obtain ⟨new, hwf, _, _, hrf, _, hretf, hnotf, _⟩ :=
      write_frame_effect d 0x01 (0x10 :: spi_argument address size)
    rw [flash_read_request_eq]
    refine ⟨new, by rw [h, hw, hwf], ?_, by rw [h, hr, hrf], fun p hpret => ?_⟩
    · by_cases hret1 : (write_frame d 0x01 (0x10 :: spi_argument address size)).1
          = Outcome.returns ()
      · exact Or.inr (hretf hret1).1
      · exact Or.inl (hnotf hret1).1
    · have hs1 : ¬ size > 0x1d := by omega
      rcases hsend : d.send_subcmd_get_response 0x10 (spi_argument address size) with ⟨o, d2⟩
      cases o with
      | throws e =>
        rw [spi_flash_read_eq, hsend] at hpret
        simp [hs1] at hpret
      | blocks =>
        rw [spi_flash_read_eq, hsend] at hpret
        simp [hs1] at hpret
      | returns v =>
        have hv := hret v (by rw [hsend])
        exact ⟨(hretf hv).1, by rw [h, hp]; exact (hretf hv).2⟩

/-- The two frame steps of `setup_sensors`: it appends a prefix of its two reports, both
when it returns. -/
theorem setup_sensors_step (d : JoyCon) :
    ∃ new, d.setup_sensors.2.joycon_device_.written = d.joycon_device_.written ++ new ∧
      new <+: [[0x01, d.packet_number_] ++ d.rumble_data_.val ++ [0x40, 0x01],
        [0x01, (d.packet_number_ + 1) % 16] ++ d.rumble_data_.val ++ [0x03, 0x30]] ∧
      d.setup_sensors.2.rumble_data_ = d.rumble_data_ ∧
      d.setup_sensors.2.update_input_report_thread_ = d.update_input_report_thread_ ∧
      (d.setup_sensors.1 = Outcome.returns () →
        new = [[0x01, d.packet_number_] ++ d.rumble_data_.val ++ [0x40, 0x01],
          [0x01, (d.packet_number_ + 1) % 16] ++ d.rumble_data_.val ++ [0x03, 0x30]] ∧
        d.setup_sensors.2.packet_number_ = (d.packet_number_ + 2) % 16) := by
  rw [setup_sensors_eq]
  rcases write_frame_cases d 0x01 [0x40, 0x01] with ⟨h1, _⟩ | ⟨h1, _⟩
  · rw [h1]
    simp only []
    rcases write_frame_cases
      { d with
        packet_number_ := (d.packet_number_ + 1) % 16
        joycon_device_ :=
          { d.joycon_device_ with
            written := d.joycon_device_.written
              ++ [[0x01, d.packet_number_] ++ d.rumble_data_.val ++ [0x40, 0x01]],
            write_faults := d.joycon_device_.write_faults.tail } } 0x01 [0x03, 0x30]
      with ⟨h2, _⟩ | ⟨h2, _⟩
    · rw [h2]
      refine ⟨_, by simp only [List.append_assoc]; rfl, List.prefix_refl _, rfl, rfl,
        fun _ => ⟨rfl, ?_⟩⟩
      simp only []
      omega
    · rw [h2]
      refine ⟨[[0x01, d.packet_number_] ++ d.rumble_data_.val ++ [0x40, 0x01]], rfl,
        ⟨[[0x01, (d.packet_number_ + 1) % 16] ++ d.rumble_data_.val ++ [0x03, 0x30]], rfl⟩,
        rfl, rfl, fun h => by simp at h⟩
  · rw [h1]
    exact ⟨[], by simp, List.nil_prefix, rfl, rfl, fun h => by simp at h⟩

/-- Bytes 0, 1 and 10 of a flash read request, and its rumble bytes. -/
theorem flash_read_request_bytes (counter : Nat) (rumble : StdArray 8) (address size : Nat) :
    (flash_read_request counter rumble address size)[0]? = some 0x01 ∧
    (flash_read_request counter rumble address size)[1]? = some counter ∧
    (flash_read_request counter rumble address size)[10]? = some 0x10 ∧
    rumble_bytes (flash_read_request counter rumble address size) = rumble.val ∧
    (flash_read_request counter rumble address size).length = 16 := by
  have h := frame_shape 0x01 counter rumble (0x10 :: spi_argument address size)
  rw [← flash_read_request_eq] at h
  refine ⟨h.1, h.2.1, ?_, h.2.2.1, by rw [h.2.2.2, spi_argument_eq]; rfl⟩
  have hl : rumble.val.length = 8 := rumble.property
  rw [flash_read_request_eq, List.getElem?_append_right (by simp [hl])]
  simp [hl]

/-- Only the counter and the channel change in a frame step. -/
theorem write_frame_frame (d : JoyCon) (id : Nat) (tail : List Nat) :
    ∃ pn dev, (write_frame d id tail).2 = { d with packet_number_ := pn, joycon_device_ := dev } := by
  rcases write_frame_cases d id tail with ⟨h, _⟩ | ⟨h, _⟩
  · rw [h]; exact ⟨_, _, rfl⟩
  · rw [h]; exact ⟨_, _, rfl⟩

/-- Only the counter and the channel change in `spi_flash_read`. -/
theorem spi_flash_read_frame (d : JoyCon) (address size : Nat) :
    ∃ pn dev, (d.spi_flash_read address size).2
      = { d with packet_number_ := pn, joycon_device_ := dev } := by
  rcases spi_flash_read_state d address size with ⟨_, h⟩ | ⟨_, h⟩
  · rw [h]; exact ⟨_, _, rfl⟩
  · rw [h, send_subcmd_get_response_eq]
    rcases write_frame_cases d 0x01 (0x10 :: spi_argument address size) with ⟨hf, _⟩ | ⟨hf, _⟩
    · rw [hf]
      simp only []
      split
      · exact ⟨_, _, rfl⟩
      · exact ⟨_, _, rfl⟩
      · split
        · exact ⟨_, _, rfl⟩
        · exact ⟨_, _, rfl⟩
    · rw [hf]; exact ⟨_, _, rfl⟩

theorem spi_flash_read_thread (d : JoyCon) (address size : Nat) :
    (d.spi_flash_read address size).2.update_input_report_thread_
      = d.update_input_report_thread_ := by
  obtain ⟨pn, dev, h⟩ := spi_flash_read_frame d address size
  rw [h]

/-- The object `read_joycon_data` leaves when its three flash reads return. -/
theorem read_joycon_data_run (d da db dc : JoyCon) (color_data marker b : List Nat)
    (h1 : d.spi_flash_read 0x6050 6 = (Outcome.returns color_data, da))
    (h2 : da.spi_flash_read 0x8026 2 = (Outcome.returns marker, db))
    (h3 : db.spi_flash_read (if marker = [0xB2, 0xA1] then 0x8028 else 0x6020) 24
      = (Outcome.returns b, dc)) :
    d.read_joycon_data = (Outcome.returns (),
      (({ dc with
          color_body_ := ⟨[color_data.getD 0 0, color_data.getD 1 0, color_data.getD 2 0], rfl⟩
          color_btn_ := ⟨[color_data.getD 3 0, color_data.getD 4 0, color_data.getD 5 0], rfl⟩
          } : JoyCon).set_accel_calibration
          ⟨calibration_value b 0, calibration_value b 1, calibration_value b 2⟩
          ⟨calibration_value b 3, calibration_value b 4, calibration_value b 5⟩).set_gyro_calibration
        ⟨calibration_value b 6, calibration_value b 7, calibration_value b 8⟩
        ⟨calibration_value b 9, calibration_value b 10, calibration_value b 11⟩) := by
  have h3a : (if marker = [0xB2, 0xA1] then db.spi_flash_read 0x8028 24
      else db.spi_flash_read 0x6020 24) = (Outcome.returns b, dc) := by
    rw [← h3]
    split <;> rfl
  unfold read_joycon_data
  rw [h1]
  simp only []
  rw [h2]
  simp only []
  rw [h3a]
  rfl

/-- How `read_joycon_data` ends: with the outcome and the object of the first flash read
that does not return, or, when the three reads return, normally. -/
theorem read_joycon_data_cases (d : JoyCon) :
    (∃ o, (∀ p, o ≠ Outcome.returns p) ∧ (d.spi_flash_read 0x6050 6).1 = o ∧
      d.read_joycon_data = (o.void, (d.spi_flash_read 0x6050 6).2)) ∨
    (∃ color_data da o, d.spi_flash_read 0x6050 6 = (Outcome.returns color_data, da) ∧
      (∀ p, o ≠ Outcome.returns p) ∧ (da.spi_flash_read 0x8026 2).1 = o ∧
      d.read_joycon_data = (o.void, (da.spi_flash_read 0x8026 2).2)) ∨
    (∃ color_data da marker db o, d.spi_flash_read 0x6050 6 = (Outcome.returns color_data, da) ∧
      da.spi_flash_read 0x8026 2 = (Outcome.returns marker, db) ∧
      (∀ p, o ≠ Outcome.returns p) ∧
      (db.spi_flash_read (if marker = [0xB2, 0xA1] then 0x8028 else 0x6020) 24).1 = o ∧
      d.read_joycon_data = (o.void,
        (db.spi_flash_read (if marker = [0xB2, 0xA1] then 0x8028 else 0x6020) 24).2)) ∨
    (∃ color_data da marker db b dc,
      d.spi_flash_read 0x6050 6 = (Outcome.returns color_data, da) ∧
      da.spi_flash_read 0x8026 2 = (Outcome.returns marker, db) ∧
      db.spi_flash_read (if marker = [0xB2, 0xA1] then 0x8028 else 0x6020) 24
        = (Outcome.returns b, dc) ∧
      (d.read_joycon_data).1 = Outcome.returns ()) := by
  rcases h1 : d.spi_flash_read 0x6050 6 with ⟨o1, da⟩
  cases o1 with
  | throws e =>
    refine Or.inl ⟨Outcome.throws e, fun p => by simp, rfl, ?_⟩
    unfold read_joycon_data
    rw [h1]
    rfl
  | blocks =>
    refine Or.inl ⟨Outcome.blocks, fun p => by simp, rfl, ?_⟩
    unfold read_joycon_data
    rw [h1]
    rfl
  | returns color_data =>
    rcases h2 : da.spi_flash_read 0x8026 2 with ⟨o2, db⟩
    cases o2 with
    | throws e =>
      refine Or.inr (Or.inl ⟨color_data, da, Outcome.throws e, rfl, fun p => by simp,
        by rw [h2], ?_⟩)
      unfold read_joycon_data
      rw [h1]
      simp only []
      rw [h2]
      rfl
    | blocks =>
      refine Or.inr (Or.inl ⟨color_data, da, Outcome.blocks, rfl, fun p => by simp,
        by rw [h2], ?_⟩)
      unfold read_joycon_data
      rw [h1]
      simp only []
      rw [h2]
      rfl
    | returns marker =>
      have h3a : (if marker = [0xB2, 0xA1] then db.spi_flash_read 0x8028 24
          else db.spi_flash_read 0x6020 24)
          = db.spi_flash_read (if marker = [0xB2, 0xA1] then 0x8028 else 0x6020) 24 := by
        split <;> rfl
      rcases h3 : db.spi_flash_read (if marker = [0xB2, 0xA1] then 0x8028 else 0x6020) 24
        with ⟨o3, dc⟩
      cases o3 with
      | throws e =>
        refine Or.inr (Or.inr (Or.inl ⟨color_data, da, marker, db, Outcome.throws e, rfl, h2,
          fun p => by simp, by rw [h3], ?_⟩))
        unfold read_joycon_data
        rw [h1]
        simp only []
        rw [h2]
        simp only []
        rw [h3a, h3]
        rfl
      | blocks =>
        refine Or.inr (Or.inr (Or.inl ⟨color_data, da, marker, db, Outcome.blocks, rfl, h2,
          fun p => by simp, by rw [h3], ?_⟩))
        unfold read_joycon_data
        rw [h1]
        simp only []
        rw [h2]
        simp only []
        rw [h3a, h3]
        rfl
      | returns b =>
        refine Or.inr (Or.inr (Or.inr ⟨color_data, da, marker, db, b, dc, rfl, h2, h3, ?_⟩))
        rw [read_joycon_data_run d da db dc color_data marker b h1 h2 h3]

theorem subcommand_ids_request (counter : Nat) (rumble : StdArray 8) (address size : Nat) :
    subcommand_ids [flash_read_request counter rumble address size] = [some 0x10] := by
  simp [subcommand_ids, (flash_read_request_bytes counter rumble address size).2.2.1]

theorem subcommand_ids_append (a b : List (List Nat)) :
    subcommand_ids (a ++ b) = subcommand_ids a ++ subcommand_ids b := by
  simp [subcommand_ids]

theorem void_not_returns {α : Type} (o : Outcome α) (h : ∀ p, o ≠ Outcome.returns p) :
    o.void ≠ Outcome.returns () := by
  cases o with
  | returns v => exact absurd rfl (h v)
  | throws e => simp [Outcome.void]
  | blocks => simp [Outcome.void]

/-- The log, the counter and the pattern after the three flash reads of
`read_joycon_data` have returned. -/
theorem read_joycon_data_log (d da db dc : JoyCon) (color_data marker b : List Nat)
    (h1 : d.spi_flash_read 0x6050 6 = (Outcome.returns color_data, da))
    (h2 : da.spi_flash_read 0x8026 2 = (Outcome.returns marker, db))
    (h3 : db.spi_flash_read (if marker = [0xB2, 0xA1] then 0x8028 else 0x6020) 24
      = (Outcome.returns b, dc)) :
    dc.joycon_device_.written = d.joycon_device_.written ++
      [flash_read_request d.packet_number_ d.rumble_data_ 0x6050 6,
        flash_read_request ((d.packet_number_ + 1) % 16) d.rumble_data_ 0x8026 2,
        flash_read_request ((d.packet_number_ + 2) % 16) d.rumble_data_
          (if marker = [0xB2, 0xA1] then 0x8028 else 0x6020) 24] ∧
    dc.packet_number_ = (d.packet_number_ + 3) % 16 ∧
    dc.rumble_data_ = d.rumble_data_ ∧
    dc.update_input_report_thread_ = d.update_input_report_thread_ := by
  obtain ⟨n1, hw1, _, hr1, hret1⟩ := spi_flash_read_step d 0x6050 6
  have ht1 := spi_flash_read_thread d 0x6050 6
  rw [h1] at hw1 hr1 hret1 ht1
  simp only [] at hw1 hr1 hret1 ht1
  obtain ⟨hn1, hp1⟩ := hret1 color_data rfl
  obtain ⟨n2, hw2, _, hr2, hret2⟩ := spi_flash_read_step da 0x8026 2
  have ht2 := spi_flash_read_thread da 0x8026 2
  rw [h2] at hw2 hr2 hret2 ht2
  simp only [] at hw2 hr2 hret2 ht2
  obtain ⟨hn2, hp2⟩ := hret2 marker rfl
  obtain ⟨n3, hw3, _, hr3, hret3⟩ :=
    spi_flash_read_step db (if marker = [0xB2, 0xA1] then 0x8028 else 0x6020) 24
  have ht3 := spi_flash_read_thread db (if marker = [0xB2, 0xA1] then 0x8028 else 0x6020) 24
  rw [h3] at hw3 hr3 hret3 ht3
  simp only [] at hw3 hr3 hret3 ht3
  obtain ⟨hn3, hp3⟩ := hret3 b rfl
  have hc3 : db.packet_number_ = (d.packet_number_ + 2) % 16 := by rw [hp2, hp1]; omega
  refine ⟨?_, by rw [hp3, hc3]; omega, by rw [hr3, hr2, hr1], by rw [ht3, ht2, ht1]⟩
  rw [hw3, hw2, hw1, hn1, hn2, hn3, hp1, hc3, hr2, hr1]
  simp

/-- What `read_joycon_data` does to the log, the counter and the pattern: it appends a
prefix of its three flash read requests, all three when it returns. -/
theorem read_joycon_data_step (d : JoyCon) :
    ∃ new, (d.read_joycon_data).2.joycon_device_.written = d.joycon_device_.written ++ new ∧
      (d.read_joycon_data).2.rumble_data_ = d.rumble_data_ ∧
      (d.read_joycon_data).2.update_input_report_thread_ = d.update_input_report_thread_ ∧
      subcommand_ids new <+: [some 0x10, some 0x10, some 0x10] ∧
      ((d.read_joycon_data).1 = Outcome.returns () →
        ∃ third, (third = 0x8028 ∨ third = 0x6020) ∧
          new = [flash_read_request d.packet_number_ d.rumble_data_ 0x6050 6,
            flash_read_request ((d.packet_number_ + 1) % 16) d.rumble_data_ 0x8026 2,
            flash_read_request ((d.packet_number_ + 2) % 16) d.rumble_data_ third 24] ∧
          (d.read_joycon_data).2.packet_number_ = (d.packet_number_ + 3) % 16) := by
  obtain ⟨n1, hw1, hn1, hr1, hret1⟩ := spi_flash_read_step d 0x6050 6
  have ht1 := spi_flash_read_thread d 0x6050 6
  rcases read_joycon_data_cases d with ⟨o, ho, _, hrun⟩ | ⟨color_data, da, o, h1, ho, _, hrun⟩ |
    ⟨color_data, da, marker, db, o, h1, h2, ho, _, hrun⟩ |
    ⟨color_data, da, marker, db, b, dc, h1, h2, h3, _⟩
  · rw [hrun]
    refine ⟨n1, hw1, hr1, ht1, ?_, fun h => absurd h (void_not_returns o ho)⟩
    rcases hn1 with rfl | rfl
    · exact List.nil_prefix
    · rw [subcommand_ids_request]
      exact ⟨[some 0x10, some 0x10], rfl⟩
  · rw [h1] at hw1 hr1 hret1 ht1
    simp only [] at hw1 hr1 hret1 ht1
    obtain ⟨hn1, hp1⟩ := hret1 color_data rfl
    obtain ⟨n2, hw2, hn2, hr2, _⟩ := spi_flash_read_step da 0x8026 2
    have ht2 := spi_flash_read_thread da 0x8026 2
    rw [hrun]
    refine ⟨n1 ++ n2, by rw [← List.append_assoc, ← hw1]; exact hw2, by rw [← hr1]; exact hr2,
      by rw [← ht1]; exact ht2, ?_, fun h => absurd h (void_not_returns o ho)⟩
    rw [subcommand_ids_append, hn1, subcommand_ids_request]
    rcases hn2 with rfl | rfl
    · exact ⟨[some 0x10, some 0x10], rfl⟩
    · rw [subcommand_ids_request]
      exact ⟨[some 0x10], rfl⟩
  · rw [h1] at hw1 hr1 hret1 ht1
    simp only [] at hw1 hr1 hret1 ht1
    obtain ⟨hn1, hp1⟩ := hret1 color_data rfl
    obtain ⟨n2, hw2, _, hr2, hret2⟩ := spi_flash_read_step da 0x8026 2
    have ht2 := spi_flash_read_thread da 0x8026 2
    rw [h2] at hw2 hr2 hret2 ht2
    simp only [] at hw2 hr2 hret2 ht2
    obtain ⟨hn2, hp2⟩ := hret2 marker rfl
    obtain ⟨n3, hw3, hn3, hr3, _⟩ :=
      spi_flash_read_step db (if marker = [0xB2, 0xA1] then 0x8028 else 0x6020) 24
    have ht3 := spi_flash_read_thread db (if marker = [0xB2, 0xA1] then 0x8028 else 0x6020) 24
    rw [hrun]
    refine ⟨n1 ++ n2 ++ n3,
      by rw [← List.append_assoc, ← List.append_assoc, ← hw1, ← hw2]; exact hw3,
      by rw [← hr1, ← hr2]; exact hr3, by rw [← ht1, ← ht2]; exact ht3, ?_,
      fun h => absurd h (void_not_returns o ho)⟩
    rw [subcommand_ids_append, subcommand_ids_append, hn1, hn2, subcommand_ids_request,
      subcommand_ids_request]
    rcases hn3 with rfl | rfl
    · exact ⟨[some 0x10], rfl⟩
    · rw [subcommand_ids_request]
      exact List.prefix_refl _
  · obtain ⟨hw, hp, hr, ht⟩ := read_joycon_data_log d da db dc color_data marker b h1 h2 h3
    rw [read_joycon_data_run d da db dc color_data marker b h1 h2 h3]
    refine ⟨_, hw, hr, ht, ?_,
      fun _ => ⟨(if marker = [0xB2, 0xA1] then 0x8028 else 0x6020), ?_, rfl, hp⟩⟩
    · have e : ∀ x y z : List Nat, [x, y, z] = [x] ++ [y] ++ [z] := fun _ _ _ => rfl
      rw [e, subcommand_ids_append, subcommand_ids_append, subcommand_ids_request,
        subcommand_ids_request, subcommand_ids_request]
      exact List.prefix_refl _
    · split
      · exact Or.inl rfl
      · exact Or.inr rfl

theorem six_bytes (l : List Nat) (h : l.length = 6) :
    [l.getD 0 0, l.getD 1 0, l.getD 2 0] = l.take 3 ∧
      [l.getD 3 0, l.getD 4 0, l.getD 5 0] = l.drop 3 := by
  rcases l with _ | ⟨a, _ | ⟨b, _ | ⟨c, _ | ⟨d, _ | ⟨e, _ | ⟨f, _ | ⟨g, r⟩⟩⟩⟩⟩⟩⟩ <;>
    simp at h
  exact ⟨rfl, rfl⟩

/-- C28: when its flash reads return, `read_joycon_data` has issued them in this order:
`(0x6050, 6)`, then `(0x8026, 2)`, then `(0x8028, 24)` if the two marker bytes read from
`0x8026` are exactly `[0xB2, 0xA1]` and `(0x6020, 24)` otherwise, as the three request
reports appended to the log show; it returns, and bytes 0..2 of the six bytes of the
first read are the body colour, bytes 3..5 the button colour. -/
theorem read_joycon_data_reads (d da db dc : JoyCon) (color_data marker b : List Nat)
    (h1 : d.spi_flash_read 0x6050 6 = (Outcome.returns color_data, da))
    (h2 : da.spi_flash_read 0x8026 2 = (Outcome.returns marker, db))
    (h3 : db.spi_flash_read (if marker = [0xB2, 0xA1] then 0x8028 else 0x6020) 24
      = (Outcome.returns b, dc)) :
    (d.read_joycon_data).1 = Outcome.returns () ∧
    (d.read_joycon_data).2.joycon_device_.written = d.joycon_device_.written ++
      [flash_read_request d.packet_number_ d.rumble_data_ 0x6050 6,
        flash_read_request ((d.packet_number_ + 1) % 16) d.rumble_data_ 0x8026 2,
        flash_read_request ((d.packet_number_ + 2) % 16) d.rumble_data_
          (if marker = [0xB2, 0xA1] then 0x8028 else 0x6020) 24] ∧
    ((if marker = [0xB2, 0xA1] then 0x8028 else 0x6020) = 0x8028 ↔ marker = [0xB2, 0xA1]) ∧
    ((if marker = [0xB2, 0xA1] then 0x8028 else 0x6020) = 0x6020 ↔ marker ≠ [0xB2, 0xA1]) ∧
    color_data.length = 6 ∧ marker.length = 2 ∧
    (d.read_joycon_data).2.color_body_.val = color_data.take 3 ∧
    (d.read_joycon_data).2.color_btn_.val = color_data.drop 3 := by
  obtain ⟨hw, _, _, _⟩ := read_joycon_data_log d da db dc color_data marker b h1 h2 h3
  have hlen : color_data.length = 6 := spi_flash_read_length _ _ _ _ _ h1
  have hm : marker.length = 2 := spi_flash_read_length _ _ _ _ _ h2
  obtain ⟨hb, hbtn⟩ := six_bytes color_data hlen
  rw [read_joycon_data_run d da db dc color_data marker b h1 h2 h3]
  refine ⟨rfl, hw, ?_, ?_, hlen, hm, hb, hbtn⟩
  · by_cases h : marker = [0xB2, 0xA1] <;> simp [h]
  · by_cases h : marker = [0xB2, 0xA1] <;> simp [h]

/-- Witness of C28: the three reads of a fresh object whose flash holds the marker of user
calibration. -/
theorem read_joycon_data_reads_witness :
    (calibration_device.read_joycon_data).1 = Outcome.returns () ∧
    (calibration_device.read_joycon_data).2.joycon_device_.written =
      [flash_read_request 0 DEFAULT_RUMBLE_DATA 0x6050 6,
        flash_read_request 1 DEFAULT_RUMBLE_DATA 0x8026 2,
        flash_read_request 2 DEFAULT_RUMBLE_DATA 0x8028 24] ∧
    (calibration_device.read_joycon_data).2.color_body_.val = [0x82, 0x82, 0x82] ∧
    (calibration_device.read_joycon_data).2.color_btn_.val = [0x0F, 0x0F, 0x0F] := by
  have h := read_joycon_data_reads calibration_device
    (calibration_device.spi_flash_read 0x6050 6).2
    ((calibration_device.spi_flash_read 0x6050 6).2.spi_flash_read 0x8026 2).2
    (((calibration_device.spi_flash_read 0x6050 6).2.spi_flash_read 0x8026 2).2.spi_flash_read
      0x8028 24).2
    [0x82, 0x82, 0x82, 0x0F, 0x0F, 0x0F] [0xB2, 0xA1] calibration_bytes
    (Prod.ext (by decide) rfl) (Prod.ext (by decide) rfl) (Prod.ext (by decide) rfl)
  exact ⟨h.1, h.2.1, h.2.2.2.2.2.2.1, h.2.2.2.2.2.2.2⟩

/-- The constructor from the point where `open` has returned. -/
theorem construct_opened (vendor_id product_id : Nat) (serial : String) (simple_mode : Bool)
    (dev : hid_device) (hv : vendor_id = JOYCON_VENDOR_ID)
    (hp : product_id ∈ JOYCON_PRODUCT_IDS) :
    construct vendor_id product_id serial simple_mode (some dev) =
      match (opened_object vendor_id product_id serial simple_mode dev).read_joycon_data with
      | (Outcome.throws e, d4) => (Outcome.throws e, d4)
      | (Outcome.blocks, d4) => (Outcome.blocks, d4)
      | (Outcome.returns _, d4) =>
        match d4.setup_sensors with
        | (Outcome.throws e, d5) => (Outcome.throws e, d5)
        | (Outcome.blocks, d5) => (Outcome.blocks, d5)
        | (Outcome.returns _, d5) =>
          (Outcome.returns (), { d5 with update_input_report_thread_ := true }) := by
  unfold construct
  dsimp only
  rw [if_neg (not_not.mpr hv), if_neg (not_not.mpr hp)]
  rfl

/-- The constructor throws before it opens a channel, or when there is none. -/
theorem construct_unopened (vendor_id product_id : Nat) (serial : String) (simple_mode : Bool)
    (channel : Option hid_device)
    (h : vendor_id ≠ JOYCON_VENDOR_ID ∨ product_id ∉ JOYCON_PRODUCT_IDS ∨ channel = none) :
    ∃ e, (construct vendor_id product_id serial simple_mode channel).1 = Outcome.throws e ∧
      (construct vendor_id product_id serial simple_mode channel).2.joycon_device_.written = [] ∧
      (construct vendor_id product_id serial simple_mode
        channel).2.update_input_report_thread_ = false := by
  unfold construct
  dsimp only
  by_cases hv : vendor_id ≠ JOYCON_VENDOR_ID
  · rw [if_pos hv]
    exact ⟨_, rfl, rfl, rfl⟩
  · by_cases hp : product_id ∉ JOYCON_PRODUCT_IDS
    · rw [if_neg hv, if_pos hp]
      exact ⟨_, rfl, rfl, rfl⟩
    · rcases h with h | h | h
      · exact absurd h hv
      · exact absurd h hp
      · subst h
        rw [if_neg hv, if_neg hp]
        exact ⟨_, rfl, rfl, rfl⟩

/-- Byte 10 of an output report is the first byte after the rumble pattern. -/
theorem frame_subcommand (id counter : Nat) (pattern : StdArray 8) (sub : Nat)
    (tail : List Nat) :
    ([id, counter] ++ pattern.val ++ sub :: tail)[10]? = some sub := by
  have hl : pattern.val.length = 8 := pattern.property
  rw [List.getElem?_append_right (by simp [hl])]
  simp [hl]

theorem subcommand_ids_setup (c1 c2 : Nat) (pattern : StdArray 8) :
    subcommand_ids [[0x01, c1] ++ pattern.val ++ [0x40, 0x01],
      [0x01, c2] ++ pattern.val ++ [0x03, 0x30]] = [some 0x40, some 0x03] := by
  simp only [subcommand_ids, List.map_cons, List.map_nil, frame_subcommand]

/-- The reports of a construction that has opened its channel: a prefix of the three flash
read requests followed by the two reports of `setup_sensors`; the thread is started
exactly when the constructor returns, and then all five reports have been written, with
counters 0 to 4 and the default pattern. -/
theorem construct_log (vendor_id product_id : Nat) (serial : String) (simple_mode : Bool)
    (dev : hid_device) (hv : vendor_id = JOYCON_VENDOR_ID)
    (hp : product_id ∈ JOYCON_PRODUCT_IDS) :
    ∃ new,
      (construct vendor_id product_id serial simple_mode (some dev)).2.joycon_device_.written
        = dev.written ++ new ∧
      subcommand_ids new <+: [some 0x10, some 0x10, some 0x10, some 0x40, some 0x03] ∧
      ((construct vendor_id product_id serial simple_mode
          (some dev)).2.update_input_report_thread_ = true ↔
        (construct vendor_id product_id serial simple_mode (some dev)).1 = Outcome.returns ()) ∧
      ((construct vendor_id product_id serial simple_mode (some dev)).1 = Outcome.returns () →
        ∃ third, (third = 0x8028 ∨ third = 0x6020) ∧
          new = [flash_read_request 0 DEFAULT_RUMBLE_DATA 0x6050 6,
            flash_read_request 1 DEFAULT_RUMBLE_DATA 0x8026 2,
            flash_read_request 2 DEFAULT_RUMBLE_DATA third 24,
            [0x01, 3] ++ DEFAULT_RUMBLE_DATA.val ++ [0x40, 0x01],
            [0x01, 4] ++ DEFAULT_RUMBLE_DATA.val ++ [0x03, 0x30]] ∧
          (construct vendor_id product_id serial simple_mode (some dev)).2.packet_number_ = 5 ∧
          (construct vendor_id product_id serial simple_mode (some dev)).2.rumble_data_
            = DEFAULT_RUMBLE_DATA) := by
  rw [construct_opened vendor_id product_id serial simple_mode dev hv hp]
  obtain ⟨n1, hw1, hr1, ht1, hid1, hret1⟩ :=
    read_joycon_data_step (opened_object vendor_id product_id serial simple_mode dev)
  have h3 : ([some 0x10, some 0x10, some 0x10] : List (Option Nat))
      <+: [some 0x10, some 0x10, some 0x10, some 0x40, some 0x03] := ⟨[some 0x40, some 0x03], rfl⟩
  rcases hr : (opened_object vendor_id product_id serial simple_mode dev).read_joycon_data
    with ⟨o, d4⟩
  rw [hr] at hw1 hr1 ht1 hret1
  simp only [] at hw1 hr1 ht1 hret1
  have hw1a : d4.joycon_device_.written = dev.written ++ n1 := hw1
  have hr1a : d4.rumble_data_ = DEFAULT_RUMBLE_DATA := hr1
  have ht1a : d4.update_input_report_thread_ = false := ht1
  cases o with
  | throws e =>
    exact ⟨n1, hw1a, hid1.trans h3, by simp [ht1a], fun h => by simp at h⟩
  | blocks =>
    exact ⟨n1, hw1a, hid1.trans h3, by simp [ht1a], fun h => by simp at h⟩
  | returns u =>
    obtain ⟨third, hthird, hn1, hp1⟩ := hret1 rfl
    have hp1a : d4.packet_number_ = 3 := hp1
    have hn1a : n1 = [flash_read_request 0 DEFAULT_RUMBLE_DATA 0x6050 6,
        flash_read_request 1 DEFAULT_RUMBLE_DATA 0x8026 2,
        flash_read_request 2 DEFAULT_RUMBLE_DATA third 24] := hn1
    have hids1 : subcommand_ids n1 = [some 0x10, some 0x10, some 0x10] := by
      rw [hn1a]
      simp only [subcommand_ids, List.map_cons, List.map_nil,
        (flash_read_request_bytes _ _ _ _).2.2.1]
    obtain ⟨n2, hw2, hpre2, hr2, ht2, hret2⟩ := setup_sensors_step d4
    rw [hp1a, hr1a] at hpre2 hret2
    have hids2 : subcommand_ids n2 <+: [some 0x40, some 0x03] := by
      have := List.IsPrefix.map (fun r : List Nat => r[10]?) hpre2
      rw [← subcommand_ids_setup 3 ((3 + 1) % 16) DEFAULT_RUMBLE_DATA]
      exact this
    have hids : subcommand_ids (n1 ++ n2)
        <+: [some 0x10, some 0x10, some 0x10, some 0x40, some 0x03] := by
      rw [subcommand_ids_append, hids1]
      exact (List.prefix_append_right_inj _).mpr hids2
    simp only []
    rcases hs : d4.setup_sensors with ⟨o5, d5⟩
    rw [hs] at hw2 hr2 ht2 hret2
    simp only [] at hw2 hr2 ht2 hret2
    have hw : d5.joycon_device_.written = dev.written ++ (n1 ++ n2) := by
      rw [hw2, hw1a, List.append_assoc]
    cases o5 with
    | throws e =>
      exact ⟨n1 ++ n2, hw, hids, by simp [ht2, ht1a], fun h => by simp at h⟩
    | blocks =>
      exact ⟨n1 ++ n2, hw, hids, by simp [ht2, ht1a], fun h => by simp at h⟩
    | returns u5 =>
      obtain ⟨hn2, hp2⟩ := hret2 rfl
      refine ⟨n1 ++ n2, hw, hids, by simp, fun _ => ⟨third, hthird, ?_, ?_, ?_⟩⟩
      · rw [hn1a, hn2]
        rfl
      · exact hp2
      · exact hr2.trans hr1a

/-- When the channel accepts the two coming writes `setup_sensors` returns. -/
theorem setup_sensors_accepted (d : JoyCon)
    (h1 : d.joycon_device_.write_faults.head? ≠ some true)
    (h2 : d.joycon_device_.write_faults.tail.head? ≠ some true) :
    d.setup_sensors.1 = Outcome.returns () := by
  rw [setup_sensors_eq, write_frame_accepted d 0x01 [0x40, 0x01] h1]
  simp only []
  rw [write_frame_accepted _ 0x01 [0x03, 0x30] h2]

theorem setup_sensors_result (d d5 : JoyCon) (o : Outcome Unit)
    (h : d.setup_sensors = (o, d5))
    (h1 : d.joycon_device_.write_faults.head? ≠ some true)
    (h2 : d.joycon_device_.write_faults.tail.head? ≠ some true) : o = Outcome.returns () := by
  have := setup_sensors_accepted d h1 h2
  rw [h] at this
  exact this

/-- The construction of a left controller on the channel of `calibration_device`
returns. -/
theorem construct_on_calibration_channel :
    (construct JOYCON_VENDOR_ID JOYCON_L_PRODUCT_ID "" false
      (some calibration_device.joycon_device_)).1 = Outcome.returns () := by
  have h1 : (opened_object JOYCON_VENDOR_ID JOYCON_L_PRODUCT_ID "" false
      calibration_device.joycon_device_).spi_flash_read 0x6050 6
      = (Outcome.returns [0x82, 0x82, 0x82, 0x0F, 0x0F, 0x0F],
        ((opened_object JOYCON_VENDOR_ID JOYCON_L_PRODUCT_ID "" false
      calibration_device.joycon_device_).spi_flash_read 0x6050 6).2) :=
    Prod.ext (by decide) rfl
  have h2 : ((opened_object JOYCON_VENDOR_ID JOYCON_L_PRODUCT_ID "" false
      calibration_device.joycon_device_).spi_flash_read 0x6050 6).2.spi_flash_read 0x8026 2
      = (Outcome.returns [0xB2, 0xA1],
        (((opened_object JOYCON_VENDOR_ID JOYCON_L_PRODUCT_ID "" false
      calibration_device.joycon_device_).spi_flash_read 0x6050 6).2.spi_flash_read 0x8026 2).2) :=
    Prod.ext (by decide) rfl
  have h3 : (((opened_object JOYCON_VENDOR_ID JOYCON_L_PRODUCT_ID "" false
      calibration_device.joycon_device_).spi_flash_read 0x6050 6).2.spi_flash_read 0x8026 2).2.spi_flash_read
      (if [0xB2, 0xA1] = [0xB2, 0xA1] then 0x8028 else 0x6020) 24
      = (Outcome.returns calibration_bytes,
        ((((opened_object JOYCON_VENDOR_ID JOYCON_L_PRODUCT_ID "" false
      calibration_device.joycon_device_).spi_flash_read 0x6050 6).2.spi_flash_read 0x8026 2).2.spi_flash_read
      (if [0xB2, 0xA1] = [0xB2, 0xA1] then 0x8028 else 0x6020) 24).2) :=
    Prod.ext (by decide) rfl
  have hf1 : ((((opened_object JOYCON_VENDOR_ID JOYCON_L_PRODUCT_ID "" false
      calibration_device.joycon_device_).spi_flash_read 0x6050 6).2.spi_flash_read 0x8026 2).2.spi_flash_read
      (if [0xB2, 0xA1] = [0xB2, 0xA1] then 0x8028 else 0x6020) 24).2.joycon_device_.write_faults.head? ≠ some true := by
    decide
  have hf2 : ((((opened_object JOYCON_VENDOR_ID JOYCON_L_PRODUCT_ID "" false
      calibration_device.joycon_device_).spi_flash_read 0x6050 6).2.spi_flash_read 0x8026 2).2.spi_flash_read
      (if [0xB2, 0xA1] = [0xB2, 0xA1] then 0x8028 else 0x6020) 24).2.joycon_device_.write_faults.tail.head? ≠ some true := by
    decide
  have hrun := read_joycon_data_run _ _ _ _ _ _ _ h1 h2 h3
  rw [construct_opened _ _ _ _ _ rfl (by decide), hrun]
  simp only []
  split
  · rename_i heq
    have := setup_sensors_result _ _ _ heq hf1 hf2
    simp at this
  · rename_i heq
    have := setup_sensors_result _ _ _ heq hf1 hf2
    simp at this
  · rfl

/-- C22, counterexample: a construction on a channel that answers the three flash reads
returns, and the reports it has written are, in order, the three flash read requests
(subcommand `0x10`) and only then the two handshake reports (subcommands `0x40` and
`0x03`): the flash read requests are written before the handshake, not after it. -/
theorem construction_reads_before_handshake :
    (construct JOYCON_VENDOR_ID JOYCON_L_PRODUCT_ID "" false
        (some calibration_device.joycon_device_)).1 = Outcome.returns () ∧
      subcommand_ids (construct JOYCON_VENDOR_ID JOYCON_L_PRODUCT_ID "" false
        (some calibration_device.joycon_device_)).2.joycon_device_.written
        = [some 0x10, some 0x10, some 0x10, some 0x40, some 0x03] := by
  obtain ⟨new, hw, _, _, hret⟩ := construct_log JOYCON_VENDOR_ID JOYCON_L_PRODUCT_ID ""
    false calibration_device.joycon_device_ rfl (by decide)
  obtain ⟨third, _, hnew, _⟩ := hret construct_on_calibration_channel
  refine ⟨construct_on_calibration_channel, ?_⟩
  rw [hw, hnew]
  simp only [subcommand_ids, List.map_cons, List.map_nil, List.map_append,
    (flash_read_request_bytes _ _ _ _).2.2.1, frame_subcommand]
  rfl

/-- C22 (amended): during device construction the SPI flash read requests (subcommand
`0x10`) are written first and the two handshake reports (subcommands `0x40`, then `0x03`)
after them: whatever has been written when the constructor ends is a prefix of the
sequence `0x10, 0x10, 0x10, 0x40, 0x03`. The publisher thread is started exactly when the
constructor returns, and then all five reports have been written. A constructor that
rejects the ids or gets no channel throws, writes nothing and starts no thread. -/
theorem construction_order (vendor_id product_id : Nat) (serial : String) (simple_mode : Bool)
    (channel : Option hid_device) :
    (∀ dev, vendor_id = JOYCON_VENDOR_ID → product_id ∈ JOYCON_PRODUCT_IDS →
      channel = some dev →
      ∃ new,
        (construct vendor_id product_id serial simple_mode channel).2.joycon_device_.written
          = dev.written ++ new ∧
        subcommand_ids new <+: [some 0x10, some 0x10, some 0x10, some 0x40, some 0x03] ∧
        ((construct vendor_id product_id serial simple_mode
            channel).2.update_input_report_thread_ = true ↔
          (construct vendor_id product_id serial simple_mode channel).1 = Outcome.returns ()) ∧
        ((construct vendor_id product_id serial simple_mode channel).1 = Outcome.returns () →
          subcommand_ids new = [some 0x10, some 0x10, some 0x10, some 0x40, some 0x03])) ∧
    ((vendor_id ≠ JOYCON_VENDOR_ID ∨ product_id ∉ JOYCON_PRODUCT_IDS ∨ channel = none) →
      ∃ e, (construct vendor_id product_id serial simple_mode channel).1 = Outcome.throws e ∧
        (construct vendor_id product_id serial simple_mode channel).2.joycon_device_.written
          = [] ∧
        (construct vendor_id product_id serial simple_mode
          channel).2.update_input_report_thread_ = false) := by
  refine ⟨fun dev hv hp hc => ?_, construct_unopened vendor_id product_id serial simple_mode
    channel⟩
  subst hc
  obtain ⟨new, hw, hpre, hthread, hret⟩ :=
    construct_log vendor_id product_id serial simple_mode dev hv hp
  refine ⟨new, hw, hpre, hthread, fun h => ?_⟩
  obtain ⟨third, _, hnew, _⟩ := hret h
  rw [hnew]
  simp only [subcommand_ids, List.map_cons, List.map_nil,
    (flash_read_request_bytes _ _ _ _).2.2.1, frame_subcommand]

/-- Witness of C22 (amended): the construction of a left controller on a channel that
answers the three flash reads. -/
theorem construction_order_witness :
    ∃ new,
      (construct JOYCON_VENDOR_ID JOYCON_L_PRODUCT_ID "" false
        (some calibration_device.joycon_device_)).2.joycon_device_.written
        = calibration_device.joycon_device_.written ++ new ∧
      subcommand_ids new <+: [some 0x10, some 0x10, some 0x10, some 0x40, some 0x03] ∧
      ((construct JOYCON_VENDOR_ID JOYCON_L_PRODUCT_ID "" false
          (some calibration_device.joycon_device_)).2.update_input_report_thread_ = true ↔
        (construct JOYCON_VENDOR_ID JOYCON_L_PRODUCT_ID "" false
          (some calibration_device.joycon_device_)).1 = Outcome.returns ()) ∧
      ((construct JOYCON_VENDOR_ID JOYCON_L_PRODUCT_ID "" false
          (some calibration_device.joycon_device_)).1 = Outcome.returns () →
        subcommand_ids new = [some 0x10, some 0x10, some 0x10, some 0x40, some 0x03]) :=
  (construction_order JOYCON_VENDOR_ID JOYCON_L_PRODUCT_ID "" false
    (some calibration_device.joycon_device_)).1 calibration_device.joycon_device_ rfl
    (by decide) rfl

/-- C30: on every successful construction the device has written exactly five reports,
the three flash read requests `(0x6050, 6)`, `(0x8026, 2)` and `(0x8028, 24)` or
`(0x6020, 24)`, then the two reports of `setup_sensors`, with packet counters 0, 1, 2, 3,
4 and the default rumble pattern; the packet counter is 5 and the stored pattern is the
default, whichever calibration region was read. -/
theorem construction_counters (vendor_id product_id : Nat) (serial : String)
    (simple_mode : Bool) (channel : Option hid_device)
    (h : (construct vendor_id product_id serial simple_mode channel).1 = Outcome.returns ()) :
    ∃ dev third new, channel = some dev ∧ (third = 0x8028 ∨ third = 0x6020) ∧
      (construct vendor_id product_id serial simple_mode channel).2.joycon_device_.written
        = dev.written ++ new ∧
      new = [flash_read_request 0 DEFAULT_RUMBLE_DATA 0x6050 6,
        flash_read_request 1 DEFAULT_RUMBLE_DATA 0x8026 2,
        flash_read_request 2 DEFAULT_RUMBLE_DATA third 24,
        [0x01, 3] ++ DEFAULT_RUMBLE_DATA.val ++ [0x40, 0x01],
        [0x01, 4] ++ DEFAULT_RUMBLE_DATA.val ++ [0x03, 0x30]] ∧
      new.length = 5 ∧
      packet_counters new = [some 0, some 1, some 2, some 3, some 4] ∧
      (∀ r ∈ new, rumble_bytes r = DEFAULT_RUMBLE_DATA.val) ∧
      (construct vendor_id product_id serial simple_mode channel).2.packet_number_ = 5 ∧
      (construct vendor_id product_id serial simple_mode channel).2.rumble_data_
        = DEFAULT_RUMBLE_DATA := by
  by_cases hbad : vendor_id ≠ JOYCON_VENDOR_ID ∨ product_id ∉ JOYCON_PRODUCT_IDS ∨ channel = none
  · obtain ⟨e, he, _⟩ := construct_unopened vendor_id product_id serial simple_mode channel hbad
    rw [he] at h
    simp at h
  · have hv : vendor_id = JOYCON_VENDOR_ID := by
      by_contra hne; exact hbad (Or.inl hne)
    have hp : product_id ∈ JOYCON_PRODUCT_IDS := by
      by_contra hne; exact hbad (Or.inr (Or.inl hne))
    obtain ⟨dev, hdev⟩ : ∃ dev, channel = some dev := by
      cases channel with
      | none => exact absurd (Or.inr (Or.inr rfl)) hbad
      | some dev => exact ⟨dev, rfl⟩
    subst hdev
    obtain ⟨new, hw, _, _, hret⟩ :=
      construct_log vendor_id product_id serial simple_mode dev hv hp
    obtain ⟨third, hthird, hnew, hpn, hrumble⟩ := hret h
    refine ⟨dev, third, new, rfl, hthird, hw, hnew, by rw [hnew]; rfl, ?_, ?_, hpn, hrumble⟩
    · rw [hnew]
      simp only [packet_counters, List.map_cons, List.map_nil,
        (flash_read_request_bytes _ _ _ _).2.1, (frame_shape _ _ _ _).2.1]
    · intro r hr
      rw [hnew] at hr
      simp only [List.mem_cons, List.mem_singleton, List.not_mem_nil, or_false] at hr
      rcases hr with rfl | rfl | rfl | rfl | rfl
      · exact (flash_read_request_bytes _ _ _ _).2.2.2.1
      · exact (flash_read_request_bytes _ _ _ _).2.2.2.1
      · exact (flash_read_request_bytes _ _ _ _).2.2.2.1
      · exact (frame_shape _ _ _ _).2.2.1
      · exact (frame_shape _ _ _ _).2.2.1

/-- Witness of C30: the construction of a left controller whose flash holds the marker of
user calibration. -/
theorem construction_counters_witness :
    ∃ dev third new, some calibration_device.joycon_device_ = some dev ∧
      (third = 0x8028 ∨ third = 0x6020) ∧
      (construct JOYCON_VENDOR_ID JOYCON_L_PRODUCT_ID "" false
        (some calibration_device.joycon_device_)).2.joycon_device_.written
        = dev.written ++ new ∧
      new = [flash_read_request 0 DEFAULT_RUMBLE_DATA 0x6050 6,
        flash_read_request 1 DEFAULT_RUMBLE_DATA 0x8026 2,
        flash_read_request 2 DEFAULT_RUMBLE_DATA third 24,
        [0x01, 3] ++ DEFAULT_RUMBLE_DATA.val ++ [0x40, 0x01],
        [0x01, 4] ++ DEFAULT_RUMBLE_DATA.val ++ [0x03, 0x30]] ∧
      new.length = 5 ∧
      packet_counters new = [some 0, some 1, some 2, some 3, some 4] ∧
      (∀ r ∈ new, rumble_bytes r = DEFAULT_RUMBLE_DATA.val) ∧
      (construct JOYCON_VENDOR_ID JOYCON_L_PRODUCT_ID "" false
        (some calibration_device.joycon_device_)).2.packet_number_ = 5 ∧
      (construct JOYCON_VENDOR_ID JOYCON_L_PRODUCT_ID "" false
        (some calibration_device.joycon_device_)).2.rumble_data_ = DEFAULT_RUMBLE_DATA :=
  construction_counters JOYCON_VENDOR_ID JOYCON_L_PRODUCT_ID "" false
    (some calibration_device.joycon_device_) construct_on_calibration_channel

/-! ## The sample index check -/

/-- The shape shared by the six sensor getters. -/
theorem range_checked_of_shape (getter : JoyCon → StdArray 49 → Int → Outcome F32)
    (value : JoyCon → StdArray 49 → Int → F32)
    (h : ∀ d report sample_idx, getter d report sample_idx =
      if sample_idx < 0 ∨ sample_idx > 2 then
        Outcome.throws (Exception.out_of_range "sample_idx")
      else Outcome.returns (value d report sample_idx)) :
    range_checked getter := by
  intro d report sample_idx
  by_cases hidx : sample_idx < 0 ∨ sample_idx > 2
  · refine ⟨⟨fun _ => hidx, fun _ => ⟨_, by rw [h, if_pos hidx]⟩⟩,
      ⟨fun _ => hidx, fun _ => by rw [h, if_pos hidx]⟩, by rw [h, if_pos hidx]; simp,
      fun _ d2 report2 => by rw [h, h, if_pos hidx, if_pos hidx]⟩
  · refine ⟨⟨fun ⟨e, he⟩ => ?_, fun hc => absurd hc hidx⟩,
      ⟨fun he => ?_, fun hc => absurd hc hidx⟩, by rw [h, if_neg hidx]; simp,
      fun hc => absurd hc hidx⟩
    · rw [h, if_neg hidx] at he
      simp at he
    · rw [h, if_neg hidx] at he
      simp at he

/-- C23: for every report, each of `get_accel_x`, `get_accel_y`, `get_accel_z`,
`get_gyro_x`, `get_gyro_y` and `get_gyro_z` throws if and only if `sample_idx < 0` or
`sample_idx > 2`; what it throws is `out_of_range("sample_idx")`; and in that case the
outcome does not depend on the report (nor on the object): no byte of the report is
read. -/
theorem sensor_getters_range_checked :
    range_checked get_accel_x ∧ range_checked get_accel_y ∧ range_checked get_accel_z ∧
    range_checked get_gyro_x ∧ range_checked get_gyro_y ∧ range_checked get_gyro_z :=
  ⟨range_checked_of_shape _ _ fun _ _ _ => rfl, range_checked_of_shape _ _ fun _ _ _ => rfl,
    range_checked_of_shape _ _ fun _ _ _ => rfl, range_checked_of_shape _ _ fun _ _ _ => rfl,
    range_checked_of_shape _ _ fun _ _ _ => rfl, range_checked_of_shape _ _ fun _ _ _ => rfl⟩

/-- Witness of C23: `get_gyro_y` with sample index 3 and with sample index -1 throws,
whatever the report; with sample index 2 it does not. -/
theorem sensor_getters_range_checked_witness :
    get_gyro_y fresh_device centred_report 3
      = Outcome.throws (Exception.out_of_range "sample_idx") ∧
    get_gyro_y fresh_device centred_report (-1)
      = get_gyro_y calibration_device (report_with 31 [0x34, 0x12]) (-1) ∧
    get_gyro_y fresh_device centred_report 2
      ≠ Outcome.throws (Exception.out_of_range "sample_idx") :=
  ⟨(sensor_getters_range_checked.2.2.2.2.1 fresh_device centred_report 3).2.1.mpr
      (Or.inr (by decide)),
    ((sensor_getters_range_checked.2.2.2.2.1 fresh_device centred_report (-1)).2.2.2
      (Or.inl (by decide)) calibration_device (report_with 31 [0x34, 0x12])).symm,
    fun h => absurd ((sensor_getters_range_checked.2.2.2.2.1 fresh_device centred_report
      2).2.1.mp h) (by decide)⟩

/-! ## The battery fields -/

/-- A one-byte field read by a getter made with `BUTTON_GETTER`, in arithmetic form. -/
theorem button_getter_value (report : StdArray 49) (BYTE BIT NBIT : Nat) (hB : BYTE < 49)
    (hb : BIT + NBIT ≤ 8) :
    BUTTON_GETTER BYTE BIT NBIT report = report.val.getD BYTE 0 / 2 ^ BIT % 2 ^ NBIT := by
  have h := get_nbit_const report ⟨BYTE, hB⟩ BIT NBIT hb
  simp only [] at h
  have hg : report.get ⟨BYTE, hB⟩ = report.val.getD BYTE 0 := by
    have h1 := get_eq_getElem? report ⟨BYTE, hB⟩
    have h2 := report_getD report BYTE hB
    simp only [] at h1
    rw [h2] at h1
    exact (Option.some.inj h1).symm
  rw [BUTTON_GETTER, h, hg]
  rfl

/-- C24: for every report, battery charging is bit 4 of byte 2 (0 or 1) and battery level
is the 3-bit field in bits 5..7 of byte 2 (0..7); the high nibble of byte 2 equals
`charging + 2 * level`; and neither field depends on the low nibble of byte 2 or on any
other byte: two reports whose bytes 2 have the same high nibble give the same fields. -/
theorem battery_fields (report : StdArray 49) :
    get_battery_charging report = report.val.getD 2 0 / 2 ^ 4 % 2 ∧
    get_battery_level report = report.val.getD 2 0 / 2 ^ 5 % 8 ∧
    get_battery_charging report ≤ 1 ∧ get_battery_level report ≤ 7 ∧
    report.val.getD 2 0 / 16 % 16 = get_battery_charging report + 2 * get_battery_level report ∧
    (report.val.getD 2 0 < 256 →
      report.val.getD 2 0 = 16 * (get_battery_charging report + 2 * get_battery_level report)
        + report.val.getD 2 0 % 16) ∧
    (∀ report2 : StdArray 49, report2.val.getD 2 0 / 16 % 16 = report.val.getD 2 0 / 16 % 16 →
      get_battery_charging report2 = get_battery_charging report ∧
      get_battery_level report2 = get_battery_level report) := by
  have hc : ∀ r : StdArray 49, get_battery_charging r = r.val.getD 2 0 / 2 ^ 4 % 2 := fun r =>
    button_getter_value r 2 4 1 (by decide) (by decide)
  have hl : ∀ r : StdArray 49, get_battery_level r = r.val.getD 2 0 / 2 ^ 5 % 8 := fun r =>
    button_getter_value r 2 5 3 (by decide) (by decide)
  refine ⟨hc report, hl report, ?_, ?_, ?_, fun h => ?_, fun report2 h => ?_⟩
  · rw [hc]; omega
  · rw [hl]; omega
  · rw [hc, hl]; omega
  · rw [hc, hl]; omega
  · rw [hc, hl, hc, hl]; omega

/-- Witness of C24: byte 2 is `0x9E`: charging, level 4, low nibble `0xE`. -/
theorem battery_fields_witness :
    get_battery_charging (report_with 2 [0x9E]) = 1 ∧
    get_battery_level (report_with 2 [0x9E]) = 4 ∧
    (report_with 2 [0x9E]).val.getD 2 0 / 16 % 16
      = get_battery_charging (report_with 2 [0x9E])
        + 2 * get_battery_level (report_with 2 [0x9E]) := by
  have h := battery_fields (report_with 2 [0x9E])
  exact ⟨by rw [h.1]; decide, by rw [h.2.1]; decide, h.2.2.2.2.1⟩

/-! ## The callbacks -/

theorem publisher_events_append (hooks : List Nat) (a b : List (StdArray 49)) :
    publisher_events hooks (a ++ b) = publisher_events hooks a ++ publisher_events hooks b := by
  induction a with
  | nil => rfl
  | cons r rest ih =>
    show publisher_events hooks (r :: (rest ++ b)) = _
    rw [publisher_events, ih, publisher_events]
    simp

/-- The events of the publisher over any number of iterations: for each `0x30` report
consumed, the store and then the calls of the callbacks. -/
theorem update_input_report_events (iterations : Nat) (d : JoyCon) :
    ∃ consumed, d.joycon_device_.incoming
        = consumed ++ (update_input_report iterations d).2.1.joycon_device_.incoming ∧
      (update_input_report iterations d).2.2
        = publisher_events d.input_hooks_ (full_state_reports consumed) ∧
      (update_input_report iterations d).2.1.input_hooks_ = d.input_hooks_ := by
  induction iterations generalizing d with
  | zero => exact ⟨[], rfl, rfl, rfl⟩
  | succ n ih =>
    obtain ⟨c1, hc1, hs1, hh1, hret1, hno1⟩ := update_input_report_iteration_spec d
    rw [update_input_report]
    rcases hit : update_input_report_iteration d with ⟨o, d1, ev⟩
    rw [hit] at hc1 hs1 hh1 hret1 hno1
    simp only [] at hc1 hs1 hh1 hret1 hno1
    cases o with
    | throws e =>
      obtain ⟨he, _⟩ := hno1 (by simp)
      refine ⟨c1, hc1, ?_, hh1⟩
      simp only []
      rw [← hs1, he]
      rfl
    | blocks =>
      obtain ⟨he, _⟩ := hno1 (by simp)
      refine ⟨c1, hc1, ?_, hh1⟩
      simp only []
      rw [← hs1, he]
      rfl
    | returns u =>
      obtain ⟨bytes, _, _, _, hev⟩ := hret1 rfl
      obtain ⟨c2, hc2, he2, hh2⟩ := ih d1
      simp only []
      rcases hrest : update_input_report n d1 with ⟨o2, d2, later⟩
      rw [hrest] at hc2 he2 hh2
      simp only [] at hc2 he2 hh2 ⊢
      have hf1 : full_state_reports c1 = [StdArray.filled 49 bytes] := by
        rw [← hs1, hev, stored_reports_iteration]
      refine ⟨c1 ++ c2, by rw [hc1, hc2, List.append_assoc], ?_, by rw [hh2, hh1]⟩
      rw [full_state_reports_append, publisher_events_append, hf1, he2, hh1, hev]
      simp [publisher_events]

/-- With callbacks that do nothing, the publisher that runs them is
`update_input_report`. -/
theorem call_input_hooks_idle (hooks : List Nat) (d : JoyCon) :
    call_input_hooks idle_callbacks hooks d
      = (Outcome.returns (), d, hooks.map PublisherEvent.called) := by
  induction hooks with
  | nil => rfl
  | cons cb rest ih =>
    rw [call_input_hooks]
    simp only [idle_callbacks]
    rw [ih]
    rfl

theorem update_input_report_iteration_calling_idle (d : JoyCon) :
    update_input_report_iteration_calling idle_callbacks d = update_input_report_iteration d := by
  unfold update_input_report_iteration_calling update_input_report_iteration
  rcases read_input_report d with ⟨o, d1⟩
  cases o with
  | throws e => rfl
  | blocks => rfl
  | returns first =>
    simp only []
    rcases state_loop first d1.joycon_device_.incoming with ⟨o2, rest⟩
    cases o2 with
    | throws e => rfl
    | blocks => rfl
    | returns report =>
      simp only []
      rw [call_input_hooks_idle]

theorem update_input_report_calling_idle (iterations : Nat) (d : JoyCon) :
    update_input_report_calling idle_callbacks iterations d
      = update_input_report iterations d := by
  induction iterations generalizing d with
  | zero => rfl
  | succ n ih =>
    rw [update_input_report_calling, update_input_report,
      update_input_report_iteration_calling_idle]
    rcases update_input_report_iteration d with ⟨o, d1, ev⟩
    cases o with
    | throws e => rfl
    | blocks => rfl
    | returns u =>
      simp only []
      rw [ih]

/-- The low four bits of a 32-bit two's-complement `int`: `p & 0xF` is `p mod 16`, also
for a negative `p`. -/
theorem int_bits_and_0xF (p : Int) : int_bits p &&& 0xF = (p % 16).toNat := by
  rw [and_0xF, int_bits]
  norm_num
  omega

/-- C26: when the write is accepted, `set_player_lamp_on(p)`, `enable_vibration(e)` and
`disconnect_device()` each return after writing exactly one report, the 12 bytes
`[0x01, counter, rumble(8), s, a]` with `(s, a) = (0x30, p & 0xF)`, `(0x48, 1 if e else 0)`
and `(0x06, 0x00)` respectively, where `p & 0xF` is `p mod 16` (in `0..15`) for every
integer `p`, negative ones included. -/
theorem one_report_commands (d : JoyCon) (p : Int) (e : Bool)
    (hw : d.joycon_device_.write_faults.head? ≠ some true) :
    ((d.set_player_lamp_on p).1 = Outcome.returns () ∧
      (d.set_player_lamp_on p).2.joycon_device_.written = d.joycon_device_.written ++
        [[0x01, d.packet_number_] ++ d.rumble_data_.val ++ [0x30, (p % 16).toNat]]) ∧
    ((d.enable_vibration e).1 = Outcome.returns () ∧
      (d.enable_vibration e).2.joycon_device_.written = d.joycon_device_.written ++
        [[0x01, d.packet_number_] ++ d.rumble_data_.val ++ [0x48, if e then 1 else 0]]) ∧
    (d.disconnect_device.1 = Outcome.returns () ∧
      d.disconnect_device.2.joycon_device_.written = d.joycon_device_.written ++
        [[0x01, d.packet_number_] ++ d.rumble_data_.val ++ [0x06, 0x00]]) ∧
    (∀ s a : Nat, ([0x01, d.packet_number_] ++ d.rumble_data_.val ++ [s, a]).length = 12) ∧
    ((p % 16).toNat < 16 ∧ (((p % 16).toNat : Nat) : Int) = p % 16) := by
  refine ⟨?_, ?_, ?_, fun s a => ?_, by omega, by omega⟩
  · rw [set_player_lamp_on_eq, write_frame_accepted d _ _ hw, int_bits_and_0xF]
    exact ⟨rfl, rfl⟩
  · rw [enable_vibration_eq, write_frame_accepted d _ _ hw]
    exact ⟨rfl, rfl⟩
  · rw [disconnect_device_eq, write_frame_accepted d _ _ hw]
    exact ⟨rfl, rfl⟩
  · rw [(frame_shape _ _ _ _).2.2.2]
    rfl

/-- Witness of C26: a fresh object, the pattern `-1` (all four lamps) and vibration on. -/
theorem one_report_commands_witness :
    (fresh_device.set_player_lamp_on (-1)).2.joycon_device_.written
      = [[0x01, 0, 0x00, 0x01, 0x40, 0x40, 0x00, 0x01, 0x40, 0x40, 0x30, 0x0F]] ∧
    (fresh_device.enable_vibration true).2.joycon_device_.written
      = [[0x01, 0, 0x00, 0x01, 0x40, 0x40, 0x00, 0x01, 0x40, 0x40, 0x48, 0x01]] ∧
    fresh_device.disconnect_device.2.joycon_device_.written
      = [[0x01, 0, 0x00, 0x01, 0x40, 0x40, 0x00, 0x01, 0x40, 0x40, 0x06, 0x00]] :=
  ⟨(one_report_commands fresh_device (-1) true (by decide)).1.2,
    (one_report_commands fresh_device (-1) true (by decide)).2.1.2,
    (one_report_commands fresh_device (-1) true (by decide)).2.2.1.2⟩

/-! ## The button fields -/

/-- A getter made with `BUTTON_GETTER` for one bit. -/
theorem button_getter_bit (report : StdArray 49) (BYTE BIT : Nat) (hB : BYTE < 49)
    (hb : BIT + 1 ≤ 8) : BUTTON_GETTER BYTE BIT 1 report = bit_of report (BYTE, BIT) := by
  have h := get_nbit_const report ⟨BYTE, hB⟩ BIT 1 hb
  simp only [] at h
  have hg : report.get ⟨BYTE, hB⟩ = report.val.getD BYTE 0 := by
    have h1 := get_eq_getElem? report ⟨BYTE, hB⟩
    have h2 := report_getD report BYTE hB
    simp only [] at h1
    rw [h2] at h1
    exact (Option.some.inj h1).symm
  rw [BUTTON_GETTER, h, hg]
  rfl

/-- The button fields `get_status` decodes, as bits of the report. -/
theorem decoded_buttons_eq (d : JoyCon) (report : StdArray 49) :
    (∃ s, get_status { d with input_report_ := report } = Outcome.returns s ∧
      button_fields s = decoded_buttons d report) ∧
    decoded_buttons d report = button_bits.map fun p => ((bit_of report p : Nat) : Int) := by
  have h0 : ¬ ((0 : Int) < 0 ∨ (0 : Int) > 2) := by decide
  have hg : ∀ BYTE BIT, BYTE < 49 → BIT + 1 ≤ 8 →
      BUTTON_GETTER BYTE BIT 1 report = bit_of report (BYTE, BIT) :=
    fun B b hB hb => button_getter_bit report B b hB hb
  constructor
  · simp only [decoded_buttons, get_status, get_gyro_x, get_gyro_y, get_gyro_z, get_accel_x,
      get_accel_y, get_accel_z, h0, if_false, Outcome.bind]
    exact ⟨_, rfl, rfl⟩
  · simp only [decoded_buttons, get_status, get_gyro_x, get_gyro_y, get_gyro_z, get_accel_x,
      get_accel_y, get_accel_z, h0, if_false, Outcome.bind, button_fields, button_bits,
      List.map_cons, List.map_nil, get_button_y, get_button_x, get_button_b, get_button_a,
      get_button_right_sr, get_button_right_sl, get_button_r, get_button_zr, get_button_plus,
      get_button_home, get_button_down, get_button_up, get_button_right, get_button_left,
      get_button_left_sr, get_button_left_sl, get_button_l, get_button_zl, get_button_minus,
      get_button_capture, get_button_l_stick, get_button_r_stick]
    rw [hg 3 0 (by decide) (by decide), hg 3 1 (by decide) (by decide),
      hg 3 2 (by decide) (by decide), hg 3 3 (by decide) (by decide),
      hg 3 4 (by decide) (by decide), hg 3 5 (by decide) (by decide),
      hg 3 6 (by decide) (by decide), hg 3 7 (by decide) (by decide),
      hg 4 0 (by decide) (by decide), hg 4 1 (by decide) (by decide),
      hg 4 2 (by decide) (by decide), hg 4 3 (by decide) (by decide),
      hg 4 4 (by decide) (by decide), hg 4 5 (by decide) (by decide),
      hg 5 0 (by decide) (by decide), hg 5 1 (by decide) (by decide),
      hg 5 2 (by decide) (by decide), hg 5 3 (by decide) (by decide),
      hg 5 4 (by decide) (by decide), hg 5 5 (by decide) (by decide),
      hg 5 6 (by decide) (by decide), hg 5 7 (by decide) (by decide)]

theorem bit_of_le (report : StdArray 49) (p : Nat × Nat) : bit_of report p ≤ 1 := by
  unfold bit_of
  omega

/-- Flipping bit `b` of a number changes bit `b` and no other bit. -/
theorem bit_flip (x b c : Nat) :
    (x ^^^ 2 ^ b) / 2 ^ c % 2 = if c = b then 1 - x / 2 ^ b % 2 else x / 2 ^ c % 2 := by
  rw [← Nat.toNat_testBit, Nat.testBit_xor, Nat.testBit_two_pow]
  by_cases h : c = b
  · subst h
    rw [if_pos rfl, ← Nat.toNat_testBit]
    cases x.testBit c <;> simp
  · rw [if_neg h, ← Nat.toNat_testBit]
    have hbc : ¬ b = c := fun e => h e.symm
    simp [hbc]

/-- Flipping the bit `p` of a report changes the bit `p` and no other bit. -/
theorem bit_of_flip (report : StdArray 49) (p q : Nat × Nat) (hp : p.1 < 49) :
    bit_of (flip_bit report p.1 p.2) q = if q = p then 1 - bit_of report p else bit_of report q := by
  have hl : p.1 < report.val.length := by rw [report.property]; exact hp
  unfold bit_of flip_bit
  simp only [List.getD_eq_getElem?_getD]
  by_cases h1 : q.1 = p.1
  · rw [h1, List.getElem?_set_self hl]
    simp only [Option.getD_some]
    rw [bit_flip]
    by_cases h2 : q.2 = p.2
    · have hq : q = p := Prod.ext h1 h2
      rw [if_pos h2, if_pos hq]
    · have hq : ¬ q = p := fun e => h2 (by rw [e])
      rw [if_neg h2, if_neg hq]
  · have hq : ¬ q = p := fun e => h1 (by rw [e])
    rw [List.getElem?_set_ne (fun e => h1 e.symm), if_neg hq]

theorem button_bits_getD_map (f : Nat × Nat → Int) (j : Nat) (hj : j < 22) :
    (button_bits.map f).getD j 0 = f (button_bits.getD j (0, 0)) := by
  have hl : j < button_bits.length := hj
  simp [List.getD, List.getElem?_map, List.getElem?_eq_getElem hl]

theorem button_bits_inj : ∀ i, i < 22 → ∀ j, j < 22 →
    button_bits.getD j (0, 0) = button_bits.getD i (0, 0) → j = i := by
  decide

theorem button_bits_range : ∀ p ∈ button_bits, 3 ≤ p.1 ∧ p.1 ≤ 5 ∧ p.2 ≤ 7 := by
  decide

theorem list_ext_getD (l1 l2 : List Int) (n : Nat) (h1 : l1.length = n) (h2 : l2.length = n)
    (h : ∀ i, i < n → l1.getD i 0 = l2.getD i 0) : l1 = l2 := by
  apply List.ext_getElem (by rw [h1, h2])
  intro i hi1 hi2
  have := h i (by omega)
  simpa [List.getD, List.getElem?_eq_getElem hi1, List.getElem?_eq_getElem hi2] using this

theorem report_with_3 (x y z : Nat) :
    (report_with 3 [x, y, z]).val.getD 3 0 = x ∧ (report_with 3 [x, y, z]).val.getD 4 0 = y ∧
      (report_with 3 [x, y, z]).val.getD 5 0 = z :=
  ⟨rfl, rfl, rfl⟩

/-- Every combination of button states is decoded from the report built for it. -/
theorem bit_of_report_of_buttons (bits : List Nat) (hle : ∀ k, bits.getD k 0 ≤ 1) :
    ∀ i, i < 22 → bit_of (report_of_buttons bits) (button_bits.getD i (0, 0)) = bits.getD i 0 := by
  have hb0 := hle 0
  have hb1 := hle 1
  have hb2 := hle 2
  have hb3 := hle 3
  have hb4 := hle 4
  have hb5 := hle 5
  have hb6 := hle 6
  have hb7 := hle 7
  have hb8 := hle 8
  have hb9 := hle 9
  have hb10 := hle 10
  have hb11 := hle 11
  have hb12 := hle 12
  have hb13 := hle 13
  have hb14 := hle 14
  have hb15 := hle 15
  have hb16 := hle 16
  have hb17 := hle 17
  have hb18 := hle 18
  have hb19 := hle 19
  have hb20 := hle 20
  have hb21 := hle 21
  obtain ⟨e3, e4, e5⟩ := report_with_3
    (bits.getD 0 0 + 2 * bits.getD 1 0 + 4 * bits.getD 2 0 + 8 * bits.getD 3 0
      + 16 * bits.getD 4 0 + 32 * bits.getD 5 0 + 64 * bits.getD 6 0 + 128 * bits.getD 7 0)
    (bits.getD 18 0 + 2 * bits.getD 8 0 + 4 * bits.getD 21 0 + 8 * bits.getD 20 0
      + 16 * bits.getD 9 0 + 32 * bits.getD 19 0)
    (bits.getD 10 0 + 2 * bits.getD 11 0 + 4 * bits.getD 12 0 + 8 * bits.getD 13 0
      + 16 * bits.getD 14 0 + 32 * bits.getD 15 0 + 64 * bits.getD 16 0
      + 128 * bits.getD 17 0)
  intro i hi
  interval_cases i <;>
    (simp only [bit_of, button_bits, List.getD_cons_zero, List.getD_cons_succ, report_of_buttons,
        e3, e4, e5, Nat.reducePow]
     omega)

theorem getD_mem {α : Type} (l : List α) (i : Nat) (h : i < l.length) (a : α) :
    l.getD i a ∈ l := by
  rw [List.getD_eq_getElem?_getD, List.getElem?_eq_getElem h]
  exact List.getElem_mem h

/-- C29: `get_status` returns, and every button field it fills (the ten right-side and ten
left-side buttons and the two stick-pressed flags, in the order of `button_fields`) is
one bit of the report: field `i` is bit `button_bits[i]`, a bit of bytes 3..5; it is 0 or
1; no two of the 22 fields read the same bit. Hence flipping the bit of field `i` changes
field `i` and no other field, and every combination `bits` of 22 button states is
decoded from the report `report_of_buttons bits`. -/
theorem button_fields_are_bits (d : JoyCon) (report : StdArray 49) :
    (∃ s, get_status { d with input_report_ := report } = Outcome.returns s ∧
      button_fields s = decoded_buttons d report) ∧
    decoded_buttons d report = button_bits.map (fun p => ((bit_of report p : Nat) : Int)) ∧
    button_bits.length = 22 ∧ button_bits.Nodup ∧
    (∀ p ∈ button_bits, 3 ≤ p.1 ∧ p.1 ≤ 5 ∧ p.2 ≤ 7) ∧
    (∀ v ∈ decoded_buttons d report, v = 0 ∨ v = 1) ∧
    (∀ i j, i < 22 → j < 22 →
      (decoded_buttons d (flip_bit report (button_bits.getD i (0, 0)).1
          (button_bits.getD i (0, 0)).2)).getD j 0
        = if j = i then 1 - (decoded_buttons d report).getD i 0
          else (decoded_buttons d report).getD j 0) ∧
    (∀ bits : List Nat, bits.length = 22 → (∀ v ∈ bits, v ≤ 1) →
      decoded_buttons d (report_of_buttons bits) = bits.map Int.ofNat) := by
  have hdec := fun r => (decoded_buttons_eq d r).2
  refine ⟨(decoded_buttons_eq d report).1, hdec report, rfl, by decide, button_bits_range,
    ?_, ?_, ?_⟩
  · intro v hv
    rw [hdec, List.mem_map] at hv
    obtain ⟨p, _, rfl⟩ := hv
    have := bit_of_le report p
    omega
  · intro i j hi hj
    have hp : (button_bits.getD i (0, 0)).1 < 49 := by
      have hl : i < button_bits.length := hi
      have hmem : button_bits.getD i (0, 0) ∈ button_bits := getD_mem _ i hl _
      have := button_bits_range _ hmem
      omega
    rw [hdec, hdec, button_bits_getD_map _ j hj, button_bits_getD_map _ i hi,
      button_bits_getD_map _ j hj, bit_of_flip report _ _ hp]
    have hle := bit_of_le report (button_bits.getD i (0, 0))
    by_cases hji : j = i
    · subst hji
      rw [if_pos rfl, if_pos rfl]
      omega
    · have hne : ¬ button_bits.getD j (0, 0) = button_bits.getD i (0, 0) :=
        fun e => hji (button_bits_inj i hi j hj e)
      rw [if_neg hne, if_neg hji]
  · intro bits hlen hle
    have hle1 : ∀ k, bits.getD k 0 ≤ 1 := by
      intro k
      by_cases hk : k < bits.length
      · exact hle _ (getD_mem _ k hk _)
      · simp [List.getD, List.getElem?_eq_none (Nat.le_of_not_lt hk)]
    apply list_ext_getD _ _ 22 (by rw [hdec]; rfl) (by rw [List.length_map, hlen])
    intro i hi
    rw [hdec, button_bits_getD_map _ i hi, bit_of_report_of_buttons bits hle1 i hi]
    have hk : i < bits.length := by omega
    simp [List.getD, List.getElem?_map, List.getElem?_eq_getElem hk]

/-- Witness of C29: with no button held, flipping bit 3 of byte 4 presses the left stick
and nothing else. -/
theorem button_fields_are_bits_witness :
    decoded_buttons fresh_device (StdArray.filled 49 [])
      = [0, 0, 0, 0, 0, 0, 0, 0, 0, 0, 0, 0, 0, 0, 0, 0, 0, 0, 0, 0, 0, 0] ∧
    decoded_buttons fresh_device (flip_bit (StdArray.filled 49 []) 4 3)
      = [0, 0, 0, 0, 0, 0, 0, 0, 0, 0, 0, 0, 0, 0, 0, 0, 0, 0, 0, 0, 1, 0] := by
  have h1 := (button_fields_are_bits fresh_device (StdArray.filled 49 [])).2.1
  have h2 := (button_fields_are_bits fresh_device (flip_bit (StdArray.filled 49 []) 4 3)).2.1
  rw [h1, h2]
  decide

/-! ## The bounds of the flash read -/

/-- An index below the length of a list is read. -/
theorem getElem?_in_bounds (l : List Nat) (i : Nat) (h : i < l.length) :
    ∃ b, l[i]? = some b :=
  ⟨l[i], List.getElem?_eq_getElem h⟩

/-- An element of a slice `[from, from + count)` that fits is the element of the list at the
shifted index. -/
theorem slice_getElem? (l : List Nat) (start count i : Nat) (hfit : start + count ≤ l.length)
    (hi : i < count) :
    ∃ b, l[start + i]? = some b ∧ ((l.drop start).take count)[i]? = some b := by
  obtain ⟨b, hb⟩ := getElem?_in_bounds l (start + i) (by omega)
  refine ⟨b, hb, ?_⟩
  rw [List.getElem?_take_of_lt hi, List.getElem?_drop, hb]

/-- C31: for every `size ≤ 0x1D`, every index `spi_flash_read` reads in the 36-byte reply
data returned by `send_subcmd_get_response` (bytes 13..48 of the report) is in bounds:
indices 0 and 1 of the acknowledgement test, indices 2..6 of the echo comparison with the
five argument bytes, and the payload slice `[7, 7 + size)`, which ends at or before index
36; so the result has exactly `size` bytes. `0x1D` is the largest size for which the slice
fits: `7 + 0x1E > 36`, and a slice of `0x1E` bytes from index 7 would have 29 bytes only. -/
theorem spi_flash_read_in_bounds (d d1 : JoyCon) (address size : Nat) (ack : Bool)
    (data : List Nat) (hs : size ≤ 0x1d)
    (hret : d.send_subcmd_get_response 0x10 (spi_argument address size)
      = (Outcome.returns (ack, data), d1)) :
    data.length = 36 ∧
    (∃ b0 b1, data[0]? = some b0 ∧ data[1]? = some b1) ∧
    (spi_argument address size).length = 5 ∧
    (∀ i, i < 5 → ∃ b, data[2 + i]? = some b ∧
      ((data.drop 2).take (spi_argument address size).length)[i]? = some b) ∧
    7 + size ≤ 36 ∧
    (∀ i, i < size → ∃ b, data[7 + i]? = some b ∧ ((data.drop 7).take size)[i]? = some b) ∧
    ((data.drop 7).take size).length = size ∧
    (∀ payload d2, d.spi_flash_read address size = (Outcome.returns payload, d2) →
      payload = (data.drop 7).take size ∧ payload.length = size) ∧
    (7 + 0x1e > 36 ∧ ((data.drop 7).take 0x1e).length = 29) := by
  obtain ⟨skipped, R, _, _, _, _, _, hdata, _⟩ :=
    send_subcmd_get_response_returns d d1 0x10 _ ack data hret
  have hlen : data.length = 36 := by
    rw [hdata, List.length_drop, (StdArray.filled 49 R).property]
  have harg : (spi_argument address size).length = 5 := by rw [spi_argument_eq]; rfl
  obtain ⟨b0, hb0⟩ := getElem?_in_bounds data 0 (by omega)
  obtain ⟨b1, hb1⟩ := getElem?_in_bounds data 1 (by omega)
  refine ⟨hlen, ⟨b0, b1, hb0, hb1⟩, harg, fun i hi => ?_, by omega,
    fun i hi => slice_getElem? data 7 size i (by omega) hi, ?_, fun payload d2 hp => ?_,
    by decide, ?_⟩
  · rw [harg]
    exact slice_getElem? data 2 5 i (by omega) hi
  · rw [List.length_take, List.length_drop, hlen]
    omega
  · have hp1 := hp
    rw [spi_flash_read_eq, hret] at hp1
    have hs1 : ¬ size > 0x1d := by omega
    simp only [hs1, if_false] at hp1
    split at hp1
    · simp at hp1
    · split at hp1
      · simp at hp1
      · split at hp1
        · simp at hp1
        · have := congrArg Prod.fst hp1
          simp only [Outcome.returns.injEq] at this
          exact ⟨this.symm, spi_flash_read_length _ _ _ _ _ hp⟩
  · rw [List.length_take, List.length_drop, hlen]
    rfl

/-- Witness of C31: the colour read of 6 bytes. -/
theorem spi_flash_read_in_bounds_witness :
    ((StdArray.filled 49 (spi_reply 0x90 0x10)).val.drop 13).length = 36 ∧
    7 + 6 ≤ 36 ∧
    ((((StdArray.filled 49 (spi_reply 0x90 0x10)).val.drop 13).drop 7).take 6).length = 6 := by
  have h := spi_flash_read_in_bounds (spi_device (spi_reply 0x90 0x10))
    ((spi_device (spi_reply 0x90 0x10)).send_subcmd_get_response 0x10
      (spi_argument 0x6050 6)).2
    0x6050 6 true ((StdArray.filled 49 (spi_reply 0x90 0x10)).val.drop 13) (by decide)
    (Prod.ext (by decide) rfl)
  exact ⟨h.1, h.2.2.2.2.1, h.2.2.2.2.2.2.1⟩

/-! ## A write that fails -/

/-- A frame step whose write is refused: it throws, and only the fault list changes. -/
theorem write_frame_rejected (d : JoyCon) (id : Nat) (tail : List Nat)
    (hw : d.joycon_device_.write_faults.head? = some true) :
    write_frame d id tail = (write_failure,
      { d with joycon_device_ :=
        { d.joycon_device_ with write_faults := d.joycon_device_.write_faults.tail } }) := by
  rcases write_frame_cases d id tail with ⟨_, hf⟩ | ⟨h, _⟩
  · exact absurd hw hf
  · exact h

/-- C32, counterexample: on a channel that refuses the write, `rumble_simple()` throws and
leaves the packet counter as it was, but the stored rumble pattern is the requested one,
not the pattern stored before the call. And when the channel accepts the first write of
`setup_sensors()` and refuses the second, the call throws with the counter advanced by
one. -/
theorem failed_rumble_changes_the_pattern :
    ((faulty_device [true]).rumble_simple).1 = write_failure ∧
    ((faulty_device [true]).rumble_simple).2.packet_number_
      = (faulty_device [true]).packet_number_ ∧
    ((faulty_device [true]).rumble_simple).2.rumble_data_ = RUMBLE_SIMPLE_DATA ∧
    ((faulty_device [true]).rumble_simple).2.rumble_data_ ≠ (faulty_device [true]).rumble_data_ ∧
    ((faulty_device [false, true]).setup_sensors).1 = write_failure ∧
    (faulty_device [false, true]).packet_number_ = 0 ∧
    ((faulty_device [false, true]).setup_sensors).2.packet_number_ = 1 := by
  decide

/-- C32 (amended): when the channel refuses the write, every report-sending operation
throws the write failure, writes nothing and leaves the packet counter as it was. The
lamp commands, `enable_vibration`, `disconnect_device`, `send_subcmd_get_response` and
`setup_sensors` also leave the stored rumble pattern as it was; a rumble command has
stored the requested pattern before the write, and it stays stored. A lamp command with
a player number outside 1..8 throws before it writes and changes nothing. When the
channel accepts the first write of `setup_sensors` and refuses the second, the call throws
after its first report was written, with the counter advanced by one and the pattern
unchanged. -/
theorem failed_write_state (d : JoyCon)
    (hw : d.joycon_device_.write_faults.head? = some true) :
    (∀ p, (d.set_player_lamp_on p).1 = write_failure ∧
      counter_and_pattern_kept d (d.set_player_lamp_on p).2) ∧
    (∀ n, (1 ≤ n ∧ n ≤ 8 → (d.set_player_lamp n).1 = write_failure ∧
        (d.set_player_lamp_flashing n).1 = write_failure) ∧
      (∃ e, (d.set_player_lamp n).1 = Outcome.throws e) ∧
      (∃ e, (d.set_player_lamp_flashing n).1 = Outcome.throws e) ∧
      counter_and_pattern_kept d (d.set_player_lamp n).2 ∧
      counter_and_pattern_kept d (d.set_player_lamp_flashing n).2) ∧
    (∀ e, (d.enable_vibration e).1 = write_failure ∧
      counter_and_pattern_kept d (d.enable_vibration e).2) ∧
    (d.disconnect_device.1 = write_failure ∧ counter_and_pattern_kept d d.disconnect_device.2) ∧
    (∀ subcommand argument,
      (d.send_subcmd_get_response subcommand argument).1 = write_failure ∧
      counter_and_pattern_kept d (d.send_subcmd_get_response subcommand argument).2) ∧
    (d.setup_sensors.1 = write_failure ∧ counter_and_pattern_kept d d.setup_sensors.2) ∧
    (∀ data, (d.send_rumble data).1 = write_failure ∧
      (d.send_rumble data).2.packet_number_ = d.packet_number_ ∧
      (d.send_rumble data).2.joycon_device_.written = d.joycon_device_.written ∧
      (d.send_rumble data).2.rumble_data_ = data) ∧
    (d.rumble_simple = d.send_rumble RUMBLE_SIMPLE_DATA ∧
      d.rumble_bump = d.send_rumble RUMBLE_BUMP_DATA ∧
      d.rumble_stop = d.send_rumble DEFAULT_RUMBLE_DATA) ∧
    (∀ d2 : JoyCon, d2.joycon_device_.write_faults.head? ≠ some true →
      d2.joycon_device_.write_faults.tail.head? = some true →
      d2.setup_sensors.1 = write_failure ∧
      d2.setup_sensors.2.packet_number_ = (d2.packet_number_ + 1) % 16 ∧
      d2.setup_sensors.2.rumble_data_ = d2.rumble_data_ ∧
      d2.setup_sensors.2.joycon_device_.written = d2.joycon_device_.written
        ++ [[0x01, d2.packet_number_] ++ d2.rumble_data_.val ++ [0x40, 0x01]]) := by
  have hf := fun id tail => write_frame_rejected d id tail hw
  have hlamp : ∀ (n : Int) (f : Nat → Nat),
      (1 ≤ n ∧ n ≤ 8 →
        (match binaryPattern n with
          | none => (Outcome.throws (Exception.invalid_argument "Invalid player number"), d)
          | some pattern => write_frame d 0x01 [0x30, f pattern]).1 = write_failure) ∧
      (∃ e, (match binaryPattern n with
          | none => (Outcome.throws (Exception.invalid_argument "Invalid player number"), d)
          | some pattern => write_frame d 0x01 [0x30, f pattern]).1 = Outcome.throws e) ∧
      counter_and_pattern_kept d (match binaryPattern n with
          | none => (Outcome.throws (Exception.invalid_argument "Invalid player number"), d)
          | some pattern => write_frame d 0x01 [0x30, f pattern]).2 := by
    intro n f
    cases hbp : binaryPattern n with
    | none =>
      refine ⟨fun hn => ?_, ⟨_, rfl⟩, rfl, rfl, rfl⟩
      obtain ⟨hpc, code, hcode, _⟩ := binaryPattern_eq_player_code n hn.1 hn.2
      rw [hbp] at hpc
      rw [← hpc] at hcode
      simp at hcode
    | some pattern =>
      simp only []
      rw [hf]
      exact ⟨fun _ => rfl, ⟨_, rfl⟩, rfl, rfl, rfl⟩
  refine ⟨fun p => ?_, fun n => ?_, fun e => ?_, ?_, fun subcommand argument => ?_, ?_,
    fun data => ?_, ⟨rfl, rfl, rfl⟩, fun d2 h1 h2 => ?_⟩
  · rw [set_player_lamp_on_eq, hf]
    exact ⟨rfl, rfl, rfl, rfl⟩
  · rw [set_player_lamp_eq, set_player_lamp_flashing_eq]
    obtain ⟨a1, a2, a3⟩ := hlamp n (fun p => p &&& 0xF)
    obtain ⟨b1, b2, b3⟩ := hlamp n (fun p => (p &&& 0xF) <<< 4)
    exact ⟨fun hn => ⟨a1 hn, b1 hn⟩, a2, b2, a3, b3⟩
  · rw [enable_vibration_eq, hf]
    exact ⟨rfl, rfl, rfl, rfl⟩
  · rw [disconnect_device_eq, hf]
    exact ⟨rfl, rfl, rfl, rfl⟩
  · rw [send_subcmd_get_response_eq, hf]
    exact ⟨rfl, rfl, rfl, rfl⟩
  · rw [setup_sensors_eq, hf]
    exact ⟨rfl, rfl, rfl, rfl⟩
  · rw [send_rumble_eq, write_frame_rejected { d with rumble_data_ := data } 0x10 [] hw]
    exact ⟨rfl, rfl, rfl, rfl⟩
  · rw [setup_sensors_eq, write_frame_accepted d2 0x01 [0x40, 0x01] h1]
    simp only []
    rw [write_frame_rejected _ 0x01 [0x03, 0x30] h2]
    exact ⟨rfl, rfl, rfl, rfl⟩

/-- Witness of C32 (amended): a fresh object on a channel that refuses the first write. -/
theorem failed_write_state_witness :
    ((faulty_device [true]).enable_vibration true).1 = write_failure ∧
    counter_and_pattern_kept (faulty_device [true])
      ((faulty_device [true]).enable_vibration true).2 ∧
    ((faulty_device [true]).send_rumble RUMBLE_BUMP_DATA).2.rumble_data_ = RUMBLE_BUMP_DATA :=
  ⟨((failed_write_state (faulty_device [true]) (by decide)).2.2.1 true).1,
    ((failed_write_state (faulty_device [true]) (by decide)).2.2.1 true).2,
    ((failed_write_state (faulty_device [true]) (by decide)).2.2.2.2.2.2.1
      RUMBLE_BUMP_DATA).2.2.2⟩

/-! ## A zero raw coefficient -/

/-- The coefficient expression of the two calibration setters at raw coefficient `0`:
the division `S / 0.0f` of a positive sentinel, which is `+infinity`. -/
theorem coeff_zero (S : Int) (hS : 0 < S ∧ S ≤ 32767) :
    (if (0 : Int) ≠ S then F32.div (F32.of_int S) (F32.of_int 0) else F32.finite 1)
      = F32.inf false := by
  have e1 : F32.of_int S = F32.finite S := of_int_small S (by rw [abs_lt]; omega)
  have e2 : F32.of_int 0 = F32.finite 0 := by
    simpa using of_int_small 0 (by decide)
  have hSq : ¬ ((S : Rat) < 0) := by
    have : (0 : Rat) < S := by exact_mod_cast hS.1
    exact not_lt.mpr this.le
  have hS0 : (S : Rat) ≠ 0 := by
    have : (0 : Rat) < S := by exact_mod_cast hS.1
    exact this.ne.symm
  rw [if_pos (by omega), e1, e2]
  simp [F32.div, hS0, hSq]

/-- The six stored coefficients after `read_joycon_data`, by the raw values of the
calibration bytes. -/
theorem read_joycon_data_coeff (d da db dc : JoyCon) (color_data marker b : List Nat)
    (h1 : d.spi_flash_read 0x6050 6 = (Outcome.returns color_data, da))
    (h2 : da.spi_flash_read 0x8026 2 = (Outcome.returns marker, db))
    (h3 : db.spi_flash_read (if marker = [0xB2, 0xA1] then 0x8028 else 0x6020) 24
      = (Outcome.returns b, dc)) (j : Nat) (hj : j < 3) :
    axis_coeff (d.read_joycon_data).2 j =
      (if calibration_value b (j + 3) ≠ 0x4000 then
        F32.div (F32.of_int 0x4000) (F32.of_int (calibration_value b (j + 3)))
      else F32.finite 1) ∧
    axis_coeff (d.read_joycon_data).2 (j + 3) =
      (if calibration_value b (j + 9) ≠ 0x343b then
        F32.div (F32.of_int 0x343b) (F32.of_int (calibration_value b (j + 9)))
      else F32.finite 1) := by
  rw [read_joycon_data_run d da db dc color_data marker b h1 h2 h3]
  have hcases : j = 0 ∨ j = 1 ∨ j = 2 := by omega
  rcases hcases with rfl | rfl | rfl <;> exact ⟨rfl, rfl⟩

/-- C33, counterexample: a calibration block of 24 zero bytes is read from flash
(factory area, no user calibration); `read_joycon_data` returns, the raw accelerometer
coefficient of the x axis is `0`, which differs from the sentinel `0x4000` and so reaches
the division, and the stored coefficient is `+infinity`, not a finite number. -/
theorem read_joycon_data_divides_by_zero :
    (zero_calibration_device.read_joycon_data).1 = Outcome.returns () ∧
    calibration_value (List.replicate 24 0) 3 = 0 ∧
    calibration_value (List.replicate 24 0) 3 ≠ 0x4000 ∧
    F32.of_int (calibration_value (List.replicate 24 0) 3) = F32.finite 0 ∧
    (zero_calibration_device.read_joycon_data).2.ACCEL_COEFF_X_ = F32.inf false ∧
    ∀ r : Rat, (zero_calibration_device.read_joycon_data).2.ACCEL_COEFF_X_ ≠ F32.finite r := by
  have hrun := read_joycon_data_run zero_calibration_device
    (zero_calibration_device.spi_flash_read 0x6050 6).2
    ((zero_calibration_device.spi_flash_read 0x6050 6).2.spi_flash_read 0x8026 2).2
    (((zero_calibration_device.spi_flash_read 0x6050 6).2.spi_flash_read 0x8026 2).2.spi_flash_read
      0x6020 24).2
    [0x82, 0x82, 0x82, 0x0F, 0x0F, 0x0F] [0xFF, 0xFF] (List.replicate 24 0)
    (Prod.ext (by decide) rfl) (Prod.ext (by decide) rfl) (Prod.ext (by decide) rfl)
  have hv : calibration_value (List.replicate 24 0) 3 = 0 := by decide
  have hx : (zero_calibration_device.read_joycon_data).2.ACCEL_COEFF_X_ = F32.inf false := by
    rw [hrun]
    show (if calibration_value (List.replicate 24 0) 3 ≠ 0x4000 then
        F32.div (F32.of_int 0x4000) (F32.of_int (calibration_value (List.replicate 24 0) 3))
      else F32.finite 1) = F32.inf false
    rw [hv]
    exact coeff_zero 0x4000 (by decide)
  refine ⟨by rw [hrun], hv, by decide, ?_, hx, fun r => ?_⟩
  · rw [hv]
    simpa using of_int_small 0 (by decide)
  · rw [hx]
    exact fun h => F32.noConfusion h

/-- C33 (amended): for every 24-byte calibration block `b` read from flash,
`read_joycon_data` returns, and for each axis the stored coefficient is a finite number
when the raw 16-bit coefficient is non-zero (`1` at the sentinel, else the rounded
quotient); a raw coefficient `0` differs from the sentinel, reaches the division, and the
stored coefficient is `+infinity`. -/
theorem read_joycon_data_coefficients (d da db dc : JoyCon) (color_data marker b : List Nat)
    (h1 : d.spi_flash_read 0x6050 6 = (Outcome.returns color_data, da))
    (h2 : da.spi_flash_read 0x8026 2 = (Outcome.returns marker, db))
    (h3 : db.spi_flash_read (if marker = [0xB2, 0xA1] then 0x8028 else 0x6020) 24
      = (Outcome.returns b, dc)) :
    b.length = 24 ∧
    (d.read_joycon_data).1 = Outcome.returns () ∧
    (∀ j, j < 3 →
      (calibration_value b (j + 3) ≠ 0 →
        ∃ r : Rat, axis_coeff (d.read_joycon_data).2 j = F32.finite r ∧
          (calibration_value b (j + 3) = 0x4000 → r = 1)) ∧
      (calibration_value b (j + 3) = 0 →
        axis_coeff (d.read_joycon_data).2 j = F32.inf false) ∧
      (calibration_value b (j + 9) ≠ 0 →
        ∃ r : Rat, axis_coeff (d.read_joycon_data).2 (j + 3) = F32.finite r ∧
          (calibration_value b (j + 9) = 0x343B → r = 1)) ∧
      (calibration_value b (j + 9) = 0 →
        axis_coeff (d.read_joycon_data).2 (j + 3) = F32.inf false)) := by
  refine ⟨spi_flash_read_length _ _ _ _ _ h3,
    by rw [read_joycon_data_run d da db dc color_data marker b h1 h2 h3], fun j hj => ?_⟩
  obtain ⟨ha, hg⟩ := read_joycon_data_coeff d da db dc color_data marker b h1 h2 h3 j hj
  rw [ha, hg]
  refine ⟨fun hne => ?_, fun h0 => ?_, fun hne => ?_, fun h0 => ?_⟩
  · obtain ⟨r, hr, hr1, _⟩ := coeff_rounding 0x4000 (calibration_value b (j + 3)) (by decide)
      (to_int16le_from_2bytes_range _ _) hne
    exact ⟨r, hr, hr1⟩
  · rw [h0]
    exact coeff_zero 0x4000 (by decide)
  · obtain ⟨r, hr, hr1, _⟩ := coeff_rounding 0x343B (calibration_value b (j + 9)) (by decide)
      (to_int16le_from_2bytes_range _ _) hne
    exact ⟨r, hr, hr1⟩
  · rw [h0]
    exact coeff_zero 0x343B (by decide)

/-- Witness of C33 (amended): the calibration bytes `calibration_bytes` read from the
user area; the raw accelerometer coefficient of the y axis is `0x2000`, and the stored
coefficient is finite. -/
theorem read_joycon_data_coefficients_witness :
    (calibration_device.read_joycon_data).1 = Outcome.returns () ∧
      ∃ r : Rat, axis_coeff (calibration_device.read_joycon_data).2 1 = F32.finite r := by
  have h := read_joycon_data_coefficients calibration_device
    (calibration_device.spi_flash_read 0x6050 6).2
    ((calibration_device.spi_flash_read 0x6050 6).2.spi_flash_read 0x8026 2).2
    (((calibration_device.spi_flash_read 0x6050 6).2.spi_flash_read 0x8026 2).2.spi_flash_read
      0x8028 24).2
    [0x82, 0x82, 0x82, 0x0F, 0x0F, 0x0F] [0xB2, 0xA1] calibration_bytes
    (Prod.ext (by decide) rfl) (Prod.ext (by decide) rfl) (Prod.ext (by decide) rfl)
  obtain ⟨r, hr, _⟩ := (h.2.2 1 (by decide)).1 (by decide)
  exact ⟨h.2.1, r, hr⟩

end JoyCon

/-! ## Bluetooth addresses -/

set_option maxRecDepth 100000 in
/-- A byte printed in two hexadecimal digits: two characters, none of them NUL, `':'` or
`'-'`, that `parseBleAddress` reads back as the byte. -/
theorem hex_field_byte : ∀ b : Fin 256,
    hex_field 2 b.val = [Nat.digitChar (b.val / 16), Nat.digitChar (b.val % 16)] ∧
    Nat.digitChar (b.val / 16) ≠ '\x00' ∧ Nat.digitChar (b.val % 16) ≠ '\x00' ∧
    parsed_byte (Nat.digitChar (b.val / 16)) (Nat.digitChar (b.val % 16)) = b.val := by
  decide

/-- One iteration of the loop of `parseBleAddress` on a printed byte followed by `':'`. -/
theorem parseBleAddress_loop_byte (v b : Nat) (hb : b < 256) (rest : List Char) :
    parseBleAddress_loop v (hex_field 2 b ++ ':' :: rest)
      = parseBleAddress_loop (((v <<< 8) % 2 ^ 64) ||| b) rest := by
  obtain ⟨h, h1, h2, h3⟩ := hex_field_byte ⟨b, hb⟩
  simp only [] at h h1 h2 h3
  rw [h]
  simp only [List.cons_append, List.nil_append, parseBleAddress_loop, h1, h2, if_false]
  unfold parsed_byte at h3
  rw [h3]
  simp

/-- The last iteration of the loop of `parseBleAddress`, on a printed byte that ends the
string. -/
theorem parseBleAddress_loop_last (v b : Nat) (hb : b < 256) :
    parseBleAddress_loop v (hex_field 2 b) = some (((v <<< 8) % 2 ^ 64) ||| b) := by
  obtain ⟨h, h1, h2, h3⟩ := hex_field_byte ⟨b, hb⟩
  simp only [] at h h1 h2 h3
  rw [h]
  simp only [parseBleAddress_loop, h1, h2, if_false]
  unfold parsed_byte at h3
  rw [h3]

/-- Appending a byte to a value of at most 48 bits does not overflow. -/
theorem shift_byte (v b : Nat) (hv : v < 2 ^ 48) (hb : b < 256) :
    ((v <<< 8) % 2 ^ 64) ||| b = 256 * v + b := by
  have h := JoyCon.low_or_shift 8 b v (by norm_num; omega)
  rw [Nat.shiftLeft_eq] at h ⊢
  rw [Nat.mod_eq_of_lt (by norm_num; omega), Nat.lor_comm, h]
  norm_num
  omega

/-- C34: for every address value `raw`, the string `addrBLE(raw)` is six two-digit
lower-case hexadecimal bytes, most significant first, separated by `':'` (17 characters),
and `parseBleAddress(addrBLE(raw))` returns `raw mod 2^48`. -/
theorem parseBleAddress_addrBLE (raw : Nat) :
    parseBleAddress (addrBLE raw) = some (raw % 2 ^ 48) ∧
    (addrBLE raw).length = 17 ∧
    addrBLE raw =
      [Nat.digitChar (raw / 2 ^ 40 % 256 / 16), Nat.digitChar (raw / 2 ^ 40 % 256 % 16), ':',
        Nat.digitChar (raw / 2 ^ 32 % 256 / 16), Nat.digitChar (raw / 2 ^ 32 % 256 % 16), ':',
        Nat.digitChar (raw / 2 ^ 24 % 256 / 16), Nat.digitChar (raw / 2 ^ 24 % 256 % 16), ':',
        Nat.digitChar (raw / 2 ^ 16 % 256 / 16), Nat.digitChar (raw / 2 ^ 16 % 256 % 16), ':',
        Nat.digitChar (raw / 2 ^ 8 % 256 / 16), Nat.digitChar (raw / 2 ^ 8 % 256 % 16), ':',
        Nat.digitChar (raw / 2 ^ 0 % 256 / 16), Nat.digitChar (raw / 2 ^ 0 % 256 % 16)] := by
  have hb : ∀ i, (raw >>> (i * 8)) &&& 0xFF = raw / 2 ^ (i * 8) % 256 := fun i => by
    rw [JoyCon.and_0xFF, Nat.shiftRight_eq_div_pow]
  have hlt : ∀ i, raw / 2 ^ (i * 8) % 256 < 256 := fun i => Nat.mod_lt _ (by decide)
  have hform : addrBLE raw = hex_field 2 (raw / 2 ^ (5 * 8) % 256) ++ ':' ::
      (hex_field 2 (raw / 2 ^ (4 * 8) % 256) ++ ':' ::
      (hex_field 2 (raw / 2 ^ (3 * 8) % 256) ++ ':' ::
      (hex_field 2 (raw / 2 ^ (2 * 8) % 256) ++ ':' ::
      (hex_field 2 (raw / 2 ^ (1 * 8) % 256) ++ ':' ::
      hex_field 2 (raw / 2 ^ (0 * 8) % 256))))) := by
    simp only [addrBLE, hb, List.append_assoc, List.singleton_append, List.cons_append,
      List.nil_append]
  refine ⟨?_, ?_, ?_⟩
  · rw [parseBleAddress, hform, parseBleAddress_loop_byte _ _ (hlt 5),
      parseBleAddress_loop_byte _ _ (hlt 4), parseBleAddress_loop_byte _ _ (hlt 3),
      parseBleAddress_loop_byte _ _ (hlt 2), parseBleAddress_loop_byte _ _ (hlt 1),
      parseBleAddress_loop_last _ _ (hlt 0)]
    have h5 := hlt 5
    have h4 := hlt 4
    have h3 := hlt 3
    have h2 := hlt 2
    have h1 := hlt 1
    have h0 := hlt 0
    rw [shift_byte 0 _ (by norm_num) h5, shift_byte _ _ (by omega) h4,
      shift_byte _ _ (by omega) h3, shift_byte _ _ (by omega) h2,
      shift_byte _ _ (by omega) h1, shift_byte _ _ (by omega) h0]
    congr 1
    norm_num at h5 h4 h3 h2 h1 h0 ⊢
    omega
  · rw [hform]
    simp only [(hex_field_byte ⟨_, hlt 5⟩).1, (hex_field_byte ⟨_, hlt 4⟩).1,
      (hex_field_byte ⟨_, hlt 3⟩).1, (hex_field_byte ⟨_, hlt 2⟩).1,
      (hex_field_byte ⟨_, hlt 1⟩).1, (hex_field_byte ⟨_, hlt 0⟩).1]
    rfl
  · rw [hform]
    simp only [(hex_field_byte ⟨_, hlt 5⟩).1, (hex_field_byte ⟨_, hlt 4⟩).1,
      (hex_field_byte ⟨_, hlt 3⟩).1, (hex_field_byte ⟨_, hlt 2⟩).1,
      (hex_field_byte ⟨_, hlt 1⟩).1, (hex_field_byte ⟨_, hlt 0⟩).1]
    rfl

/-- Witness of C34: the address `0x0123456789abcdef`, printed as `45:67:89:ab:cd:ef`. -/
theorem parseBleAddress_addrBLE_witness :
    parseBleAddress (addrBLE 0x0123456789abcdef) = some 0x456789abcdef ∧
    addrBLE 0x0123456789abcdef = "45:67:89:ab:cd:ef".toList :=
  ⟨(parseBleAddress_addrBLE 0x0123456789abcdef).1, by decide⟩
